import Mathlib

/-!
Ray-tracing acceleration containers: validation, reference retention, lifecycle.

A shallow embedding of `src/dawn_native/RayTracingAccelerationContainer.cpp`, of the D3D12
container and bind group (`d3d12/RayTracingAccelerationContainerD3D12.cpp`,
`d3d12/BindGroupD3D12.cpp`) and of the Vulkan shader binding table
(`vulkan/RayTracingShaderBindingTableVk.cpp`).

* Objects live in a heap indexed by address; a C++ pointer is an `Addr`, a nullable
  pointer an `Option`.  Pointer equality is equality of addresses.
* A `(count, pointer)` pair of a descriptor is a `List`; the count is its length.
* `MaybeError` is `Except ErrorData Unit`; `DAWN_TRY` is the monadic bind.
* `UNREACHABLE()` is the outcome `none` of an operation returning `Option`; so is the
  dereference of a null pointer.
* Unsigned machine integers are natural numbers, reduced modulo `2 ^ w` where the source
  computes in `w` bits.
* Services of the device and of classes that are not among the sources are parameters: records
  of functions, whose answers may depend on a log of the calls made before.
-/

set_option autoImplicit false

namespace dawn_native

/-! ## Errors -/

/-- Kinds of error carried by `ErrorData`. -/
inductive ErrorType where
  | Validation
  | DeviceLost
  | Unimplemented
  | OutOfMemory
deriving DecidableEq, Repr

/-- An error value: its kind and its message. -/
structure ErrorData where
  type : ErrorType
  message : String
deriving DecidableEq, Repr

/-- The result of a fallible operation that produces no value. -/
abbrev MaybeError := Except ErrorData Unit

/-- The macro `DAWN_VALIDATION_ERROR(msg)`. -/
def DAWN_VALIDATION_ERROR (message : String) : ErrorData :=
  { type := ErrorType.Validation, message := message }

/-- The macro `DAWN_DEVICE_LOST_ERROR(msg)`. -/
def DAWN_DEVICE_LOST_ERROR (message : String) : ErrorData :=
  { type := ErrorType.DeviceLost, message := message }

/-- Success test on a `MaybeError`. -/
def MaybeError.IsSuccess : MaybeError → Bool
  | Except.ok _ => true
  | Except.error _ => false

/-- Failure test on a `MaybeError`. -/
def MaybeError.IsError : MaybeError → Bool
  | Except.ok _ => false
  | Except.error _ => true

/-- Test that a `MaybeError` is an error of kind `Validation`. -/
def MaybeError.IsValidationError : MaybeError → Bool
  | Except.ok _ => false
  | Except.error e => decide (e.type = ErrorType.Validation)

/-! ## Enumerations and descriptors -/

/-- An object address (pointer identity). -/
abbrev Addr := Nat

/-- The enum `wgpu::RayTracingAccelerationContainerLevel`; `Invalid` stands for every value of
the underlying integer type that is neither `Bottom` nor `Top`. -/
inductive RayTracingAccelerationContainerLevel where
  | Bottom
  | Top
  | Invalid
deriving DecidableEq, Repr

/-- The enum `wgpu::RayTracingAccelerationGeometryType`; `Invalid` stands for every value of
the underlying integer type that is neither `Triangles` nor `Aabbs`. -/
inductive RayTracingAccelerationGeometryType where
  | Triangles
  | Aabbs
  | Invalid
deriving DecidableEq, Repr

/-- The fields of `BufferBase` read by the container code. -/
structure BufferBase where
  size : Nat
  usage : Nat
  isDestroyed : Bool
deriving DecidableEq, Repr

/-- Accessor `BufferBase::GetSize`. -/
def BufferBase.GetSize (b : BufferBase) : Nat := b.size

/-- Accessor `BufferBase::GetUsage`. -/
def BufferBase.GetUsage (b : BufferBase) : Nat := b.usage

/-- Vertex data of a geometry; `buffer` is a pointer to a buffer object and may be null. -/
structure RayTracingAccelerationGeometryVertexDescriptor where
  buffer : Option Addr
  format : Nat
  stride : Nat
  offset : Nat
  count : Nat
deriving DecidableEq, Repr

/-- Index data of a geometry; `buffer` is a pointer to a buffer object and may be null. -/
structure RayTracingAccelerationGeometryIndexDescriptor where
  buffer : Option Addr
  format : Nat
  offset : Nat
  count : Nat
deriving DecidableEq, Repr

/-- AABB data of a geometry; `buffer` is a pointer to a buffer object and may be null. -/
structure RayTracingAccelerationGeometryAABBDescriptor where
  buffer : Option Addr
  offset : Nat
  count : Nat
deriving DecidableEq, Repr

/-- One geometry of a bottom-level descriptor; the three data pointers are nullable. -/
structure RayTracingAccelerationGeometryDescriptor where
  type : RayTracingAccelerationGeometryType
  flags : Nat
  vertex : Option RayTracingAccelerationGeometryVertexDescriptor
  index : Option RayTracingAccelerationGeometryIndexDescriptor
  aabb : Option RayTracingAccelerationGeometryAABBDescriptor
deriving DecidableEq, Repr

/-- A vector of three floats, each kept as its 32-bit pattern. -/
structure Transform3D where
  x : Nat
  y : Nat
  z : Nat
deriving DecidableEq, Repr

/-- The translation / rotation / scale triple of an instance; each member is a pointer
(`const Transform3D*`), so it may be null. -/
structure RayTracingAccelerationInstanceTransformDescriptor where
  translation : Option Transform3D
  rotation : Option Transform3D
  scale : Option Transform3D
deriving DecidableEq, Repr

/-- One instance of a top-level descriptor; `geometryContainer` is a nullable pointer. -/
structure RayTracingAccelerationInstanceDescriptor where
  flags : Nat
  mask : Nat
  instanceId : Nat
  instanceOffset : Nat
  transform : Option RayTracingAccelerationInstanceTransformDescriptor
  transformMatrix : Option (List Nat)
  geometryContainer : Option Addr
deriving DecidableEq, Repr

/-- The descriptor an acceleration container is created from. -/
structure RayTracingAccelerationContainerDescriptor where
  usage : Nat
  level : RayTracingAccelerationContainerLevel
  flags : Nat
  geometries : List RayTracingAccelerationGeometryDescriptor
  instances : List RayTracingAccelerationInstanceDescriptor
deriving DecidableEq, Repr

/-- The field `geometryCount`. -/
def RayTracingAccelerationContainerDescriptor.geometryCount
    (d : RayTracingAccelerationContainerDescriptor) : Nat := d.geometries.length

/-- The field `instanceCount`. -/
def RayTracingAccelerationContainerDescriptor.instanceCount
    (d : RayTracingAccelerationContainerDescriptor) : Nat := d.instances.length

/-! ## Objects and the heap -/

/-- The members of `RayTracingAccelerationContainerBase`.  `isError` is the `ObjectBase` error
tag; the retained `Ref` vectors hold addresses, and a `Ref` may hold the null pointer. -/
structure RayTracingAccelerationContainerBase where
  isError : Bool
  mUsage : Nat
  mLevel : RayTracingAccelerationContainerLevel
  mVertexBuffers : List (Option Addr)
  mIndexBuffers : List (Option Addr)
  mAABBBuffers : List (Option Addr)
  mGeometryContainers : List (Option Addr)
  mIsBuilt : Bool
  mIsUpdated : Bool
  mIsDestroyed : Bool
deriving DecidableEq, Repr

/-- Accessor `IsError` of `ObjectBase`. -/
def RayTracingAccelerationContainerBase.IsError (c : RayTracingAccelerationContainerBase) : Bool :=
  c.isError

/-- Accessor `IsBuilt`. -/
def RayTracingAccelerationContainerBase.IsBuilt (c : RayTracingAccelerationContainerBase) : Bool :=
  c.mIsBuilt

/-- Accessor `IsUpdated`. -/
def RayTracingAccelerationContainerBase.IsUpdated
    (c : RayTracingAccelerationContainerBase) : Bool :=
  c.mIsUpdated

/-- Accessor `IsDestroyed`. -/
def RayTracingAccelerationContainerBase.IsDestroyed
    (c : RayTracingAccelerationContainerBase) : Bool :=
  c.mIsDestroyed

/-- Accessor `GetLevel`. -/
def RayTracingAccelerationContainerBase.GetLevel
    (c : RayTracingAccelerationContainerBase) : RayTracingAccelerationContainerLevel :=
  c.mLevel

/-- Accessor `GetUsage`. -/
def RayTracingAccelerationContainerBase.GetUsage (c : RayTracingAccelerationContainerBase) : Nat :=
  c.mUsage

/-- Setter `SetBuildState`. -/
def RayTracingAccelerationContainerBase.SetBuildState
    (c : RayTracingAccelerationContainerBase) (state : Bool) :
    RayTracingAccelerationContainerBase :=
  { c with mIsBuilt := state }

/-- Setter `SetUpdateState`. -/
def RayTracingAccelerationContainerBase.SetUpdateState
    (c : RayTracingAccelerationContainerBase) (state : Bool) :
    RayTracingAccelerationContainerBase :=
  { c with mIsUpdated := state }

/-- Setter `SetDestroyState`. -/
def RayTracingAccelerationContainerBase.SetDestroyState
    (c : RayTracingAccelerationContainerBase) (state : Bool) :
    RayTracingAccelerationContainerBase :=
  { c with mIsDestroyed := state }

/-- The objects a descriptor can point to: buffers and acceleration containers, by address. -/
structure Heap where
  buffers : Addr → BufferBase
  containers : Addr → RayTracingAccelerationContainerBase

/-! ## `ValidateRayTracingAccelerationContainerDescriptor` -/

/-- The loop over `descriptor->instances` (source lines 75-86). -/
def validateInstances (heap : Heap) : List RayTracingAccelerationInstanceDescriptor → MaybeError
  | [] => Except.ok ()
  | instance_ :: rest =>
    match instance_.geometryContainer with
    | none =>
      Except.error (DAWN_VALIDATION_ERROR
        "Acceleration container instance requires a geometry container")
    | some geometryContainer =>
      if (heap.containers geometryContainer).IsDestroyed then
        Except.error (DAWN_VALIDATION_ERROR "Linked geometry container must not be destroyed")
      else validateInstances heap rest

/-- The type test opening the body of the geometry loop (source lines 99-107). -/
def validateGeometryType (geometry : RayTracingAccelerationGeometryDescriptor) : MaybeError :=
  if geometry.type = RayTracingAccelerationGeometryType.Triangles then
    if geometry.vertex = none then
      Except.error (DAWN_VALIDATION_ERROR "No vertex data provided")
    else Except.ok ()
  else if geometry.type = RayTracingAccelerationGeometryType.Aabbs then
    if geometry.aabb = none then
      Except.error (DAWN_VALIDATION_ERROR "No AABB data provided")
    else Except.ok ()
  else Except.ok ()

/-- The block "validate vertex input" (source lines 109-121); `rayTracing` is the value of the
flag `wgpu::BufferUsage::RayTracing`.  The first test calls `geometry.vertex->buffer->GetSize()`
without a null test: with a null `buffer` the outcome is `none`. -/
def validateVertexInput (rayTracing : Nat) (heap : Heap)
    (geometry : RayTracingAccelerationGeometryDescriptor) : Option MaybeError :=
  match geometry.vertex with
  | none => some (Except.ok ())
  | some vertex =>
    match vertex.buffer with
    | none => none
    | some buffer =>
      if (heap.buffers buffer).GetSize = 0 then
        some (Except.error (DAWN_VALIDATION_ERROR "Invalid buffer for vertex data"))
      else if vertex.count = 0 then
        some (Except.error (DAWN_VALIDATION_ERROR "Vertex count must not be zero"))
      else if (heap.buffers buffer).GetUsage &&& rayTracing = 0 then
        some (Except.error
          (DAWN_VALIDATION_ERROR "Vertex buffer must have RAY_TRACING usage flag"))
      else some (Except.ok ())

/-- The block "validate index input" (source lines 123-138).  The first test inside the block
compares `geometry.index` with the null pointer, as the source does; the next one calls
`geometry.index->buffer->GetSize()` without a null test: with a null `buffer` the outcome is
`none`. -/
def validateIndexInput (rayTracing : Nat) (heap : Heap)
    (geometry : RayTracingAccelerationGeometryDescriptor) : Option MaybeError :=
  match geometry.index with
  | none => some (Except.ok ())
  | some index =>
    if geometry.index = none then
      some (Except.error (DAWN_VALIDATION_ERROR "Index data requires vertex data"))
    else
      match index.buffer with
      | none => none
      | some buffer =>
        if (heap.buffers buffer).GetSize = 0 then
          some (Except.error (DAWN_VALIDATION_ERROR "Invalid buffer for Index data"))
        else if index.count = 0 then
          some (Except.error (DAWN_VALIDATION_ERROR "Index count must not be zero"))
        else if (heap.buffers buffer).GetUsage &&& rayTracing = 0 then
          some (Except.error
            (DAWN_VALIDATION_ERROR "Index buffer must have RAY_TRACING usage flag"))
        else some (Except.ok ())

/-- The block "validate aabb input" (source lines 140-159).  After the two tests on vertex and
index data it calls `geometry.aabb->buffer->GetSize()` without a null test: with a null
`buffer` the outcome is `none`. -/
def validateAabbInput (rayTracing : Nat) (heap : Heap)
    (geometry : RayTracingAccelerationGeometryDescriptor) : Option MaybeError :=
  match geometry.aabb with
  | none => some (Except.ok ())
  | some aabb =>
    if geometry.vertex ≠ none then
      some (Except.error
        (DAWN_VALIDATION_ERROR "AABB is not allowed to be combined with vertex data"))
    else if geometry.index ≠ none then
      some (Except.error
        (DAWN_VALIDATION_ERROR "AABB is not allowed to be combined with index data"))
    else
      match aabb.buffer with
      | none => none
      | some buffer =>
        if (heap.buffers buffer).GetSize = 0 then
          some (Except.error (DAWN_VALIDATION_ERROR "Invalid buffer for AABB data"))
        else if aabb.count = 0 then
          some (Except.error (DAWN_VALIDATION_ERROR "AABB count must not be zero"))
        else if (heap.buffers buffer).GetUsage &&& rayTracing = 0 then
          some (Except.error
            (DAWN_VALIDATION_ERROR "AABB buffer must have RAY_TRACING usage flag"))
        else some (Except.ok ())

/-- The closing test of the body of the geometry loop (source lines 160-163). -/
def validateGeometryData (geometry : RayTracingAccelerationGeometryDescriptor) : MaybeError :=
  if geometry.vertex = none ∧ geometry.index = none ∧ geometry.aabb = none then
    Except.error (DAWN_VALIDATION_ERROR "No geometry data provided")
  else Except.ok ()

/-- Two consecutive steps of a function returning `MaybeError`, each of which may dereference
a null pointer (`none`): an error or a null dereference of the first step ends the function,
otherwise the second step runs. -/
def andThen (first second : Option MaybeError) : Option MaybeError :=
  match first with
  | none => none
  | some (Except.error e) => some (Except.error e)
  | some (Except.ok _) => second

/-- One iteration of the geometry loop (source lines 98-163). -/
def validateGeometry (rayTracing : Nat) (heap : Heap)
    (geometry : RayTracingAccelerationGeometryDescriptor) : Option MaybeError :=
  andThen (some (validateGeometryType geometry))
    (andThen (validateVertexInput rayTracing heap geometry)
      (andThen (validateIndexInput rayTracing heap geometry)
        (andThen (validateAabbInput rayTracing heap geometry)
          (some (validateGeometryData geometry)))))

/-- The loop over `descriptor->geometries` (source lines 97-164). -/
def validateGeometries (rayTracing : Nat) (heap : Heap) :
    List RayTracingAccelerationGeometryDescriptor → Option MaybeError
  | [] => some (Except.ok ())
  | geometry :: rest =>
    andThen (validateGeometry rayTracing heap geometry) (validateGeometries rayTracing heap rest)

/-- The branch taken for a top-level descriptor (source lines 66-87). -/
def validateTopLevel (heap : Heap) (descriptor : RayTracingAccelerationContainerDescriptor) :
    MaybeError :=
  if descriptor.level = RayTracingAccelerationContainerLevel.Top then
    if descriptor.geometryCount > 0 then
      Except.error (DAWN_VALIDATION_ERROR
        "Geometry count for top-level acceleration container must be zero")
    else if descriptor.instanceCount = 0 then
      Except.error (DAWN_VALIDATION_ERROR "No data provided for top-level Acceleration Container")
    else validateInstances heap descriptor.instances
  else Except.ok ()

/-- The branch taken for a bottom-level descriptor (source lines 88-165). -/
def validateBottomLevel (rayTracing : Nat) (heap : Heap)
    (descriptor : RayTracingAccelerationContainerDescriptor) : Option MaybeError :=
  if descriptor.level = RayTracingAccelerationContainerLevel.Bottom then
    if descriptor.instanceCount > 0 then
      some (Except.error (DAWN_VALIDATION_ERROR
        "Instance count for bottom-level acceleration container must be zero"))
    else if descriptor.geometryCount = 0 then
      some (Except.error (DAWN_VALIDATION_ERROR
        "No data provided for bottom-level acceleration container"))
    else validateGeometries rayTracing heap descriptor.geometries
  else some (Except.ok ())

/-- The function `ValidateRayTracingAccelerationContainerDescriptor` (source lines 58-167).
`rayTracing` is the value of the flag `wgpu::BufferUsage::RayTracing`, declared in a header
that is not among the sources.  The outcome is `none` when the geometry loop dereferences a
null buffer pointer, otherwise the returned `MaybeError`. -/
def ValidateRayTracingAccelerationContainerDescriptor (rayTracing : Nat) (heap : Heap)
    (descriptor : RayTracingAccelerationContainerDescriptor) : Option MaybeError :=
  if descriptor.level ≠ RayTracingAccelerationContainerLevel.Top ∧
      descriptor.level ≠ RayTracingAccelerationContainerLevel.Bottom then
    some (Except.error (DAWN_VALIDATION_ERROR
      "Invalid acceleration container level. Must be top-level or bottom-level"))
  else
    andThen (some (validateTopLevel heap descriptor))
      (validateBottomLevel rayTracing heap descriptor)

/-! ## The device -/

/-- The members of `DeviceBase` the container code depends on: whether the device is alive,
whether the ray-tracing extension is enabled, and the errors it has consumed (oldest first). -/
structure DeviceBase where
  isAlive : Bool
  rayTracingExtension : Bool
  consumedErrors : List ErrorData
deriving DecidableEq, Repr

/-- Modelled from the spec: `DeviceBase::ValidateIsAlive` is defined in `Device.cpp`, which is
not among the sources.  It succeeds on a device that is alive and returns a device-lost error
otherwise. -/
def DeviceBase.ValidateIsAlive (device : DeviceBase) : MaybeError :=
  if device.isAlive then Except.ok ()
  else Except.error (DAWN_DEVICE_LOST_ERROR "Device is lost")

/-- Modelled from the spec: `DeviceBase::ValidateObject` is defined in `Device.cpp`, which is
not among the sources.  The container passes `this` to its own device, so the only failure is
that the object is an error object (the placeholder made by `MakeError`). -/
def DeviceBase.ValidateObject (_device : DeviceBase)
    (object : RayTracingAccelerationContainerBase) : MaybeError :=
  if object.IsError then Except.error (DAWN_VALIDATION_ERROR "Object is an error")
  else Except.ok ()

/-- Modelled from the spec: `DeviceBase::ConsumedError` is defined in `Device.cpp`, which is
not among the sources.  An error is handed to the device, which records it, and `true` is
returned; a success leaves the device unchanged and returns `false`. -/
def DeviceBase.ConsumedError (device : DeviceBase) (maybeError : MaybeError) :
    Bool × DeviceBase :=
  match maybeError with
  | Except.ok _ => (false, device)
  | Except.error e => (true, { device with consumedErrors := device.consumedErrors ++ [e] })

/-- Modelled from the spec: `DeviceBase::IsExtensionEnabled(Extension::RayTracing)`, defined in
`Device.cpp`, which is not among the sources. -/
def DeviceBase.IsExtensionEnabledRayTracing (device : DeviceBase) : Bool :=
  device.rayTracingExtension

/-! ## Construction -/

/-- The template `VectorReferenceAlreadyExists` (source lines 28-36). -/
def VectorReferenceAlreadyExists {α : Type} [DecidableEq α] : List α → α → Bool
  | [], _ => false
  | element :: rest, el =>
    if element = el then true else VectorReferenceAlreadyExists rest el

/-- Modelled from the spec: the class declaration (`RayTracingAccelerationContainer.h`) is not
among the sources.  The state of the members before a constructor body runs: the `Ref` vectors
are empty, the lifecycle flags `isBuilt`, `isUpdated`, `isDestroyed` are false, and `mUsage`,
`mLevel` hold the indeterminate values `usage0`, `level0`. -/
def RayTracingAccelerationContainerBase.members (isError : Bool) (usage0 : Nat)
    (level0 : RayTracingAccelerationContainerLevel) : RayTracingAccelerationContainerBase :=
  { isError := isError, mUsage := usage0, mLevel := level0,
    mVertexBuffers := [], mIndexBuffers := [], mAABBBuffers := [], mGeometryContainers := [],
    mIsBuilt := false, mIsUpdated := false, mIsDestroyed := false }

/-- The loop saving unique references to vertex, index and AABB buffers (source lines
182-198). -/
def retainGeometryBuffers (self : RayTracingAccelerationContainerBase) :
    List RayTracingAccelerationGeometryDescriptor → RayTracingAccelerationContainerBase
  | [] => self
  | geometry :: rest =>
    let self1 :=
      match geometry.vertex with
      | some vertex =>
        if !VectorReferenceAlreadyExists self.mVertexBuffers vertex.buffer then
          { self with mVertexBuffers := self.mVertexBuffers ++ [vertex.buffer] }
        else self
      | none => self
    let self2 :=
      match geometry.index with
      | some index =>
        if !VectorReferenceAlreadyExists self1.mIndexBuffers index.buffer then
          { self1 with mIndexBuffers := self1.mIndexBuffers ++ [index.buffer] }
        else self1
      | none => self1
    let self3 :=
      match geometry.aabb with
      | some aabb =>
        if !VectorReferenceAlreadyExists self2.mAABBBuffers aabb.buffer then
          { self2 with mAABBBuffers := self2.mAABBBuffers ++ [aabb.buffer] }
        else self2
      | none => self2
    retainGeometryBuffers self3 rest

/-- The loop saving unique references to instanced geometry containers (source lines
202-210). -/
def retainGeometryContainers (self : RayTracingAccelerationContainerBase) :
    List RayTracingAccelerationInstanceDescriptor → RayTracingAccelerationContainerBase
  | [] => self
  | instance_ :: rest =>
    let container := instance_.geometryContainer
    let self1 :=
      if !VectorReferenceAlreadyExists self.mGeometryContainers container then
        { self with mGeometryContainers := self.mGeometryContainers ++ [container] }
      else self
    retainGeometryContainers self1 rest

/-- The constructor of `RayTracingAccelerationContainerBase` from a descriptor (source lines
169-212): the constructed object and the device afterwards. -/
def RayTracingAccelerationContainerBase.fromDescriptor (device : DeviceBase) (usage0 : Nat)
    (level0 : RayTracingAccelerationContainerLevel)
    (descriptor : RayTracingAccelerationContainerDescriptor) :
    RayTracingAccelerationContainerBase × DeviceBase :=
  let self := RayTracingAccelerationContainerBase.members false usage0 level0
  if !device.IsExtensionEnabledRayTracing then
    (self, (device.ConsumedError (Except.error
      (DAWN_VALIDATION_ERROR "Ray Tracing extension is not enabled"))).2)
  else
    let self1 := { self with mUsage := descriptor.usage, mLevel := descriptor.level }
    let self2 :=
      if descriptor.level = RayTracingAccelerationContainerLevel.Bottom then
        retainGeometryBuffers self1 descriptor.geometries
      else self1
    let self3 :=
      if descriptor.level = RayTracingAccelerationContainerLevel.Top then
        retainGeometryContainers self2 descriptor.instances
      else self2
    (self3, device)

/-- The static `MakeError` (source lines 221-224): an object carrying the error tag. -/
def RayTracingAccelerationContainerBase.MakeError (usage0 : Nat)
    (level0 : RayTracingAccelerationContainerLevel) : RayTracingAccelerationContainerBase :=
  RayTracingAccelerationContainerBase.members true usage0 level0

/-! ## Lifecycle operations -/

/-- A call of one of the pure virtual members implemented by a backend. -/
inductive ImplCall where
  | DestroyImpl
  | UpdateInstanceImpl (instanceIndex : Nat)
deriving DecidableEq, Repr

/-- The overrides a backend class supplies, acting on the members `β` the backend adds. -/
structure Backend (β : Type) where
  DestroyImpl : β → β
  UpdateInstanceImpl : β → Nat → RayTracingAccelerationInstanceDescriptor → MaybeError × β

/-- The program state: the device, the heap of base objects, the backend members of every
container, and the log of backend calls (oldest first) with the address of the receiver. -/
structure World (β : Type) where
  device : DeviceBase
  heap : Heap
  derived : Addr → β
  implCalls : List (Addr × ImplCall)

/-- Store a container at an address. -/
def Heap.setContainer (heap : Heap) (self : Addr) (c : RayTracingAccelerationContainerBase) :
    Heap :=
  { heap with containers := Function.update heap.containers self c }

/-- The virtual call `DestroyImpl()`.  On an error object the override is
`ErrorRayTracingAccelerationContainer::DestroyImpl`, which is `UNREACHABLE()` (source lines
45-47): the outcome is `none`. -/
def DestroyImpl {β : Type} (backend : Backend β) (w : World β) (self : Addr) :
    Option (World β) :=
  if (w.heap.containers self).IsError then none
  else some { w with
    derived := Function.update w.derived self (backend.DestroyImpl (w.derived self)),
    implCalls := w.implCalls ++ [(self, ImplCall.DestroyImpl)] }

/-- The member `DestroyInternal` (source lines 230-235). -/
def DestroyInternal {β : Type} (backend : Backend β) (w : World β) (self : Addr) :
    Option (World β) := do
  let w1 ← if !(w.heap.containers self).IsDestroyed then DestroyImpl backend w self else some w
  some { w1 with
    heap := w1.heap.setContainer self ((w1.heap.containers self).SetDestroyState true) }

/-- The member `Destroy` (source lines 226-228). -/
def Destroy {β : Type} (backend : Backend β) (w : World β) (self : Addr) : Option (World β) :=
  DestroyInternal backend w self

/-- The result of `n` consecutive calls of `Destroy` on the same container. -/
def DestroyTimes {β : Type} (backend : Backend β) (self : Addr) : Nat → World β → Option (World β)
  | 0, w => some w
  | n + 1, w => (Destroy backend w self).bind (DestroyTimes backend self n)

/-- The member `ValidateUpdateInstance` (source lines 250-273). -/
def ValidateUpdateInstance (device : DeviceBase) (heap : Heap) (self : Addr)
    (_instanceIndex : Nat) (descriptor : RayTracingAccelerationInstanceDescriptor) :
    MaybeError := do
  device.ValidateIsAlive
  device.ValidateObject (heap.containers self)
  if (heap.containers self).GetLevel ≠ RayTracingAccelerationContainerLevel.Top then
    throw (DAWN_VALIDATION_ERROR "Only top-level containers support instance updates")
  match descriptor.geometryContainer with
  | none => throw (DAWN_VALIDATION_ERROR "Linked geometry container must not be empty")
  | some geometryContainer =>
    if (heap.containers geometryContainer).GetLevel ≠
        RayTracingAccelerationContainerLevel.Bottom then
      throw (DAWN_VALIDATION_ERROR "Linked geometry container must be a bottom-level container")
    if (heap.containers geometryContainer).IsDestroyed then
      throw (DAWN_VALIDATION_ERROR "Linked geometry container must not be destroyed")
    pure ()

/-- The virtual call `UpdateInstanceImpl(instanceIndex, descriptor)`.  On an error object the
override is `UNREACHABLE()` (source lines 48-53): the outcome is `none`. -/
def UpdateInstanceImpl {β : Type} (backend : Backend β) (w : World β) (self : Addr)
    (instanceIndex : Nat) (descriptor : RayTracingAccelerationInstanceDescriptor) :
    Option (MaybeError × World β) :=
  if (w.heap.containers self).IsError then none
  else
    let r := backend.UpdateInstanceImpl (w.derived self) instanceIndex descriptor
    some (r.1, { w with
      derived := Function.update w.derived self r.2,
      implCalls := w.implCalls ++ [(self, ImplCall.UpdateInstanceImpl instanceIndex)] })

/-- The member `UpdateInstance` (source lines 237-248); `none` is a failed `ASSERT` or a reached
`UNREACHABLE()`. -/
def UpdateInstance {β : Type} (backend : Backend β) (w : World β) (self : Addr)
    (instanceIndex : Nat) (descriptor : RayTracingAccelerationInstanceDescriptor) :
    Option (World β) :=
  let validated :=
    w.device.ConsumedError (ValidateUpdateInstance w.device w.heap self instanceIndex descriptor)
  if validated.1 then some { w with device := validated.2 }
  else if (w.heap.containers self).IsError then none
  else
    match UpdateInstanceImpl backend { w with device := validated.2 } self instanceIndex
        descriptor with
    | none => none
    | some (r, w1) => some { w1 with device := (w1.device.ConsumedError r).2 }

/-- The member `ValidateCanUseInSubmitNow` (source lines 299-305); `none` is the failed
`ASSERT(!IsError())`. -/
def ValidateCanUseInSubmitNow (self : RayTracingAccelerationContainerBase) : Option MaybeError :=
  if self.IsError then none
  else if self.IsDestroyed then
    some (Except.error (DAWN_VALIDATION_ERROR "Destroyed acceleration container used in a submit"))
  else some (Except.ok ())

/-! ## Specification-side notions -/

/-- The distinct elements of a list in order of first occurrence. -/
def firstOccurrences {α : Type} [DecidableEq α] : List α → List α
  | [] => []
  | x :: xs => x :: (firstOccurrences xs).filter (fun y => decide (y ≠ x))

/-- The step of the retention loops: append `el` unless the vector already holds it. -/
def pushBackUnique {α : Type} [DecidableEq α] (vec : List α) (el : α) : List α :=
  if VectorReferenceAlreadyExists vec el then vec else vec ++ [el]

/-- The list `result` retains the references `refs` coalesced: it is the list of distinct
elements of `refs` in order of first occurrence, it has no duplicates, and it misses nothing. -/
def CoalescedFrom {α : Type} [DecidableEq α] (result refs : List α) : Prop :=
  result = firstOccurrences refs ∧ result.Nodup ∧ ∀ x, x ∈ result ↔ x ∈ refs

/-- The geometry containers referenced by the instances of a descriptor, in order. -/
def RayTracingAccelerationContainerDescriptor.containerRefs
    (d : RayTracingAccelerationContainerDescriptor) : List (Option Addr) :=
  d.instances.map (fun i => i.geometryContainer)

/-- The vertex buffers referenced by the geometries of a descriptor, in order. -/
def RayTracingAccelerationContainerDescriptor.vertexBufferRefs
    (d : RayTracingAccelerationContainerDescriptor) : List (Option Addr) :=
  d.geometries.filterMap (fun g => g.vertex.map (fun v => v.buffer))

/-- The index buffers referenced by the geometries of a descriptor, in order. -/
def RayTracingAccelerationContainerDescriptor.indexBufferRefs
    (d : RayTracingAccelerationContainerDescriptor) : List (Option Addr) :=
  d.geometries.filterMap (fun g => g.index.map (fun v => v.buffer))

/-- The AABB buffers referenced by the geometries of a descriptor, in order. -/
def RayTracingAccelerationContainerDescriptor.aabbBufferRefs
    (d : RayTracingAccelerationContainerDescriptor) : List (Option Addr) :=
  d.geometries.filterMap (fun g => g.aabb.map (fun v => v.buffer))

/-! ## Example objects -/

/-- A value for the flag `wgpu::BufferUsage::RayTracing` used in the examples. -/
def exampleRayTracing : Nat := 1024

/-- An example heap.  Buffer 1 is a 36-byte buffer with the ray-tracing usage; every other
buffer is empty.  Container 10 is a live bottom-level container, 11 and 14 are live top-level
containers, 12 is a destroyed bottom-level container, 13 a destroyed top-level container, and
every other address holds an error object. -/
def exampleHeap : Heap :=
  { buffers := fun a =>
      if a = 1 then { size := 36, usage := 1024, isDestroyed := false }
      else { size := 0, usage := 0, isDestroyed := false },
    containers := fun a =>
      if a = 10 then
        { RayTracingAccelerationContainerBase.members false 0
            RayTracingAccelerationContainerLevel.Bottom with mVertexBuffers := [some 1] }
      else if a = 11 then
        { RayTracingAccelerationContainerBase.members false 0
            RayTracingAccelerationContainerLevel.Top with mGeometryContainers := [some 10] }
      else if a = 12 then
        { RayTracingAccelerationContainerBase.members false 0
            RayTracingAccelerationContainerLevel.Bottom with
          mVertexBuffers := [some 1], mIsDestroyed := true }
      else if a = 13 then
        { RayTracingAccelerationContainerBase.members false 0
            RayTracingAccelerationContainerLevel.Top with
          mGeometryContainers := [some 10], mIsDestroyed := true }
      else if a = 14 then
        { RayTracingAccelerationContainerBase.members false 0
            RayTracingAccelerationContainerLevel.Top with mGeometryContainers := [some 10] }
      else RayTracingAccelerationContainerBase.MakeError 0
        RayTracingAccelerationContainerLevel.Invalid }

/-- A device that is alive, with the ray-tracing extension enabled and no error consumed. -/
def exampleDevice : DeviceBase :=
  { isAlive := true, rayTracingExtension := true, consumedErrors := [] }

/-- Vertex data: 3 vertices of stride 12 in buffer 1. -/
def exampleVertex : RayTracingAccelerationGeometryVertexDescriptor :=
  { buffer := some 1, format := 0, stride := 12, offset := 0, count := 3 }

/-- Index data: 3 indices in buffer 1. -/
def exampleIndex : RayTracingAccelerationGeometryIndexDescriptor :=
  { buffer := some 1, format := 0, offset := 0, count := 3 }

/-- AABB data: one box in buffer 1. -/
def exampleAabb : RayTracingAccelerationGeometryAABBDescriptor :=
  { buffer := some 1, offset := 0, count := 1 }

/-- A triangle geometry with vertex data only. -/
def exampleTriangles : RayTracingAccelerationGeometryDescriptor :=
  { type := RayTracingAccelerationGeometryType.Triangles, flags := 0,
    vertex := some exampleVertex, index := none, aabb := none }

/-- A geometry carrying AABB data together with vertex data. -/
def exampleAabbWithVertex : RayTracingAccelerationGeometryDescriptor :=
  { type := RayTracingAccelerationGeometryType.Aabbs, flags := 0,
    vertex := some exampleVertex, index := none, aabb := some exampleAabb }

/-- A geometry whose type is neither `Triangles` nor `Aabbs` and which carries index data
only. -/
def exampleIndexOnly : RayTracingAccelerationGeometryDescriptor :=
  { type := RayTracingAccelerationGeometryType.Invalid, flags := 0,
    vertex := none, index := some exampleIndex, aabb := none }

/-- An instance of the container at address `a`. -/
def exampleInstance (a : Addr) : RayTracingAccelerationInstanceDescriptor :=
  { flags := 0, mask := 255, instanceId := 0, instanceOffset := 0,
    transform := none, transformMatrix := none, geometryContainer := some a }

/-- A bottom-level descriptor with the given geometries and instances. -/
def exampleBottom (geometries : List RayTracingAccelerationGeometryDescriptor)
    (instances : List RayTracingAccelerationInstanceDescriptor) :
    RayTracingAccelerationContainerDescriptor :=
  { usage := 0, level := RayTracingAccelerationContainerLevel.Bottom, flags := 0,
    geometries := geometries, instances := instances }

/-- A top-level descriptor with the given geometries and instances. -/
def exampleTop (geometries : List RayTracingAccelerationGeometryDescriptor)
    (instances : List RayTracingAccelerationInstanceDescriptor) :
    RayTracingAccelerationContainerDescriptor :=
  { usage := 0, level := RayTracingAccelerationContainerLevel.Top, flags := 0,
    geometries := geometries, instances := instances }

/-- A backend used in the examples: its members are one counter, which each override
increments. -/
def exampleBackend : Backend Nat :=
  { DestroyImpl := fun n => n + 1,
    UpdateInstanceImpl := fun n _ _ => (Except.ok (), n + 1) }

/-- An example world over `exampleHeap`, before any backend call. -/
def exampleWorld : World Nat :=
  { device := exampleDevice, heap := exampleHeap, derived := fun _ => 0, implCalls := [] }

/-! ## The D3D12 backend: data -/

namespace d3d12

/-- An `ID3D12Resource` as the container code sees it: an identity and the value returned by
`GetGPUVirtualAddress()`. -/
structure ID3D12Resource where
  handle : Nat
  gpuVirtualAddress : Nat
deriving DecidableEq, Repr

/-- The method `ID3D12Resource::GetGPUVirtualAddress`. -/
def ID3D12Resource.GetGPUVirtualAddress (r : ID3D12Resource) : Nat := r.gpuVirtualAddress

/-- A `ResourceHeapAllocation`; `resource` is what `GetD3D12Resource()` returns, a `ComPtr`
that is null for a default-constructed allocation. -/
structure ResourceHeapAllocation where
  resource : Option ID3D12Resource
deriving DecidableEq, Repr

/-- The method `ResourceHeapAllocation::GetD3D12Resource`. -/
def ResourceHeapAllocation.GetD3D12Resource (a : ResourceHeapAllocation) :
    Option ID3D12Resource := a.resource

/-- The struct `MemoryEntry` with the members the container code uses: the `Ref<Buffer>`
`allocation`, the `ResourceHeapAllocation` `resource`, the `ComPtr` `buffer` and the GPU
`address`. -/
structure MemoryEntry where
  allocation : Option Addr
  resource : ResourceHeapAllocation
  buffer : Option ID3D12Resource
  address : Nat
deriving DecidableEq, Repr

/-- Modelled from the spec: the declaration of the D3D12 `MemoryEntry` is not among the sources.
A default-constructed entry is absent: it holds no allocation, no resource and no buffer. -/
def MemoryEntry.absent : MemoryEntry :=
  { allocation := none, resource := { resource := none }, buffer := none, address := 0 }

/-- The struct `ScratchMemoryPool` (header lines 33-37). -/
structure ScratchMemoryPool where
  result : MemoryEntry
  update : MemoryEntry
  build : MemoryEntry
deriving DecidableEq, Repr

/-- The struct `D3D12_GPU_VIRTUAL_ADDRESS_AND_STRIDE`. -/
structure D3D12_GPU_VIRTUAL_ADDRESS_AND_STRIDE where
  StartAddress : Nat
  StrideInBytes : Nat
deriving DecidableEq, Repr

/-- The struct `D3D12_RAYTRACING_GEOMETRY_TRIANGLES_DESC`. -/
structure D3D12_RAYTRACING_GEOMETRY_TRIANGLES_DESC where
  Transform3x4 : Nat
  IndexFormat : Nat
  VertexFormat : Nat
  IndexCount : Nat
  VertexCount : Nat
  IndexBuffer : Nat
  VertexBuffer : D3D12_GPU_VIRTUAL_ADDRESS_AND_STRIDE
deriving DecidableEq, Repr

/-- The struct `D3D12_RAYTRACING_GEOMETRY_AABBS_DESC`. -/
structure D3D12_RAYTRACING_GEOMETRY_AABBS_DESC where
  AABBCount : Nat
  AABBs : D3D12_GPU_VIRTUAL_ADDRESS_AND_STRIDE
deriving DecidableEq, Repr

/-- The anonymous union of `D3D12_RAYTRACING_GEOMETRY_DESC`: the member written last. -/
inductive D3D12_RAYTRACING_GEOMETRY_DATA where
  | Triangles (triangles : D3D12_RAYTRACING_GEOMETRY_TRIANGLES_DESC)
  | AABBs (aabbs : D3D12_RAYTRACING_GEOMETRY_AABBS_DESC)
deriving DecidableEq, Repr

/-- The struct `D3D12_RAYTRACING_GEOMETRY_DESC`; `Type_` is its member `Type`. -/
structure D3D12_RAYTRACING_GEOMETRY_DESC where
  Type_ : Nat
  Flags : Nat
  data : D3D12_RAYTRACING_GEOMETRY_DATA
deriving DecidableEq, Repr

/-- The struct `D3D12_RAYTRACING_INSTANCE_DESC`; `Transform` is the 3x4 matrix as twelve float
bit patterns, and the four bit-fields have widths 24, 8, 24 and 8. -/
structure D3D12_RAYTRACING_INSTANCE_DESC where
  Transform : List Nat
  InstanceID : Nat
  InstanceMask : Nat
  InstanceContributionToHitGroupIndex : Nat
  Flags : Nat
  AccelerationStructure : Nat
deriving DecidableEq, Repr

/-- The union of `D3D12_BUILD_RAYTRACING_ACCELERATION_STRUCTURE_INPUTS`: not yet written, the
GPU address `InstanceDescs`, or the pointer `pGeometryDescs` to the container's own
`mGeometries`. -/
inductive D3D12_BUILD_INPUT_DESCS where
  | indeterminate
  | InstanceDescs (address : Nat)
  | pGeometryDescs
deriving DecidableEq, Repr

/-- The enum `D3D12_ELEMENTS_LAYOUT` as far as the container code names it. -/
inductive D3D12_ELEMENTS_LAYOUT where
  | indeterminate
  | D3D12_ELEMENTS_LAYOUT_ARRAY
deriving DecidableEq, Repr

/-- The struct `D3D12_BUILD_RAYTRACING_ACCELERATION_STRUCTURE_INPUTS`; `Type_` is its member
`Type`. -/
structure D3D12_BUILD_RAYTRACING_ACCELERATION_STRUCTURE_INPUTS where
  Type_ : Nat
  Flags : Nat
  NumDescs : Nat
  DescsLayout : D3D12_ELEMENTS_LAYOUT
  descs : D3D12_BUILD_INPUT_DESCS
deriving DecidableEq, Repr

/-- The members the class `d3d12::RayTracingAccelerationContainer` adds to the base class
(header lines 63-71). -/
structure RayTracingAccelerationContainer where
  mScratchMemory : ScratchMemoryPool
  mInstanceMemory : MemoryEntry
  mGeometries : List D3D12_RAYTRACING_GEOMETRY_DESC
  mInstances : List D3D12_RAYTRACING_INSTANCE_DESC
  mBuildInformation : D3D12_BUILD_RAYTRACING_ACCELERATION_STRUCTURE_INPUTS
deriving DecidableEq, Repr

/-- The members of a freshly constructed container: empty vectors and absent memory entries;
`buildInformation0` is the indeterminate content of `mBuildInformation`. -/
def RayTracingAccelerationContainer.members
    (buildInformation0 : D3D12_BUILD_RAYTRACING_ACCELERATION_STRUCTURE_INPUTS) :
    RayTracingAccelerationContainer :=
  { mScratchMemory :=
      { result := MemoryEntry.absent, update := MemoryEntry.absent, build := MemoryEntry.absent },
    mInstanceMemory := MemoryEntry.absent,
    mGeometries := [], mInstances := [],
    mBuildInformation := buildInformation0 }

/-- The override `RayTracingAccelerationContainer::DestroyImpl` (source lines 69-70): its body
is empty. -/
def RayTracingAccelerationContainer.DestroyImpl (self : RayTracingAccelerationContainer) :
    RayTracingAccelerationContainer :=
  self

/-- The override `RayTracingAccelerationContainer::UpdateInstanceImpl` (source lines 235-239):
it returns success and changes nothing. -/
def RayTracingAccelerationContainer.UpdateInstanceImpl (self : RayTracingAccelerationContainer)
    (_instanceIndex : Nat) (_descriptor : RayTracingAccelerationInstanceDescriptor) :
    MaybeError × RayTracingAccelerationContainer :=
  (Except.ok (), self)

/-- The overrides of the D3D12 backend. -/
def backend : Backend RayTracingAccelerationContainer :=
  { DestroyImpl := RayTracingAccelerationContainer.DestroyImpl,
    UpdateInstanceImpl := RayTracingAccelerationContainer.UpdateInstanceImpl }

end d3d12

/-! ## The Vulkan shader binding table -/

/-- The bitmask enum `wgpu::ShaderStage` as far as the ray-tracing code distinguishes it;
`Other` stands for every value that is none of the four ray-tracing stages. -/
inductive ShaderStage where
  | RayGeneration
  | RayClosestHit
  | RayAnyHit
  | RayMiss
  | Other
deriving DecidableEq, Repr

namespace vulkan

/-- The Vulkan constant `VK_SHADER_UNUSED_NV`, `(~0U)`. -/
def VK_SHADER_UNUSED_NV : Nat := 4294967295

/-- The Vulkan enumerator `VK_RAY_TRACING_SHADER_GROUP_TYPE_GENERAL_NV`. -/
def VK_RAY_TRACING_SHADER_GROUP_TYPE_GENERAL_NV : Nat := 0

/-- The Vulkan enumerator `VK_RAY_TRACING_SHADER_GROUP_TYPE_TRIANGLES_HIT_GROUP_NV`. -/
def VK_RAY_TRACING_SHADER_GROUP_TYPE_TRIANGLES_HIT_GROUP_NV : Nat := 1

/-- The values of `VkStructureType` the table code writes. -/
inductive VkStructureType where
  | VK_STRUCTURE_TYPE_RAY_TRACING_SHADER_GROUP_CREATE_INFO_NV
  | VK_STRUCTURE_TYPE_PIPELINE_SHADER_STAGE_CREATE_INFO
deriving DecidableEq, Repr

/-- One entry of `descriptor->shaders`. -/
structure RayTracingShaderBindingTableShadersDescriptor where
  module : Addr
  stage : ShaderStage
deriving DecidableEq, Repr

/-- The descriptor of a shader binding table; `shaderCount` is the length of `shaders`. -/
structure RayTracingShaderBindingTableDescriptor where
  shaders : List RayTracingShaderBindingTableShadersDescriptor
deriving DecidableEq, Repr

/-- The field `shaderCount`. -/
def RayTracingShaderBindingTableDescriptor.shaderCount
    (d : RayTracingShaderBindingTableDescriptor) : Nat := d.shaders.length

/-- The struct `VkRayTracingShaderGroupCreateInfoNV`; `type_` is its member `type`. -/
structure VkRayTracingShaderGroupCreateInfoNV where
  sType : VkStructureType
  type_ : Nat
  generalShader : Nat
  closestHitShader : Nat
  anyHitShader : Nat
  intersectionShader : Nat
deriving DecidableEq, Repr

/-- The struct `VkPipelineShaderStageCreateInfo`. -/
structure VkPipelineShaderStageCreateInfo where
  sType : VkStructureType
  stage : Nat
  module : Nat
  pName : String
deriving DecidableEq, Repr

/-- The member of `VkPhysicalDeviceRayTracingPropertiesNV` the table reads. -/
structure VkPhysicalDeviceRayTracingPropertiesNV where
  shaderGroupHandleSize : Nat
deriving DecidableEq, Repr

/-- What `Initialize` obtains from the device and from helpers that are not among the sources:
whether `fn.GetRayTracingShaderGroupHandlesNV` is non-null, the result of
`GetRayTracingProperties(*adapter)`, the function `VulkanShaderStageFlags`, and the handle
`ToBackend(module)->GetHandle()` of a shader module. -/
structure Device where
  hasGetRayTracingShaderGroupHandlesNV : Bool
  rayTracingProperties : VkPhysicalDeviceRayTracingPropertiesNV
  VulkanShaderStageFlags : ShaderStage → Nat
  GetHandle : Addr → Nat

/-- The members of `vulkan::RayTracingShaderBindingTable` read or written by `Initialize` and
`GetOffsetImpl`.  The four per-role counters are declared in the base class, whose header is
not among the sources; they are 32-bit unsigned like the offset computed from them. -/
structure RayTracingShaderBindingTable where
  mStages : List VkPipelineShaderStageCreateInfo
  mGroups : List VkRayTracingShaderGroupCreateInfoNV
  mRayTracingProperties : VkPhysicalDeviceRayTracingPropertiesNV
  mRayGenerationCount : Nat
  mRayAnyHitCount : Nat
  mRayClosestHitCount : Nat
  mRayMissCount : Nat
deriving DecidableEq, Repr

/-- The `switch (shader.stage)` of the loop body (source lines 56-82): the group record built
for a shader of the given stage when `mGroups.size()`, converted to 32 bits, is `size`. -/
def shaderGroupInfo (size : Nat) (stage : ShaderStage) : VkRayTracingShaderGroupCreateInfoNV :=
  match stage with
  | ShaderStage.RayGeneration =>
    { sType := VkStructureType.VK_STRUCTURE_TYPE_RAY_TRACING_SHADER_GROUP_CREATE_INFO_NV,
      type_ := VK_RAY_TRACING_SHADER_GROUP_TYPE_GENERAL_NV,
      generalShader := size, closestHitShader := VK_SHADER_UNUSED_NV,
      anyHitShader := VK_SHADER_UNUSED_NV, intersectionShader := VK_SHADER_UNUSED_NV }
  | ShaderStage.RayAnyHit =>
    { sType := VkStructureType.VK_STRUCTURE_TYPE_RAY_TRACING_SHADER_GROUP_CREATE_INFO_NV,
      type_ := VK_RAY_TRACING_SHADER_GROUP_TYPE_TRIANGLES_HIT_GROUP_NV,
      generalShader := VK_SHADER_UNUSED_NV, closestHitShader := VK_SHADER_UNUSED_NV,
      anyHitShader := size, intersectionShader := VK_SHADER_UNUSED_NV }
  | ShaderStage.RayClosestHit =>
    { sType := VkStructureType.VK_STRUCTURE_TYPE_RAY_TRACING_SHADER_GROUP_CREATE_INFO_NV,
      type_ := VK_RAY_TRACING_SHADER_GROUP_TYPE_TRIANGLES_HIT_GROUP_NV,
      generalShader := VK_SHADER_UNUSED_NV, closestHitShader := size,
      anyHitShader := VK_SHADER_UNUSED_NV, intersectionShader := VK_SHADER_UNUSED_NV }
  | ShaderStage.RayMiss =>
    { sType := VkStructureType.VK_STRUCTURE_TYPE_RAY_TRACING_SHADER_GROUP_CREATE_INFO_NV,
      type_ := VK_RAY_TRACING_SHADER_GROUP_TYPE_GENERAL_NV,
      generalShader := size, closestHitShader := VK_SHADER_UNUSED_NV,
      anyHitShader := VK_SHADER_UNUSED_NV, intersectionShader := VK_SHADER_UNUSED_NV }
  | ShaderStage.Other =>
    { sType := VkStructureType.VK_STRUCTURE_TYPE_RAY_TRACING_SHADER_GROUP_CREATE_INFO_NV,
      type_ := VK_SHADER_UNUSED_NV,
      generalShader := VK_SHADER_UNUSED_NV, closestHitShader := VK_SHADER_UNUSED_NV,
      anyHitShader := VK_SHADER_UNUSED_NV, intersectionShader := VK_SHADER_UNUSED_NV }

/-- The counter increments of the `switch (shader.stage)` (source lines 65, 70, 75, 80), in
32-bit unsigned arithmetic. -/
def countShader (self : RayTracingShaderBindingTable) (stage : ShaderStage) :
    RayTracingShaderBindingTable :=
  match stage with
  | ShaderStage.RayGeneration =>
    { self with mRayGenerationCount := (self.mRayGenerationCount + 1) % 2 ^ 32 }
  | ShaderStage.RayAnyHit =>
    { self with mRayAnyHitCount := (self.mRayAnyHitCount + 1) % 2 ^ 32 }
  | ShaderStage.RayClosestHit =>
    { self with mRayClosestHitCount := (self.mRayClosestHitCount + 1) % 2 ^ 32 }
  | ShaderStage.RayMiss =>
    { self with mRayMissCount := (self.mRayMissCount + 1) % 2 ^ 32 }
  | ShaderStage.Other => self

/-- The stage record built for a shader (source lines 93-98). -/
def pipelineShaderStageInfo (device : Device)
    (shader : RayTracingShaderBindingTableShadersDescriptor) : VkPipelineShaderStageCreateInfo :=
  { sType := VkStructureType.VK_STRUCTURE_TYPE_PIPELINE_SHADER_STAGE_CREATE_INFO,
    stage := device.VulkanShaderStageFlags shader.stage,
    module := device.GetHandle shader.module,
    pName := "main" }

/-- One iteration of the loop over `descriptor->shaders` (source lines 55-100). -/
def ingestShader (device : Device) (self : RayTracingShaderBindingTable)
    (shader : RayTracingShaderBindingTableShadersDescriptor) : RayTracingShaderBindingTable :=
  let stageInfo := shaderGroupInfo (self.mGroups.length % 2 ^ 32) shader.stage
  let self1 := countShader self shader.stage
  { self1 with
    mGroups := self1.mGroups ++ [stageInfo],
    mStages := self1.mStages ++ [pipelineShaderStageInfo device shader] }

/-- The member `RayTracingShaderBindingTable::Initialize` (source lines 41-105): the result and
the table afterwards. -/
def RayTracingShaderBindingTable.Initialize (device : Device)
    (self : RayTracingShaderBindingTable) (descriptor : RayTracingShaderBindingTableDescriptor) :
    MaybeError × RayTracingShaderBindingTable :=
  if !device.hasGetRayTracingShaderGroupHandlesNV then
    (Except.error (DAWN_VALIDATION_ERROR "Invalid Call to GetRayTracingShaderGroupHandlesNV"),
      self)
  else
    let self1 := { self with mRayTracingProperties := device.rayTracingProperties }
    let self2 :=
      if descriptor.shaderCount > 0 then descriptor.shaders.foldl (ingestShader device) self1
      else self1
    (Except.ok (), self2)

/-- The member `GetShaderGroupHandleSize` (source lines 119-121). -/
def RayTracingShaderBindingTable.GetShaderGroupHandleSize
    (self : RayTracingShaderBindingTable) : Nat :=
  self.mRayTracingProperties.shaderGroupHandleSize

/-- The member `GetOffsetImpl` (source lines 123-144), in 32-bit unsigned arithmetic. -/
def RayTracingShaderBindingTable.GetOffsetImpl (self : RayTracingShaderBindingTable)
    (stageKind : ShaderStage) : Nat :=
  let offset :=
    match stageKind with
    | ShaderStage.RayGeneration => 0
    | ShaderStage.RayClosestHit => self.mRayGenerationCount
    | ShaderStage.RayAnyHit => (self.mRayGenerationCount + self.mRayClosestHitCount) % 2 ^ 32
    | ShaderStage.RayMiss =>
      ((self.mRayGenerationCount + self.mRayClosestHitCount) % 2 ^ 32 +
        self.mRayAnyHitCount) % 2 ^ 32
    | ShaderStage.Other => 0
  (offset * self.mRayTracingProperties.shaderGroupHandleSize) % 2 ^ 32

/-- The number of shaders of a stage in a shader list. -/
def countStage (stage : ShaderStage)
    (shaders : List RayTracingShaderBindingTableShadersDescriptor) : Nat :=
  (shaders.filter (fun s => decide (s.stage = stage))).length

/-- The shader indices of a group that are different from `VK_SHADER_UNUSED_NV`. -/
def usedShaderIndices (g : VkRayTracingShaderGroupCreateInfoNV) : List Nat :=
  [g.generalShader, g.closestHitShader, g.anyHitShader, g.intersectionShader].filter
    (fun i => decide (i ≠ VK_SHADER_UNUSED_NV))

/-- A table with no stage, no group and counters at zero. -/
def RayTracingShaderBindingTable.empty
    (properties0 : VkPhysicalDeviceRayTracingPropertiesNV) : RayTracingShaderBindingTable :=
  { mStages := [], mGroups := [], mRayTracingProperties := properties0,
    mRayGenerationCount := 0, mRayAnyHitCount := 0, mRayClosestHitCount := 0,
    mRayMissCount := 0 }

/-- An example device whose shader group handles have the given size. -/
def exampleDevice (shaderGroupHandleSize : Nat) : Device :=
  { hasGetRayTracingShaderGroupHandlesNV := true,
    rayTracingProperties := { shaderGroupHandleSize := shaderGroupHandleSize },
    VulkanShaderStageFlags := fun stage =>
      match stage with
      | ShaderStage.RayGeneration => 256
      | ShaderStage.RayAnyHit => 512
      | ShaderStage.RayClosestHit => 1024
      | ShaderStage.RayMiss => 2048
      | ShaderStage.Other => 0,
    GetHandle := fun a => a }

/-- An example shader of the given stage, in module `m`. -/
def exampleShader (m : Addr) (stage : ShaderStage) :
    RayTracingShaderBindingTableShadersDescriptor :=
  { module := m, stage := stage }

/-- An example shader list: closest-hit, ray-generation, any-hit, miss, ray-generation. -/
def exampleShaders : RayTracingShaderBindingTableDescriptor :=
  { shaders := [exampleShader 1 ShaderStage.RayClosestHit,
      exampleShader 2 ShaderStage.RayGeneration, exampleShader 3 ShaderStage.RayAnyHit,
      exampleShader 4 ShaderStage.RayMiss, exampleShader 5 ShaderStage.RayGeneration] }

end vulkan

/-! ## The D3D12 bind group: `Populate` -/

namespace d3d12

/-- A command serial. -/
abbrev Serial := Nat

/-- The two descriptor heap types `Populate` names. -/
inductive D3D12_DESCRIPTOR_HEAP_TYPE where
  | D3D12_DESCRIPTOR_HEAP_TYPE_CBV_SRV_UAV
  | D3D12_DESCRIPTOR_HEAP_TYPE_SAMPLER
deriving DecidableEq, Repr

/-- Modelled from the spec: the class `DescriptorHeapAllocation` is not among the sources.  An
allocation is either invalid (the shader-visible heap is exhausted: try again after a heap
switch) or carries the base CPU and GPU descriptors of the allocated range. -/
structure DescriptorHeapAllocation where
  isInvalid : Bool
  baseCPUDescriptor : Nat
  baseGPUDescriptor : Nat
deriving DecidableEq, Repr

/-- The method `DescriptorHeapAllocation::IsInvalid`. -/
def DescriptorHeapAllocation.IsInvalid (a : DescriptorHeapAllocation) : Bool := a.isInvalid

/-- The method `DescriptorHeapAllocation::GetBaseCPUDescriptor`. -/
def DescriptorHeapAllocation.GetBaseCPUDescriptor (a : DescriptorHeapAllocation) : Nat :=
  a.baseCPUDescriptor

/-- The method `DescriptorHeapAllocation::GetBaseGPUDescriptor`. -/
def DescriptorHeapAllocation.GetBaseGPUDescriptor (a : DescriptorHeapAllocation) : Nat :=
  a.baseGPUDescriptor

/-- Modelled from the spec: the class `ShaderVisibleDescriptorAllocator` is not among the
sources.  Over an allocator state `σ` it offers the current heap-generation serial and the
request for GPU-visible descriptors, which yields an error, an invalid allocation or a valid
allocation, and the next allocator state. -/
structure ShaderVisibleDescriptorAllocator (σ : Type) where
  GetShaderVisibleHeapsSerial : σ → Serial
  AllocateGPUDescriptors :
    σ → Nat → Serial → D3D12_DESCRIPTOR_HEAP_TYPE → Except ErrorData DescriptorHeapAllocation × σ

/-- Modelled from the spec: `ShaderVisibleDescriptorAllocator::IsAllocationStillValid` is not
among the sources.  The recorded pair is still valid if and only if it matches the allocator's
current pair: the pending submission serial of the device and the heap-generation serial. -/
def ShaderVisibleDescriptorAllocator.IsAllocationStillValid {σ : Type}
    (allocator : ShaderVisibleDescriptorAllocator σ) (a : σ) (pendingCommandSerial : Serial)
    (lastUsageSerial heapSerial : Serial) : Bool :=
  lastUsageSerial == pendingCommandSerial &&
    heapSerial == allocator.GetShaderVisibleHeapsSerial a

/-- The two descriptor counts `Populate` reads from the bind group layout. -/
structure BindGroupLayout where
  cbvUavSrvDescriptorCount : Nat
  samplerDescriptorCount : Nat
deriving DecidableEq, Repr

/-- The method `BindGroupLayout::GetCbvUavSrvDescriptorCount`. -/
def BindGroupLayout.GetCbvUavSrvDescriptorCount (bgl : BindGroupLayout) : Nat :=
  bgl.cbvUavSrvDescriptorCount

/-- The method `BindGroupLayout::GetSamplerDescriptorCount`. -/
def BindGroupLayout.GetSamplerDescriptorCount (bgl : BindGroupLayout) : Nat :=
  bgl.samplerDescriptorCount

/-- The members of `d3d12::BindGroup` that `Populate` reads or writes, with the layout;
a CPU allocation is kept as its base descriptor. -/
structure BindGroup where
  layout : BindGroupLayout
  mCPUViewAllocation : Nat
  mCPUSamplerAllocation : Nat
  mBaseViewDescriptor : Nat
  mBaseSamplerDescriptor : Nat
  mLastUsageSerial : Serial
  mHeapSerial : Serial
deriving DecidableEq, Repr

/-- A call `Populate` makes on the allocator or on the D3D12 device. -/
inductive DescriptorCall where
  | AllocateGPUDescriptors (descriptorCount : Nat) (pendingSerial : Serial)
      (heapType : D3D12_DESCRIPTOR_HEAP_TYPE)
  | CopyDescriptorsSimple (numDescriptors : Nat) (destDescriptorRangeStart : Nat)
      (srcDescriptorRangeStart : Nat) (heapType : D3D12_DESCRIPTOR_HEAP_TYPE)
deriving DecidableEq, Repr

/-- The state `Populate` acts on: the bind group, the allocator, the pending command serial of
the device, and the log of calls made (oldest first). -/
structure PopulateState (σ : Type) where
  bindGroup : BindGroup
  allocator : σ
  pendingCommandSerial : Serial
  calls : List DescriptorCall

/-- The block of `Populate` for the view heap (source lines 188-204): `some r` when the function
returns `r` from inside the block, `none` when control reaches the sampler block. -/
def populateViewDescriptors {σ : Type} (allocator : ShaderVisibleDescriptorAllocator σ)
    (s : PopulateState σ) : Option (Except ErrorData Bool) × PopulateState σ :=
  let pendingSerial := s.pendingCommandSerial
  let viewDescriptorCount := s.bindGroup.layout.GetCbvUavSrvDescriptorCount
  if viewDescriptorCount > 0 then
    let r := allocator.AllocateGPUDescriptors s.allocator viewDescriptorCount pendingSerial
      D3D12_DESCRIPTOR_HEAP_TYPE.D3D12_DESCRIPTOR_HEAP_TYPE_CBV_SRV_UAV
    let s1 : PopulateState σ :=
      { s with
        allocator := r.2,
        calls := s.calls ++ [DescriptorCall.AllocateGPUDescriptors viewDescriptorCount
          pendingSerial D3D12_DESCRIPTOR_HEAP_TYPE.D3D12_DESCRIPTOR_HEAP_TYPE_CBV_SRV_UAV] }
    match r.1 with
    | Except.error e => (some (Except.error e), s1)
    | Except.ok viewDescriptorHeapAllocation =>
      if viewDescriptorHeapAllocation.IsInvalid then (some (Except.ok false), s1)
      else
        (none,
          { s1 with
            calls := s1.calls ++ [DescriptorCall.CopyDescriptorsSimple viewDescriptorCount
              viewDescriptorHeapAllocation.GetBaseCPUDescriptor
              s1.bindGroup.mCPUViewAllocation
              D3D12_DESCRIPTOR_HEAP_TYPE.D3D12_DESCRIPTOR_HEAP_TYPE_CBV_SRV_UAV],
            bindGroup :=
              { s1.bindGroup with
                mBaseViewDescriptor := viewDescriptorHeapAllocation.GetBaseGPUDescriptor } })
  else (none, s)

/-- The block of `Populate` for the sampler heap (source lines 206-221): `some r` when the
function returns `r` from inside the block, `none` when control reaches the recording of the
serials. -/
def populateSamplerDescriptors {σ : Type} (allocator : ShaderVisibleDescriptorAllocator σ)
    (s : PopulateState σ) : Option (Except ErrorData Bool) × PopulateState σ :=
  let pendingSerial := s.pendingCommandSerial
  let samplerDescriptorCount := s.bindGroup.layout.GetSamplerDescriptorCount
  if samplerDescriptorCount > 0 then
    let r := allocator.AllocateGPUDescriptors s.allocator samplerDescriptorCount pendingSerial
      D3D12_DESCRIPTOR_HEAP_TYPE.D3D12_DESCRIPTOR_HEAP_TYPE_SAMPLER
    let s1 : PopulateState σ :=
      { s with
        allocator := r.2,
        calls := s.calls ++ [DescriptorCall.AllocateGPUDescriptors samplerDescriptorCount
          pendingSerial D3D12_DESCRIPTOR_HEAP_TYPE.D3D12_DESCRIPTOR_HEAP_TYPE_SAMPLER] }
    match r.1 with
    | Except.error e => (some (Except.error e), s1)
    | Except.ok samplerDescriptorHeapAllocation =>
      if samplerDescriptorHeapAllocation.IsInvalid then (some (Except.ok false), s1)
      else
        (none,
          { s1 with
            calls := s1.calls ++ [DescriptorCall.CopyDescriptorsSimple samplerDescriptorCount
              samplerDescriptorHeapAllocation.GetBaseCPUDescriptor
              s1.bindGroup.mCPUSamplerAllocation
              D3D12_DESCRIPTOR_HEAP_TYPE.D3D12_DESCRIPTOR_HEAP_TYPE_SAMPLER],
            bindGroup :=
              { s1.bindGroup with
                mBaseSamplerDescriptor :=
                  samplerDescriptorHeapAllocation.GetBaseGPUDescriptor } })
  else (none, s)

/-- The member `BindGroup::Populate` (source lines 171-229): the returned `ResultOrError<bool>`
and the state afterwards. -/
def BindGroup.Populate {σ : Type} (allocator : ShaderVisibleDescriptorAllocator σ)
    (s : PopulateState σ) : Except ErrorData Bool × PopulateState σ :=
  if allocator.IsAllocationStillValid s.allocator s.pendingCommandSerial
      s.bindGroup.mLastUsageSerial s.bindGroup.mHeapSerial then
    (Except.ok true, s)
  else
    let pendingSerial := s.pendingCommandSerial
    match populateViewDescriptors allocator s with
    | (some r, s1) => (r, s1)
    | (none, s1) =>
      match populateSamplerDescriptors allocator s1 with
      | (some r, s2) => (r, s2)
      | (none, s2) =>
        (Except.ok true,
          { s2 with
            bindGroup :=
              { s2.bindGroup with
                mLastUsageSerial := pendingSerial,
                mHeapSerial := allocator.GetShaderVisibleHeapsSerial s2.allocator } })

/-- An example allocator whose state is the pair of its heap serial and the number of
descriptors still free: a request that fits takes its descriptors from the free ones, a request
that does not fit yields an invalid allocation. -/
def exampleAllocator : ShaderVisibleDescriptorAllocator (Serial × Nat) :=
  { GetShaderVisibleHeapsSerial := fun a => a.fst,
    AllocateGPUDescriptors := fun a descriptorCount _ _ =>
      if descriptorCount ≤ a.snd then
        (Except.ok
            { isInvalid := false,
              baseCPUDescriptor := 1000 + a.snd,
              baseGPUDescriptor := 2000 + a.snd },
          (a.fst, a.snd - descriptorCount))
      else
        (Except.ok { isInvalid := true, baseCPUDescriptor := 0, baseGPUDescriptor := 0 }, a) }

/-- An example bind group with three view descriptors and two sampler descriptors, never
populated. -/
def exampleBindGroup : BindGroup :=
  { layout := { cbvUavSrvDescriptorCount := 3, samplerDescriptorCount := 2 },
    mCPUViewAllocation := 100, mCPUSamplerAllocation := 200,
    mBaseViewDescriptor := 0, mBaseSamplerDescriptor := 0,
    mLastUsageSerial := 0, mHeapSerial := 0 }

/-- An example state: pending serial 7, heap serial 4, `free` descriptors left. -/
def examplePopulateState (free : Nat) : PopulateState (Serial × Nat) :=
  { bindGroup := exampleBindGroup, allocator := (4, free), pendingCommandSerial := 7,
    calls := [] }

end d3d12

/-! ## The D3D12 backend: `Initialize` -/

namespace d3d12

/-- The resource states `Initialize` names. -/
inductive D3D12_RESOURCE_STATES where
  | D3D12_RESOURCE_STATE_RAYTRACING_ACCELERATION_STRUCTURE
  | D3D12_RESOURCE_STATE_UNORDERED_ACCESS
deriving DecidableEq, Repr

/-- The resource descriptor `AllocateScratchMemory` fills in (source lines 197-207): a buffer of
`Width` bytes with unordered access allowed; its other members are the constants written
there. -/
structure D3D12_RESOURCE_DESC where
  Alignment : Nat
  Width : Nat
  Height : Nat
  DepthOrArraySize : Nat
  MipLevels : Nat
  SampleDescCount : Nat
  SampleDescQuality : Nat
deriving DecidableEq, Repr

/-- The struct `D3D12_RAYTRACING_ACCELERATION_STRUCTURE_PREBUILD_INFO`. -/
structure D3D12_RAYTRACING_ACCELERATION_STRUCTURE_PREBUILD_INFO where
  ResultDataMaxSizeInBytes : Nat
  ScratchDataSizeInBytes : Nat
  UpdateScratchDataSizeInBytes : Nat
deriving DecidableEq, Repr

/-- A call `Initialize` makes on the device. -/
inductive DeviceCall where
  | CreateBuffer (usage : Nat) (size : Nat)
  | SetSubData (buffer : Addr) (start : Nat) (count : Nat)
      (data : List D3D12_RAYTRACING_INSTANCE_DESC)
  | GetRaytracingAccelerationStructurePrebuildInfo
      (inputs : D3D12_BUILD_RAYTRACING_ACCELERATION_STRUCTURE_INPUTS)
      (geometries : List D3D12_RAYTRACING_GEOMETRY_DESC)
  | AllocateMemory (resourceDescriptor : D3D12_RESOURCE_DESC)
      (initialUsage : D3D12_RESOURCE_STATES)
deriving DecidableEq, Repr

/-- What `Initialize` obtains from the D3D12 device and from helpers that are not among the
sources.  The toggle `UseD3D12RayTracing`; the resource of a buffer; the value of
`wgpu::BufferUsage::CopyDst`; the device services `CreateBuffer`, the prebuild query and
`AllocateMemory`, whose answers may depend on the calls made before; the conversion functions
of `UtilsD3D12`; `Fill4x3TransformMatrix`, which yields the sixteen floats it leaves in the
array; and the indeterminate content of an uninitialised `Transform`.  A successful
`AllocateMemory` yields an allocation with a resource. -/
structure Device where
  UseD3D12RayTracing : Bool
  GetD3D12Resource : Addr → ID3D12Resource
  CopyDst : Nat
  CreateBuffer : List DeviceCall → Nat → Nat → Addr
  GetRaytracingAccelerationStructurePrebuildInfo :
    List DeviceCall → D3D12_BUILD_RAYTRACING_ACCELERATION_STRUCTURE_INPUTS →
      List D3D12_RAYTRACING_GEOMETRY_DESC → D3D12_RAYTRACING_ACCELERATION_STRUCTURE_PREBUILD_INFO
  AllocateMemory :
    List DeviceCall → D3D12_RESOURCE_DESC → D3D12_RESOURCE_STATES →
      Except ErrorData ID3D12Resource
  ToD3D12RayTracingGeometryType : RayTracingAccelerationGeometryType → Nat
  ToD3D12RayTracingGeometryFlags : Nat → Nat
  ToD3D12RayTracingAccelerationContainerVertexFormat : Nat → Nat
  ToD3D12RayTracingAccelerationContainerIndexFormat : Nat → Nat
  ToD3D12RayTracingInstanceFlags : Nat → Nat
  ToD3D12RayTracingAccelerationStructureBuildFlags : Nat → Nat
  ToD3D12RayTracingAccelerationContainerLevel : RayTracingAccelerationContainerLevel → Nat
  Fill4x3TransformMatrix : Transform3D → Transform3D → Transform3D → List Nat
  indeterminateTransform : List Nat

/-- The value of `D3D12_RAYTRACING_GEOMETRY_TRIANGLES_DESC` after `geometryDesc{}`. -/
def D3D12_RAYTRACING_GEOMETRY_TRIANGLES_DESC.zero : D3D12_RAYTRACING_GEOMETRY_TRIANGLES_DESC :=
  { Transform3x4 := 0, IndexFormat := 0, VertexFormat := 0, IndexCount := 0, VertexCount := 0,
    IndexBuffer := 0, VertexBuffer := { StartAddress := 0, StrideInBytes := 0 } }

/-- The block "vertex buffer" of the geometry loop (source lines 91-101), entered when
`geometry.vertex` and `geometry.vertex->buffer` are both not null. -/
def encodeVertexBuffer (device : Device) (geometry : RayTracingAccelerationGeometryDescriptor)
    (triangles : D3D12_RAYTRACING_GEOMETRY_TRIANGLES_DESC) :
    D3D12_RAYTRACING_GEOMETRY_TRIANGLES_DESC :=
  match geometry.vertex with
  | some vertex =>
    match vertex.buffer with
    | some vertexBuffer =>
      { triangles with
        VertexBuffer :=
          { StartAddress :=
              ((device.GetD3D12Resource vertexBuffer).GetGPUVirtualAddress + vertex.offset)
                % 2 ^ 64,
            StrideInBytes := vertex.stride },
        VertexCount := vertex.count,
        VertexFormat :=
          device.ToD3D12RayTracingAccelerationContainerVertexFormat vertex.format }
    | none => triangles
  | none => triangles

/-- The block "index buffer" of the geometry loop (source lines 103-111), entered when
`geometry.index` and `geometry.index->buffer` are both not null. -/
def encodeIndexBuffer (device : Device) (geometry : RayTracingAccelerationGeometryDescriptor)
    (triangles : D3D12_RAYTRACING_GEOMETRY_TRIANGLES_DESC) :
    D3D12_RAYTRACING_GEOMETRY_TRIANGLES_DESC :=
  match geometry.index with
  | some index =>
    match index.buffer with
    | some indexBuffer =>
      { triangles with
        IndexBuffer :=
          ((device.GetD3D12Resource indexBuffer).GetGPUVirtualAddress + index.offset) % 2 ^ 64,
        IndexCount := index.count,
        IndexFormat := device.ToD3D12RayTracingAccelerationContainerIndexFormat index.format }
    | none => triangles
  | none => triangles

/-- The body of the geometry loop (source lines 84-122).  The blocks for vertex and index data
write the member `Triangles` of the union; the block for AABB data, entered when `geometry.aabb`
and `geometry.aabb->buffer` are both not null, writes the three fields of the member `AABBs`,
and reads `geometry.vertex->stride`: with `geometry.vertex` null the outcome is `none`. -/
def encodeGeometry (device : Device) (geometry : RayTracingAccelerationGeometryDescriptor) :
    Option D3D12_RAYTRACING_GEOMETRY_DESC :=
  let triangles :=
    encodeIndexBuffer device geometry
      (encodeVertexBuffer device geometry D3D12_RAYTRACING_GEOMETRY_TRIANGLES_DESC.zero)
  let trianglesDesc : D3D12_RAYTRACING_GEOMETRY_DESC :=
    { Type_ := device.ToD3D12RayTracingGeometryType geometry.type,
      Flags := device.ToD3D12RayTracingGeometryFlags geometry.flags,
      data := D3D12_RAYTRACING_GEOMETRY_DATA.Triangles triangles }
  match geometry.aabb with
  | some aabb =>
    match aabb.buffer with
    | some aabbBuffer =>
      match geometry.vertex with
      | none => none
      | some vertex =>
        some
          { Type_ := device.ToD3D12RayTracingGeometryType geometry.type,
            Flags := device.ToD3D12RayTracingGeometryFlags geometry.flags,
            data := D3D12_RAYTRACING_GEOMETRY_DATA.AABBs
              { AABBCount := aabb.count,
                AABBs :=
                  { StartAddress :=
                      ((device.GetD3D12Resource aabbBuffer).GetGPUVirtualAddress + aabb.offset)
                        % 2 ^ 64,
                    StrideInBytes := vertex.stride } } }
    | none => some trianglesDesc
  | none => some trianglesDesc

/-- The loop over `descriptor->geometries` (source lines 83-123), appending to `mGeometries`. -/
def encodeGeometries (device : Device) (mGeometries : List D3D12_RAYTRACING_GEOMETRY_DESC) :
    List RayTracingAccelerationGeometryDescriptor → Option (List D3D12_RAYTRACING_GEOMETRY_DESC)
  | [] => some mGeometries
  | geometry :: rest =>
    match encodeGeometry device geometry with
    | none => none
    | some geometryDesc => encodeGeometries device (mGeometries ++ [geometryDesc]) rest

/-- The value left in `out.Transform` by `GetD3D12AccelerationInstance` (source lines 34-47):
the first twelve floats of the matrix filled from the triple when `descriptor.transform` is not
null, else the first twelve floats of `descriptor.transformMatrix` when that is not null, else
the indeterminate content of the local.  With a triple, its three members are dereferenced; a
null one gives `none`. -/
def instanceTransform (device : Device)
    (descriptor : RayTracingAccelerationInstanceDescriptor) : Option (List Nat) :=
  match descriptor.transform with
  | some transform =>
    match transform.translation, transform.rotation, transform.scale with
    | some tr, some ro, some sc => some ((device.Fill4x3TransformMatrix tr ro sc).take 12)
    | _, _, _ => none
  | none =>
    match descriptor.transformMatrix with
    | some transformMatrix => some (transformMatrix.take 12)
    | none => some device.indeterminateTransform

/-- The function `GetD3D12AccelerationInstance` (source lines 28-55); `derived` gives the D3D12
members of the container at an address.  A null `geometryContainer`, a null result resource and
a null member of the transform triple are dereferenced: the outcome is `none`. -/
def GetD3D12AccelerationInstance (device : Device)
    (derived : Addr → RayTracingAccelerationContainer)
    (descriptor : RayTracingAccelerationInstanceDescriptor) :
    Option D3D12_RAYTRACING_INSTANCE_DESC :=
  match descriptor.geometryContainer with
  | none => none
  | some geometryContainer =>
    match (derived geometryContainer).mScratchMemory.result.resource.GetD3D12Resource with
    | none => none
    | some resultMemory =>
      match instanceTransform device descriptor with
      | none => none
      | some transform =>
      some
        { Transform := transform,
          InstanceID := descriptor.instanceId % 2 ^ 24,
          InstanceMask := descriptor.mask % 2 ^ 8,
          InstanceContributionToHitGroupIndex := descriptor.instanceOffset % 2 ^ 24,
          Flags := device.ToD3D12RayTracingInstanceFlags descriptor.flags % 2 ^ 8,
          AccelerationStructure := resultMemory.GetGPUVirtualAddress }

/-- The loop over `descriptor->instances` (source lines 130-136), appending to `mInstances`. -/
def encodeInstances (device : Device) (derived : Addr → RayTracingAccelerationContainer)
    (mInstances : List D3D12_RAYTRACING_INSTANCE_DESC) :
    List RayTracingAccelerationInstanceDescriptor → Option (List D3D12_RAYTRACING_INSTANCE_DESC)
  | [] => some mInstances
  | instance_ :: rest =>
    match GetD3D12AccelerationInstance device derived instance_ with
    | none => none
    | some instanceData => encodeInstances device derived (mInstances ++ [instanceData]) rest

/-- The state `Initialize` acts on: the D3D12 members of the container, the heap, and the log of
device calls (oldest first). -/
structure InitializeState where
  self : RayTracingAccelerationContainer
  heap : Heap
  calls : List DeviceCall

/-- The member `AllocateScratchMemory` (source lines 193-219): the result, the memory entry and
the log afterwards. -/
def AllocateScratchMemory (device : Device) (calls : List DeviceCall) (memoryEntry : MemoryEntry)
    (size : Nat) (initialUsage : D3D12_RESOURCE_STATES) :
    MaybeError × MemoryEntry × List DeviceCall :=
  let resourceDescriptor : D3D12_RESOURCE_DESC :=
    { Alignment := 0, Width := size, Height := 1, DepthOrArraySize := 1, MipLevels := 1,
      SampleDescCount := 1, SampleDescQuality := 0 }
  let calls1 := calls ++ [DeviceCall.AllocateMemory resourceDescriptor initialUsage]
  match device.AllocateMemory calls resourceDescriptor initialUsage with
  | Except.error e => (Except.error e, memoryEntry, calls1)
  | Except.ok resource =>
    (Except.ok (),
      { memoryEntry with
        resource := { resource := some resource },
        buffer := some resource,
        address := resource.GetGPUVirtualAddress },
      calls1)

/-- The block "container requires instance buffer" (source lines 140-153). -/
def createInstanceBuffer (device : Device) (st : InitializeState)
    (descriptor : RayTracingAccelerationContainerDescriptor) : InitializeState :=
  if descriptor.level = RayTracingAccelerationContainerLevel.Top then
    let bufferSize := (descriptor.instanceCount * 64) % 2 ^ 64
    let buffer := device.CreateBuffer st.calls device.CopyDst bufferSize
    { self :=
        { st.self with
          mInstanceMemory :=
            { st.self.mInstanceMemory with
              allocation := some buffer,
              buffer := some (device.GetD3D12Resource buffer),
              address := (device.GetD3D12Resource buffer).GetGPUVirtualAddress } },
      heap :=
        { st.heap with
          buffers := Function.update st.heap.buffers buffer
            { size := bufferSize, usage := device.CopyDst, isDestroyed := false } },
      calls := st.calls ++ [DeviceCall.CreateBuffer device.CopyDst bufferSize,
        DeviceCall.SetSubData buffer 0 bufferSize st.self.mInstances] }
  else st

/-- The filling of `mBuildInformation` (source lines 157-166); a null `mInstanceMemory.buffer`
is dereferenced for a top-level descriptor: the outcome is `none`. -/
def fillBuildInformation (device : Device) (self : RayTracingAccelerationContainer)
    (descriptor : RayTracingAccelerationContainerDescriptor) :
    Option RayTracingAccelerationContainer :=
  let info : D3D12_BUILD_RAYTRACING_ACCELERATION_STRUCTURE_INPUTS :=
    { self.mBuildInformation with
      DescsLayout := D3D12_ELEMENTS_LAYOUT.D3D12_ELEMENTS_LAYOUT_ARRAY,
      Flags := device.ToD3D12RayTracingAccelerationStructureBuildFlags descriptor.flags,
      Type_ := device.ToD3D12RayTracingAccelerationContainerLevel descriptor.level }
  if descriptor.level = RayTracingAccelerationContainerLevel.Bottom then
    some
      { self with
        mBuildInformation :=
          { info with
            NumDescs := self.mGeometries.length % 2 ^ 32,
            descs := D3D12_BUILD_INPUT_DESCS.pGeometryDescs } }
  else if descriptor.level = RayTracingAccelerationContainerLevel.Top then
    match self.mInstanceMemory.buffer with
    | none => none
    | some buffer =>
      some
        { self with
          mBuildInformation :=
            { info with
              NumDescs := self.mInstances.length % 2 ^ 32,
              descs := D3D12_BUILD_INPUT_DESCS.InstanceDescs buffer.GetGPUVirtualAddress } }
  else some { self with mBuildInformation := info }

/-- The block "reserve scratch memory" after the filling of `mBuildInformation` (source lines
167-189): the prebuild query and the allocation of the result, build and update memory. -/
def reserveScratchMemory (device : Device) (st : InitializeState) :
    MaybeError × InitializeState :=
  let prebuildInfo := device.GetRaytracingAccelerationStructurePrebuildInfo st.calls
    st.self.mBuildInformation st.self.mGeometries
  let calls1 := st.calls ++ [DeviceCall.GetRaytracingAccelerationStructurePrebuildInfo
    st.self.mBuildInformation st.self.mGeometries]
  let r1 := AllocateScratchMemory device calls1 st.self.mScratchMemory.result
    prebuildInfo.ResultDataMaxSizeInBytes
    D3D12_RESOURCE_STATES.D3D12_RESOURCE_STATE_RAYTRACING_ACCELERATION_STRUCTURE
  let st1 : InitializeState :=
    { st with
      self := { st.self with mScratchMemory := { st.self.mScratchMemory with result := r1.2.1 } },
      calls := r1.2.2 }
  match r1.1 with
  | Except.error e => (Except.error e, st1)
  | Except.ok _ =>
    let r2 := AllocateScratchMemory device st1.calls st1.self.mScratchMemory.build
      prebuildInfo.ScratchDataSizeInBytes
      D3D12_RESOURCE_STATES.D3D12_RESOURCE_STATE_UNORDERED_ACCESS
    let st2 : InitializeState :=
      { st1 with
        self :=
          { st1.self with mScratchMemory := { st1.self.mScratchMemory with build := r2.2.1 } },
        calls := r2.2.2 }
    match r2.1 with
    | Except.error e => (Except.error e, st2)
    | Except.ok _ =>
      if prebuildInfo.UpdateScratchDataSizeInBytes > 0 then
        let r3 := AllocateScratchMemory device st2.calls st2.self.mScratchMemory.update
          prebuildInfo.UpdateScratchDataSizeInBytes
          D3D12_RESOURCE_STATES.D3D12_RESOURCE_STATE_UNORDERED_ACCESS
        let st3 : InitializeState :=
          { st2 with
            self :=
              { st2.self with
                mScratchMemory := { st2.self.mScratchMemory with update := r3.2.1 } },
            calls := r3.2.2 }
        match r3.1 with
        | Except.error e => (Except.error e, st3)
        | Except.ok _ => (Except.ok (), st3)
      else (Except.ok (), st2)

/-- The member `RayTracingAccelerationContainer::Initialize` (source lines 72-192): `none` when
a null pointer is dereferenced, otherwise the result and the state afterwards. -/
def RayTracingAccelerationContainer.Initialize (device : Device)
    (derived : Addr → RayTracingAccelerationContainer) (st : InitializeState)
    (descriptor : RayTracingAccelerationContainerDescriptor) :
    Option (MaybeError × InitializeState) :=
  if !device.UseD3D12RayTracing then
    some (Except.error (DAWN_VALIDATION_ERROR "Ray Tracing not supported on this device"), st)
  else
    let geometries :=
      if descriptor.level = RayTracingAccelerationContainerLevel.Bottom then
        encodeGeometries device st.self.mGeometries descriptor.geometries
      else some st.self.mGeometries
    match geometries with
    | none => none
    | some mGeometries =>
      let instances :=
        if descriptor.level = RayTracingAccelerationContainerLevel.Top then
          encodeInstances device derived st.self.mInstances descriptor.instances
        else some st.self.mInstances
      match instances with
      | none => none
      | some mInstances =>
        let st1 := createInstanceBuffer device
          { st with self := { st.self with mGeometries := mGeometries, mInstances := mInstances } }
          descriptor
        match fillBuildInformation device st1.self descriptor with
        | none => none
        | some self2 => some (reserveScratchMemory device { st1 with self := self2 })

/-- An example D3D12 device: the resource of the buffer at address `a` has GPU address
`4096 * a`, the conversions are the identity on numbers, the prebuild query reports 256, 128
and 0 bytes, and every allocation succeeds. -/
def exampleDevice (toggle : Bool) : Device :=
  { UseD3D12RayTracing := toggle,
    GetD3D12Resource := fun a => { handle := a, gpuVirtualAddress := 4096 * a },
    CopyDst := 8,
    CreateBuffer := fun calls _ _ => 500 + calls.length,
    GetRaytracingAccelerationStructurePrebuildInfo := fun _ _ _ =>
      { ResultDataMaxSizeInBytes := 256, ScratchDataSizeInBytes := 128,
        UpdateScratchDataSizeInBytes := 0 },
    AllocateMemory := fun calls _ _ =>
      Except.ok { handle := 900 + calls.length, gpuVirtualAddress := 65536 * calls.length },
    ToD3D12RayTracingGeometryType := fun t =>
      match t with
      | RayTracingAccelerationGeometryType.Triangles => 0
      | RayTracingAccelerationGeometryType.Aabbs => 1
      | RayTracingAccelerationGeometryType.Invalid => 2,
    ToD3D12RayTracingGeometryFlags := fun f => f,
    ToD3D12RayTracingAccelerationContainerVertexFormat := fun f => f,
    ToD3D12RayTracingAccelerationContainerIndexFormat := fun f => f,
    ToD3D12RayTracingInstanceFlags := fun f => f,
    ToD3D12RayTracingAccelerationStructureBuildFlags := fun f => f,
    ToD3D12RayTracingAccelerationContainerLevel := fun l =>
      match l with
      | RayTracingAccelerationContainerLevel.Bottom => 1
      | RayTracingAccelerationContainerLevel.Top => 0
      | RayTracingAccelerationContainerLevel.Invalid => 2,
    Fill4x3TransformMatrix := fun _ _ _ => List.replicate 16 0,
    indeterminateTransform := List.replicate 12 0 }

end d3d12

/-! ## Example objects for the later sections -/

/-- Example content of the member `mBuildInformation` before `Initialize` writes it. -/
def exampleBuildInformation : d3d12.D3D12_BUILD_RAYTRACING_ACCELERATION_STRUCTURE_INPUTS :=
  { Type_ := 0, Flags := 0, NumDescs := 0,
    DescsLayout := d3d12.D3D12_ELEMENTS_LAYOUT.indeterminate,
    descs := d3d12.D3D12_BUILD_INPUT_DESCS.indeterminate }

/-- An example world of the D3D12 backend over `exampleHeap`. -/
def exampleWorldD3D12 : World d3d12.RayTracingAccelerationContainer :=
  { device := exampleDevice, heap := exampleHeap,
    derived := fun _ => d3d12.RayTracingAccelerationContainer.members exampleBuildInformation,
    implCalls := [] }

/-- The example world in which address 20 holds the top-level container constructed from a
descriptor with two instances of the bottom-level container 10. -/
def exampleWorldWithTop : World Nat :=
  { exampleWorld with
    heap := exampleWorld.heap.setContainer 20
      (RayTracingAccelerationContainerBase.fromDescriptor exampleDevice 0
        RayTracingAccelerationContainerLevel.Invalid
        (exampleTop [] [exampleInstance 10, exampleInstance 10])).1 }

/-- A triangle geometry whose vertex data has a null buffer pointer. -/
def exampleTrianglesWithNullBuffer : RayTracingAccelerationGeometryDescriptor :=
  { type := RayTracingAccelerationGeometryType.Triangles, flags := 0,
    vertex := some { buffer := none, format := 0, stride := 12, offset := 0, count := 3 },
    index := none, aabb := none }

/-- An AABB geometry as validation accepts it: AABB data only. -/
def exampleAabbOnly : RayTracingAccelerationGeometryDescriptor :=
  { type := RayTracingAccelerationGeometryType.Aabbs, flags := 0,
    vertex := none, index := none, aabb := some exampleAabb }

/-- A triangle geometry with vertex data at byte offset 48 and index data at byte offset 96 of
buffer 1. -/
def exampleIndexedTriangles : RayTracingAccelerationGeometryDescriptor :=
  { type := RayTracingAccelerationGeometryType.Triangles, flags := 0,
    vertex := some { buffer := some 1, format := 0, stride := 12, offset := 48, count := 3 },
    index := some { buffer := some 1, format := 0, offset := 96, count := 3 },
    aabb := none }

/-- The state of a freshly constructed D3D12 container over `exampleHeap`, before any device
call. -/
def exampleInitializeState : d3d12.InitializeState :=
  { self := d3d12.RayTracingAccelerationContainer.members exampleBuildInformation,
    heap := exampleHeap, calls := [] }

/-! ## The ray-tracing pipeline descriptor (`RayTracingPipeline.cpp`) -/

/-- Modelled from the spec: the class `PipelineLayoutBase` is declared in `PipelineLayout.h`,
which is not among the sources.  Validation reads only whether the layout is an error
object. -/
structure PipelineLayoutBase where
  isError : Bool
deriving DecidableEq, Repr

/-- Modelled from the spec: the class `RayTracingShaderBindingTableBase` is declared in
`RayTracingShaderBindingTable.h`, which is not among the sources.  Like the acceleration
container it has a destroy lifecycle (the Vulkan header overrides `DestroyImpl`): the object is
an error object or not, and it has been destroyed or not. -/
structure RayTracingShaderBindingTableBase where
  isError : Bool
  mIsDestroyed : Bool
deriving DecidableEq, Repr

/-- The accessor `IsDestroyed` of the shader binding table. -/
def RayTracingShaderBindingTableBase.IsDestroyed (self : RayTracingShaderBindingTableBase) :
    Bool :=
  self.mIsDestroyed

/-- The struct behind `descriptor->rayTracingState`; `shaderBindingTable` is a nullable
pointer to a table. -/
structure RayTracingStateDescriptor where
  shaderBindingTable : Option RayTracingShaderBindingTableBase
deriving DecidableEq, Repr

/-- The struct `RayTracingPipelineDescriptor` as far as validation reads it: two nullable
pointers. -/
structure RayTracingPipelineDescriptor where
  layout : Option PipelineLayoutBase
  rayTracingState : Option RayTracingStateDescriptor
deriving DecidableEq, Repr

/-- Modelled from the spec: `DeviceBase::ValidateObject` is defined in `Device.cpp`, which is
not among the sources; this is its instance at a pipeline layout.  The only failure is that the
object is an error object. -/
def DeviceBase.ValidateLayoutObject (_device : DeviceBase) (object : PipelineLayoutBase) :
    MaybeError :=
  if object.isError then Except.error (DAWN_VALIDATION_ERROR "Object is an error")
  else Except.ok ()

/-- The function `ValidateRayTracingPipelineDescriptor` (`RayTracingPipeline.cpp`, lines
22-42).  The test before the message "Shader Binding Table must not be destroyed" is the same
null test as the one before it. -/
def ValidateRayTracingPipelineDescriptor (device : DeviceBase)
    (descriptor : RayTracingPipelineDescriptor) : MaybeError :=
  let layoutResult : MaybeError :=
    match descriptor.layout with
    | some layout => device.ValidateLayoutObject layout
    | none => Except.ok ()
  match layoutResult with
  | Except.error e => Except.error e
  | Except.ok _ =>
    match descriptor.rayTracingState with
    | none => Except.error (DAWN_VALIDATION_ERROR "Ray Tracing state must not be empty")
    | some rayTracingState =>
      if rayTracingState.shaderBindingTable.isNone then
        Except.error (DAWN_VALIDATION_ERROR "Missing Shader Binding Table")
      else if rayTracingState.shaderBindingTable.isNone then
        Except.error (DAWN_VALIDATION_ERROR "Shader Binding Table must not be destroyed")
      else Except.ok ()

/-! ## Notions used to state the later properties -/

namespace d3d12

/-- The allocations requested from the device in a call log, oldest first: the width of the
resource descriptor and the initial state of every `AllocateMemory` call. -/
def allocationRequests (calls : List DeviceCall) : List (Nat × D3D12_RESOURCE_STATES) :=
  calls.filterMap fun call =>
    match call with
    | DeviceCall.AllocateMemory resourceDescriptor initialUsage =>
      some (resourceDescriptor.Width, initialUsage)
    | _ => none

/-- The resource descriptor that `AllocateScratchMemory` fills for a request of `size` bytes
(source lines 198-210). -/
def scratchResourceDescriptor (size : Nat) : D3D12_RESOURCE_DESC :=
  { Alignment := 0, Width := size, Height := 1, DepthOrArraySize := 1, MipLevels := 1,
    SampleDescCount := 1, SampleDescQuality := 0 }

/-- The device calls that the block "reserve scratch memory" makes after the prebuild query
has reported `info`: the allocation of the result memory, of the build memory, and of the
update memory when its reported size is not zero. -/
def scratchAllocations (info : D3D12_RAYTRACING_ACCELERATION_STRUCTURE_PREBUILD_INFO) :
    List DeviceCall :=
  [DeviceCall.AllocateMemory (scratchResourceDescriptor info.ResultDataMaxSizeInBytes)
      D3D12_RESOURCE_STATES.D3D12_RESOURCE_STATE_RAYTRACING_ACCELERATION_STRUCTURE,
    DeviceCall.AllocateMemory (scratchResourceDescriptor info.ScratchDataSizeInBytes)
      D3D12_RESOURCE_STATES.D3D12_RESOURCE_STATE_UNORDERED_ACCESS] ++
  (if info.UpdateScratchDataSizeInBytes > 0 then
    [DeviceCall.AllocateMemory (scratchResourceDescriptor info.UpdateScratchDataSizeInBytes)
      D3D12_RESOURCE_STATES.D3D12_RESOURCE_STATE_UNORDERED_ACCESS]
  else [])

/-- A memory entry is held when it owns a resource. -/
def MemoryEntry.IsHeld (entry : MemoryEntry) : Bool :=
  entry.resource.resource.isSome || entry.buffer.isSome

/-- The level invariant in the words of the specification, for a container of level `level`
with base members `base` and D3D12 members `derived`: a top-level container holds no geometry,
a bottom-level container holds no instances. -/
def LevelInvariant (level : RayTracingAccelerationContainerLevel)
    (base : RayTracingAccelerationContainerBase) (derived : RayTracingAccelerationContainer) :
    Prop :=
  (level = RayTracingAccelerationContainerLevel.Top →
    base.mVertexBuffers = [] ∧ base.mIndexBuffers = [] ∧ base.mAABBBuffers = [] ∧
      derived.mGeometries = []) ∧
  (level = RayTracingAccelerationContainerLevel.Bottom →
    base.mGeometryContainers = [] ∧ derived.mInstances = [])

end d3d12

namespace vulkan

/-- The index `i` is the position of the first shader of stage `role` in `shaders`; the group
made for a shader has the position of the shader, so this is the index of the first group of
that role. -/
def IsFirstIndexOfStage (shaders : List RayTracingShaderBindingTableShadersDescriptor)
    (role : ShaderStage) (i : Nat) : Prop :=
  (∃ s : RayTracingShaderBindingTableShadersDescriptor, shaders[i]? = some s ∧ s.stage = role) ∧
  ∀ (j : Nat) (s : RayTracingShaderBindingTableShadersDescriptor),
    j < i → shaders[j]? = some s → s.stage ≠ role

/-- The group `g` is the group of a shader of stage `stage` at position `index` of the group
list, in the words of the specification: type General with only the general shader index set
(to `index`) for a ray-generation or miss shader, type Triangle-hit-group with only the
closest-hit index set for a closest-hit shader and only the any-hit index set for an any-hit
shader; the intersection index is never set. -/
def GroupIsFor (g : VkRayTracingShaderGroupCreateInfoNV) (index : Nat) (stage : ShaderStage) :
    Prop :=
  g.intersectionShader = VK_SHADER_UNUSED_NV ∧ index ≠ VK_SHADER_UNUSED_NV ∧
  match stage with
  | ShaderStage.RayGeneration =>
    g.type_ = VK_RAY_TRACING_SHADER_GROUP_TYPE_GENERAL_NV ∧ g.generalShader = index ∧
      g.closestHitShader = VK_SHADER_UNUSED_NV ∧ g.anyHitShader = VK_SHADER_UNUSED_NV
  | ShaderStage.RayMiss =>
    g.type_ = VK_RAY_TRACING_SHADER_GROUP_TYPE_GENERAL_NV ∧ g.generalShader = index ∧
      g.closestHitShader = VK_SHADER_UNUSED_NV ∧ g.anyHitShader = VK_SHADER_UNUSED_NV
  | ShaderStage.RayClosestHit =>
    g.type_ = VK_RAY_TRACING_SHADER_GROUP_TYPE_TRIANGLES_HIT_GROUP_NV ∧
      g.closestHitShader = index ∧
      g.generalShader = VK_SHADER_UNUSED_NV ∧ g.anyHitShader = VK_SHADER_UNUSED_NV
  | ShaderStage.RayAnyHit =>
    g.type_ = VK_RAY_TRACING_SHADER_GROUP_TYPE_TRIANGLES_HIT_GROUP_NV ∧
      g.anyHitShader = index ∧
      g.generalShader = VK_SHADER_UNUSED_NV ∧ g.closestHitShader = VK_SHADER_UNUSED_NV
  | ShaderStage.Other => False

/-- A shader list in role order with one ray-generation and one miss shader. -/
def exampleShadersGenMiss : RayTracingShaderBindingTableDescriptor :=
  { shaders := [exampleShader 2 ShaderStage.RayGeneration] ++ [] ++ [] ++
      [exampleShader 4 ShaderStage.RayMiss] }

/-- The per-role counter of a table that belongs to a stage; a stage that is none of the four
ray-tracing stages has no counter. -/
def RayTracingShaderBindingTable.counter (self : RayTracingShaderBindingTable)
    (role : ShaderStage) : Nat :=
  match role with
  | ShaderStage.RayGeneration => self.mRayGenerationCount
  | ShaderStage.RayClosestHit => self.mRayClosestHitCount
  | ShaderStage.RayAnyHit => self.mRayAnyHitCount
  | ShaderStage.RayMiss => self.mRayMissCount
  | ShaderStage.Other => 0

/-- A shader list with a ray-generation shader and a shader of a stage that is none of the four
ray-tracing stages. -/
def exampleShadersWithOther : RayTracingShaderBindingTableDescriptor :=
  { shaders := [exampleShader 1 ShaderStage.RayGeneration, exampleShader 2 ShaderStage.Other] }

/-- The shaders of `exampleShaders` in role order: two ray-generation shaders, one closest-hit,
one any-hit and one miss shader. -/
def exampleShadersInRoleOrder : List RayTracingShaderBindingTableShadersDescriptor :=
  [exampleShader 2 ShaderStage.RayGeneration, exampleShader 5 ShaderStage.RayGeneration] ++
    [exampleShader 1 ShaderStage.RayClosestHit] ++ [exampleShader 3 ShaderStage.RayAnyHit] ++
    [exampleShader 4 ShaderStage.RayMiss]

end vulkan

/-- An example D3D12 device whose prebuild query also reports 64 bytes of update scratch
memory. -/
def exampleDeviceWithUpdate : d3d12.Device :=
  { d3d12.exampleDevice true with
    GetRaytracingAccelerationStructurePrebuildInfo := fun _ _ _ =>
      { ResultDataMaxSizeInBytes := 256, ScratchDataSizeInBytes := 128,
        UpdateScratchDataSizeInBytes := 64 } }

/-- An instance of container `a` that supplies both a transform triple and a raw matrix. -/
def exampleInstanceWithBoth (a : Addr) (matrix : List Nat) :
    RayTracingAccelerationInstanceDescriptor :=
  { exampleInstance a with
    transform := some
      { translation := some { x := 1, y := 2, z := 3 },
        rotation := some { x := 0, y := 0, z := 0 },
        scale := some { x := 1, y := 1, z := 1 } },
    transformMatrix := some matrix }

/-- A world of the D3D12 backend in which the container at address 10 has been initialized:
its three scratch entries own resources. -/
def exampleWorldInitialized : World d3d12.RayTracingAccelerationContainer :=
  { exampleWorldD3D12 with
    derived := fun a =>
      if a = 10 then
        { d3d12.RayTracingAccelerationContainer.members exampleBuildInformation with
          mScratchMemory :=
            { result :=
                { d3d12.MemoryEntry.absent with
                  resource := { resource := some { handle := 901, gpuVirtualAddress := 65536 } },
                  buffer := some { handle := 901, gpuVirtualAddress := 65536 },
                  address := 65536 },
              update :=
                { d3d12.MemoryEntry.absent with
                  resource := { resource := some { handle := 903, gpuVirtualAddress := 196608 } },
                  buffer := some { handle := 903, gpuVirtualAddress := 196608 },
                  address := 196608 },
              build :=
                { d3d12.MemoryEntry.absent with
                  resource := { resource := some { handle := 902, gpuVirtualAddress := 131072 } },
                  buffer := some { handle := 902, gpuVirtualAddress := 131072 },
                  address := 131072 } } }
      else d3d12.RayTracingAccelerationContainer.members exampleBuildInformation }

/-- A pipeline descriptor without layout whose shader binding table has been destroyed. -/
def examplePipelineWithDestroyedTable : RayTracingPipelineDescriptor :=
  { layout := none,
    rayTracingState := some
      { shaderBindingTable := some { isError := false, mIsDestroyed := true } } }

/-! ## Properties of results -/

/-- A result that is either a success or a validation error. -/
def MaybeError.OkOrValidation (r : MaybeError) : Prop :=
  r = Except.ok () ∨ r.IsValidationError = true

/-- An outcome that is a returned result, either a success or a validation error; the outcome
`none` (a null pointer was dereferenced) is excluded. -/
def ReturnsOkOrValidation (o : Option MaybeError) : Prop :=
  ∃ r, o = some r ∧ r.OkOrValidation

/-- Every populated vertex, index and AABB entry of the geometry has a buffer pointer that is
not null. -/
def RayTracingAccelerationGeometryDescriptor.HasBuffers
    (g : RayTracingAccelerationGeometryDescriptor) : Bool :=
  (match g.vertex with
    | some v => v.buffer.isSome
    | none => true) &&
  (match g.index with
    | some i => i.buffer.isSome
    | none => true) &&
  (match g.aabb with
    | some a => a.buffer.isSome
    | none => true)

theorem okOrValidation_ok : MaybeError.OkOrValidation (Except.ok ()) := Or.inl rfl

theorem okOrValidation_error (message : String) :
    MaybeError.OkOrValidation (Except.error (DAWN_VALIDATION_ERROR message)) :=
  Or.inr (by simp [MaybeError.IsValidationError, DAWN_VALIDATION_ERROR])

theorem okOrValidation_bind {a b : MaybeError} (ha : a.OkOrValidation) (hb : b.OkOrValidation) :
    MaybeError.OkOrValidation (a >>= fun _ => b) := by
  cases a with
  | error e => exact ha
  | ok u => exact hb

theorem bind_eq_ok_iff {a b : MaybeError} :
    (a >>= fun _ => b) = Except.ok () ↔ a = Except.ok () ∧ b = Except.ok () := by
  cases a with
  | error e => simp [bind, Except.bind]
  | ok u => simp [bind, Except.bind]

theorem isValidationError_of_not_ok {r : MaybeError} (h : r.OkOrValidation)
    (hne : r ≠ Except.ok ()) : r.IsValidationError = true := by
  rcases h with h | h
  · exact absurd h hne
  · exact h

theorem not_ok_of_isValidationError {r : MaybeError} (h : r.IsValidationError = true) :
    r ≠ Except.ok () := by
  intro h0
  rw [h0] at h
  simp [MaybeError.IsValidationError] at h

/-! ## Lemmas on the geometry loop -/

theorem returnsOkOrValidation_some {r : MaybeError} (h : r.OkOrValidation) :
    ReturnsOkOrValidation (some r) := ⟨r, rfl, h⟩

theorem returnsOkOrValidation_andThen {a b : Option MaybeError}
    (ha : ReturnsOkOrValidation a) (hb : ReturnsOkOrValidation b) :
    ReturnsOkOrValidation (andThen a b) := by
  obtain ⟨r, hr, hro⟩ := ha
  subst hr
  cases r with
  | error e => exact ⟨Except.error e, rfl, hro⟩
  | ok u => exact hb

theorem andThen_eq_ok_iff {a b : Option MaybeError} :
    andThen a b = some (Except.ok ()) ↔
      a = some (Except.ok ()) ∧ b = some (Except.ok ()) := by
  cases a with
  | none => simp [andThen]
  | some r =>
    cases r with
    | error e => simp [andThen]
    | ok u => simp [andThen]

theorem isValidationError_of_returns {o : Option MaybeError} (h : ReturnsOkOrValidation o)
    (hne : o ≠ some (Except.ok ())) : ∃ r, o = some r ∧ r.IsValidationError = true := by
  obtain ⟨r, hr, hro⟩ := h
  refine ⟨r, hr, isValidationError_of_not_ok hro ?_⟩
  intro h0
  exact hne (by rw [hr, h0])

theorem validateGeometryType_okOrValidation (g : RayTracingAccelerationGeometryDescriptor) :
    (validateGeometryType g).OkOrValidation := by
  unfold validateGeometryType
  split_ifs <;> first | exact okOrValidation_ok | exact okOrValidation_error _

theorem hasBuffers_iff (g : RayTracingAccelerationGeometryDescriptor) :
    g.HasBuffers = true ↔
      (∀ v, g.vertex = some v → v.buffer ≠ none) ∧
      (∀ i, g.index = some i → i.buffer ≠ none) ∧
      (∀ a, g.aabb = some a → a.buffer ≠ none) := by
  unfold RayTracingAccelerationGeometryDescriptor.HasBuffers
  cases g.vertex <;> cases g.index <;> cases g.aabb <;>
    simp [Option.isSome_iff_ne_none, and_assoc]

theorem validateVertexInput_returns (rayTracing : Nat) (heap : Heap)
    (g : RayTracingAccelerationGeometryDescriptor)
    (h : ∀ v, g.vertex = some v → v.buffer ≠ none) :
    ReturnsOkOrValidation (validateVertexInput rayTracing heap g) := by
  unfold validateVertexInput
  cases hv : g.vertex with
  | none => exact returnsOkOrValidation_some okOrValidation_ok
  | some v =>
    obtain ⟨b, hb⟩ := Option.ne_none_iff_exists'.mp (h v hv)
    simp only [hb]
    split_ifs <;>
      first
      | exact returnsOkOrValidation_some okOrValidation_ok
      | exact returnsOkOrValidation_some (okOrValidation_error _)

theorem validateIndexInput_returns (rayTracing : Nat) (heap : Heap)
    (g : RayTracingAccelerationGeometryDescriptor)
    (h : ∀ i, g.index = some i → i.buffer ≠ none) :
    ReturnsOkOrValidation (validateIndexInput rayTracing heap g) := by
  unfold validateIndexInput
  cases hi : g.index with
  | none => exact returnsOkOrValidation_some okOrValidation_ok
  | some i =>
    obtain ⟨b, hb⟩ := Option.ne_none_iff_exists'.mp (h i hi)
    simp only [hb]
    split_ifs <;>
      first
      | exact returnsOkOrValidation_some okOrValidation_ok
      | exact returnsOkOrValidation_some (okOrValidation_error _)

theorem validateAabbInput_returns (rayTracing : Nat) (heap : Heap)
    (g : RayTracingAccelerationGeometryDescriptor)
    (h : ∀ a, g.aabb = some a → a.buffer ≠ none) :
    ReturnsOkOrValidation (validateAabbInput rayTracing heap g) := by
  unfold validateAabbInput
  cases ha : g.aabb with
  | none => exact returnsOkOrValidation_some okOrValidation_ok
  | some a =>
    obtain ⟨b, hb⟩ := Option.ne_none_iff_exists'.mp (h a ha)
    simp only [hb]
    split_ifs <;>
      first
      | exact returnsOkOrValidation_some okOrValidation_ok
      | exact returnsOkOrValidation_some (okOrValidation_error _)

theorem validateGeometryData_okOrValidation (g : RayTracingAccelerationGeometryDescriptor) :
    (validateGeometryData g).OkOrValidation := by
  unfold validateGeometryData
  split_ifs <;> first | exact okOrValidation_ok | exact okOrValidation_error _

theorem validateGeometry_returns (rayTracing : Nat) (heap : Heap)
    (g : RayTracingAccelerationGeometryDescriptor) (h0 : g.HasBuffers = true) :
    ReturnsOkOrValidation (validateGeometry rayTracing heap g) := by
  have h := (hasBuffers_iff g).mp h0
  unfold validateGeometry
  exact returnsOkOrValidation_andThen
    (returnsOkOrValidation_some (validateGeometryType_okOrValidation g))
    (returnsOkOrValidation_andThen (validateVertexInput_returns rayTracing heap g h.1)
      (returnsOkOrValidation_andThen (validateIndexInput_returns rayTracing heap g h.2.1)
        (returnsOkOrValidation_andThen (validateAabbInput_returns rayTracing heap g h.2.2)
          (returnsOkOrValidation_some (validateGeometryData_okOrValidation g)))))

theorem validateGeometries_returns (rayTracing : Nat) (heap : Heap)
    (gs : List RayTracingAccelerationGeometryDescriptor) (h : ∀ g ∈ gs, g.HasBuffers = true) :
    ReturnsOkOrValidation (validateGeometries rayTracing heap gs) := by
  induction gs with
  | nil => exact returnsOkOrValidation_some okOrValidation_ok
  | cons g rest ih =>
    unfold validateGeometries
    exact returnsOkOrValidation_andThen
      (validateGeometry_returns rayTracing heap g (h g (List.mem_cons_self _ _)))
      (ih (fun g1 hg1 => h g1 (List.mem_cons_of_mem _ hg1)))

theorem validateGeometries_ok_iff (rayTracing : Nat) (heap : Heap)
    (gs : List RayTracingAccelerationGeometryDescriptor) :
    validateGeometries rayTracing heap gs = some (Except.ok ()) ↔
      ∀ g ∈ gs, validateGeometry rayTracing heap g = some (Except.ok ()) := by
  induction gs with
  | nil => simp [validateGeometries]
  | cons g rest ih =>
    unfold validateGeometries
    rw [andThen_eq_ok_iff, ih]
    simp

theorem validateInstances_okOrValidation (heap : Heap)
    (is : List RayTracingAccelerationInstanceDescriptor) :
    (validateInstances heap is).OkOrValidation := by
  induction is with
  | nil => exact okOrValidation_ok
  | cons i rest ih =>
    unfold validateInstances
    split
    · exact okOrValidation_error _
    · split_ifs
      · exact okOrValidation_error _
      · exact ih

theorem validateInstances_ok_iff (heap : Heap)
    (is : List RayTracingAccelerationInstanceDescriptor) :
    validateInstances heap is = Except.ok () ↔
      ∀ i ∈ is, ∃ a, i.geometryContainer = some a ∧
        (heap.containers a).IsDestroyed = false := by
  induction is with
  | nil => simp [validateInstances]
  | cons i rest ih =>
    unfold validateInstances
    split
    · rename_i h
      simp [h]
    · rename_i a h
      by_cases hd : (heap.containers a).IsDestroyed = true
      · simp [h, hd]
      · simp [h, hd, ih]

theorem validateTopLevel_okOrValidation (heap : Heap)
    (d : RayTracingAccelerationContainerDescriptor) : (validateTopLevel heap d).OkOrValidation := by
  unfold validateTopLevel
  split_ifs <;>
    first | exact okOrValidation_ok | exact okOrValidation_error _
          | exact validateInstances_okOrValidation _ _

theorem validateBottomLevel_returns (rayTracing : Nat) (heap : Heap)
    (d : RayTracingAccelerationContainerDescriptor)
    (h : d.level = RayTracingAccelerationContainerLevel.Bottom → 0 < d.geometryCount →
      d.instanceCount = 0 → ∀ g ∈ d.geometries, g.HasBuffers = true) :
    ReturnsOkOrValidation (validateBottomLevel rayTracing heap d) := by
  unfold validateBottomLevel
  split_ifs with h1 h2 h3
  · exact returnsOkOrValidation_some (okOrValidation_error _)
  · exact returnsOkOrValidation_some (okOrValidation_error _)
  · exact validateGeometries_returns rayTracing heap d.geometries
      (h h1 (Nat.pos_of_ne_zero h3) (by omega))
  · exact returnsOkOrValidation_some okOrValidation_ok

theorem validateDescriptor_returns (rayTracing : Nat) (heap : Heap)
    (d : RayTracingAccelerationContainerDescriptor)
    (h : d.level = RayTracingAccelerationContainerLevel.Bottom → 0 < d.geometryCount →
      d.instanceCount = 0 → ∀ g ∈ d.geometries, g.HasBuffers = true) :
    ReturnsOkOrValidation
      (ValidateRayTracingAccelerationContainerDescriptor rayTracing heap d) := by
  unfold ValidateRayTracingAccelerationContainerDescriptor
  split_ifs
  · exact returnsOkOrValidation_some (okOrValidation_error _)
  · exact returnsOkOrValidation_andThen
      (returnsOkOrValidation_some (validateTopLevel_okOrValidation heap d))
      (validateBottomLevel_returns rayTracing heap d h)

theorem validateDescriptor_ok_iff (rayTracing : Nat) (heap : Heap)
    (d : RayTracingAccelerationContainerDescriptor) :
    ValidateRayTracingAccelerationContainerDescriptor rayTracing heap d =
        some (Except.ok ()) ↔
      (d.level = RayTracingAccelerationContainerLevel.Top ∧ d.geometryCount = 0 ∧
          0 < d.instanceCount ∧ validateInstances heap d.instances = Except.ok ()) ∨
      (d.level = RayTracingAccelerationContainerLevel.Bottom ∧ d.instanceCount = 0 ∧
          0 < d.geometryCount ∧
          validateGeometries rayTracing heap d.geometries = some (Except.ok ())) := by
  unfold ValidateRayTracingAccelerationContainerDescriptor
  cases hl : d.level <;>
    simp [hl, andThen_eq_ok_iff, validateTopLevel, validateBottomLevel, Nat.pos_iff_ne_zero]
  · by_cases h1 : d.instanceCount = 0 <;> by_cases h2 : d.geometryCount = 0 <;> simp [h1, h2]
  · by_cases h1 : d.geometryCount = 0 <;> by_cases h2 : d.instanceCount = 0 <;> simp [h1, h2]

theorem validateGeometry_ok_iff (rayTracing : Nat) (heap : Heap)
    (g : RayTracingAccelerationGeometryDescriptor) :
    validateGeometry rayTracing heap g = some (Except.ok ()) ↔
      validateGeometryType g = Except.ok () ∧
      validateVertexInput rayTracing heap g = some (Except.ok ()) ∧
      validateIndexInput rayTracing heap g = some (Except.ok ()) ∧
      validateAabbInput rayTracing heap g = some (Except.ok ()) ∧
      validateGeometryData g = Except.ok () := by
  unfold validateGeometry
  simp only [andThen_eq_ok_iff, Option.some.injEq]

theorem validateAabbInput_ok_imp (rayTracing : Nat) (heap : Heap)
    (g : RayTracingAccelerationGeometryDescriptor)
    (h : validateAabbInput rayTracing heap g = some (Except.ok ())) :
    ∀ aabb, g.aabb = some aabb →
      g.vertex = none ∧ g.index = none ∧
      ∃ b, aabb.buffer = some b ∧ (heap.buffers b).GetSize ≠ 0 ∧
        aabb.count ≠ 0 ∧ (heap.buffers b).GetUsage &&& rayTracing ≠ 0 := by
  intro aabb ha
  unfold validateAabbInput at h
  rw [ha] at h
  simp only at h
  cases hb : aabb.buffer with
  | none =>
    simp only [hb] at h
    split_ifs at h <;> cases h
  | some b =>
    simp only [hb] at h
    split_ifs at h <;>
      first
      | exact ⟨not_not.mp (by assumption), not_not.mp (by assumption), b, rfl,
          by assumption, by assumption, by assumption⟩
      | cases h

theorem validateVertexInput_ok_imp (rayTracing : Nat) (heap : Heap)
    (g : RayTracingAccelerationGeometryDescriptor)
    (h : validateVertexInput rayTracing heap g = some (Except.ok ())) :
    ∀ vertex, g.vertex = some vertex →
      ∃ b, vertex.buffer = some b ∧ (heap.buffers b).GetSize ≠ 0 ∧ vertex.count ≠ 0 ∧
        (heap.buffers b).GetUsage &&& rayTracing ≠ 0 := by
  intro vertex hv
  unfold validateVertexInput at h
  rw [hv] at h
  simp only at h
  cases hb : vertex.buffer with
  | none =>
    simp only [hb] at h
    cases h
  | some b =>
    simp only [hb] at h
    split_ifs at h <;>
      first
      | exact ⟨b, rfl, by assumption, by assumption, by assumption⟩
      | cases h

theorem validateIndexInput_ok_imp (rayTracing : Nat) (heap : Heap)
    (g : RayTracingAccelerationGeometryDescriptor)
    (h : validateIndexInput rayTracing heap g = some (Except.ok ())) :
    ∀ index, g.index = some index →
      ∃ b, index.buffer = some b ∧ (heap.buffers b).GetSize ≠ 0 ∧ index.count ≠ 0 ∧
        (heap.buffers b).GetUsage &&& rayTracing ≠ 0 := by
  intro index hi
  unfold validateIndexInput at h
  rw [hi] at h
  simp only at h
  cases hb : index.buffer with
  | none =>
    simp only [hb] at h
    split_ifs at h <;> cases h
  | some b =>
    simp only [hb] at h
    split_ifs at h <;>
      first
      | exact ⟨b, rfl, by assumption, by assumption, by assumption⟩
      | cases h

/-! ## Validation of descriptors -/

/-- C1: a bottom-level descriptor with `geometryCount == 0` or `instanceCount > 0`, and a
top-level descriptor with `instanceCount == 0` or `geometryCount > 0`, is rejected by
`ValidateRayTracingAccelerationContainerDescriptor`: the function returns, and what it returns
is a validation error. -/
theorem level_count_mismatch_rejected (rayTracing : Nat) (heap : Heap)
    (d : RayTracingAccelerationContainerDescriptor)
    (h : (d.level = RayTracingAccelerationContainerLevel.Bottom ∧
            (d.geometryCount = 0 ∨ 0 < d.instanceCount)) ∨
         (d.level = RayTracingAccelerationContainerLevel.Top ∧
            (d.instanceCount = 0 ∨ 0 < d.geometryCount))) :
    ∃ r, ValidateRayTracingAccelerationContainerDescriptor rayTracing heap d = some r ∧
      r.IsValidationError = true := by
  apply isValidationError_of_returns
  · apply validateDescriptor_returns
    intro hl hg hi
    rcases h with ⟨_, hc⟩ | ⟨hl2, _⟩
    · omega
    · rw [hl] at hl2; cases hl2
  · intro hok
    rw [validateDescriptor_ok_iff] at hok
    rcases h with ⟨hl, hc⟩ | ⟨hl, hc⟩
    · rcases hok with ⟨hl2, _⟩ | ⟨_, hi, hg, _⟩
      · rw [hl] at hl2; cases hl2
      · omega
    · rcases hok with ⟨_, hg, hi, _⟩ | ⟨hl2, _⟩
      · omega
      · rw [hl] at hl2; cases hl2

/-- Witness for C1: a bottom-level descriptor without geometry is rejected. -/
theorem level_count_mismatch_rejected_witness :
    ∃ r, ValidateRayTracingAccelerationContainerDescriptor exampleRayTracing exampleHeap
        (exampleBottom [] []) = some r ∧ r.IsValidationError = true :=
  level_count_mismatch_rejected exampleRayTracing exampleHeap (exampleBottom [] [])
    (Or.inl ⟨rfl, Or.inl rfl⟩)

/-- C3 (the code departs from the claim): a bottom-level descriptor whose only geometry has a
type that is neither `Triangles` nor `Aabbs` and carries valid index data without vertex data
is accepted, because the guard of "Index data requires vertex data" tests `geometry.index`
instead of `geometry.vertex`. -/
theorem index_without_vertex_accepted :
    ValidateRayTracingAccelerationContainerDescriptor exampleRayTracing exampleHeap
        (exampleBottom [exampleIndexOnly] []) = some (Except.ok ()) ∧
      (exampleBottom [exampleIndexOnly] []).level =
        RayTracingAccelerationContainerLevel.Bottom ∧
      exampleIndexOnly ∈ (exampleBottom [exampleIndexOnly] []).geometries ∧
      exampleIndexOnly.index ≠ none ∧ exampleIndexOnly.vertex = none ∧
      exampleIndexOnly.aabb = none :=
  ⟨rfl, rfl, by decide, by decide, rfl, rfl⟩

/-- What acceptance of a bottom-level descriptor guarantees for each geometry: some data is
present, AABB data excludes vertex and index data, every populated entry has a buffer that is
not null, of nonzero size, with a nonzero count and the ray-tracing usage, and index data comes
with vertex data when the type is `Triangles` or `Aabbs`. -/
theorem accepted_geometry_facts (rayTracing : Nat) (heap : Heap)
    (d : RayTracingAccelerationContainerDescriptor)
    (hBottom : d.level = RayTracingAccelerationContainerLevel.Bottom)
    (hok : ValidateRayTracingAccelerationContainerDescriptor rayTracing heap d =
      some (Except.ok ())) :
    ∀ g ∈ d.geometries,
      (g.vertex ≠ none ∨ g.index ≠ none ∨ g.aabb ≠ none) ∧
      (g.aabb ≠ none → g.vertex = none ∧ g.index = none) ∧
      (g.type ≠ RayTracingAccelerationGeometryType.Invalid → g.index ≠ none →
        g.vertex ≠ none) ∧
      (∀ v, g.vertex = some v → ∃ b, v.buffer = some b ∧ (heap.buffers b).GetSize ≠ 0 ∧
        v.count ≠ 0 ∧ (heap.buffers b).GetUsage &&& rayTracing ≠ 0) ∧
      (∀ i, g.index = some i → ∃ b, i.buffer = some b ∧ (heap.buffers b).GetSize ≠ 0 ∧
        i.count ≠ 0 ∧ (heap.buffers b).GetUsage &&& rayTracing ≠ 0) ∧
      (∀ a, g.aabb = some a → ∃ b, a.buffer = some b ∧ (heap.buffers b).GetSize ≠ 0 ∧
        a.count ≠ 0 ∧ (heap.buffers b).GetUsage &&& rayTracing ≠ 0) := by
  intro g hg
  rw [validateDescriptor_ok_iff] at hok
  rcases hok with ⟨hl, _⟩ | ⟨_, _, _, hgs⟩
  · rw [hBottom] at hl; cases hl
  · have hgok := (validateGeometries_ok_iff rayTracing heap d.geometries).mp hgs g hg
    obtain ⟨hT, hV, hI, hA, hD⟩ := (validateGeometry_ok_iff rayTracing heap g).mp hgok
    have hAabb := validateAabbInput_ok_imp rayTracing heap g hA
    refine ⟨?_, ?_, ?_, validateVertexInput_ok_imp rayTracing heap g hV,
      validateIndexInput_ok_imp rayTracing heap g hI, ?_⟩
    · unfold validateGeometryData at hD
      split_ifs at hD with h
      by_contra hc
      push_neg at hc
      exact h hc
    · intro ha
      obtain ⟨a, hsome⟩ := Option.ne_none_iff_exists'.mp ha
      exact ⟨(hAabb a hsome).1, (hAabb a hsome).2.1⟩
    · intro hty hix hv
      unfold validateGeometryType at hT
      cases hgt : g.type with
      | Triangles => simp [hgt, hv] at hT
      | Aabbs =>
        cases hga : g.aabb with
        | none => simp [hgt, hga] at hT
        | some a => exact hix (hAabb a hga).2.1
      | Invalid => exact hty hgt
    · intro a hsome
      exact (hAabb a hsome).2.2

/-- C4: for a top-level descriptor `ValidateRayTracingAccelerationContainerDescriptor` returns
(a success or a validation error), and the descriptor is accepted if and only if
`geometryCount == 0`, `instanceCount > 0`, and every instance has a geometry container that is
present and not destroyed. -/
theorem topLevel_accepted_iff (rayTracing : Nat) (heap : Heap)
    (d : RayTracingAccelerationContainerDescriptor)
    (hTop : d.level = RayTracingAccelerationContainerLevel.Top) :
    (∃ r, ValidateRayTracingAccelerationContainerDescriptor rayTracing heap d = some r ∧
      (r = Except.ok () ∨ r.IsValidationError = true)) ∧
    (ValidateRayTracingAccelerationContainerDescriptor rayTracing heap d =
        some (Except.ok ()) ↔
      d.geometryCount = 0 ∧ 0 < d.instanceCount ∧
        ∀ i ∈ d.instances, ∃ a, i.geometryContainer = some a ∧
          (heap.containers a).IsDestroyed = false) := by
  refine ⟨validateDescriptor_returns rayTracing heap d
    (fun hl _ _ => by rw [hTop] at hl; cases hl), ?_⟩
  rw [validateDescriptor_ok_iff, validateInstances_ok_iff]
  constructor
  · rintro (⟨_, h1, h2, h3⟩ | ⟨hl, _⟩)
    · exact ⟨h1, h2, h3⟩
    · rw [hTop] at hl; cases hl
  · rintro ⟨h1, h2, h3⟩
    exact Or.inl ⟨hTop, h1, h2, h3⟩

/-- Witness for C4: a top-level descriptor with two instances of the live container 10 is
accepted. -/
theorem topLevel_accepted_iff_witness :
    (exampleTop [] [exampleInstance 10, exampleInstance 10]).level =
        RayTracingAccelerationContainerLevel.Top ∧
      ValidateRayTracingAccelerationContainerDescriptor exampleRayTracing exampleHeap
        (exampleTop [] [exampleInstance 10, exampleInstance 10]) = some (Except.ok ()) :=
  ⟨rfl, (topLevel_accepted_iff exampleRayTracing exampleHeap
    (exampleTop [] [exampleInstance 10, exampleInstance 10]) rfl).2.mpr
      ⟨rfl, by decide, by decide⟩⟩

/-! ## Retention of unique references -/

theorem vectorReferenceAlreadyExists_iff {α : Type} [DecidableEq α] (vec : List α) (el : α) :
    VectorReferenceAlreadyExists vec el = true ↔ el ∈ vec := by
  induction vec with
  | nil => simp [VectorReferenceAlreadyExists]
  | cons a rest ih =>
    unfold VectorReferenceAlreadyExists
    by_cases h : a = el
    · simp [h]
    · simp [h, ih, Ne.symm h]

theorem pushBackUnique_of_mem {α : Type} [DecidableEq α] {vec : List α} {el : α}
    (h : el ∈ vec) : pushBackUnique vec el = vec := by
  simp [pushBackUnique, (vectorReferenceAlreadyExists_iff vec el).mpr h]

theorem pushBackUnique_of_not_mem {α : Type} [DecidableEq α] {vec : List α} {el : α}
    (h : el ∉ vec) : pushBackUnique vec el = vec ++ [el] := by
  have : VectorReferenceAlreadyExists vec el = false := by
    rw [← Bool.not_eq_true, vectorReferenceAlreadyExists_iff]
    exact h
  simp [pushBackUnique, this]

theorem mem_firstOccurrences {α : Type} [DecidableEq α] (xs : List α) (x : α) :
    x ∈ firstOccurrences xs ↔ x ∈ xs := by
  induction xs with
  | nil => simp [firstOccurrences]
  | cons a rest ih =>
    simp only [firstOccurrences, List.mem_cons, List.mem_filter, ih]
    by_cases h : x = a
    · simp [h]
    · simp [h]

theorem nodup_firstOccurrences {α : Type} [DecidableEq α] (xs : List α) :
    (firstOccurrences xs).Nodup := by
  induction xs with
  | nil => simp [firstOccurrences]
  | cons a rest ih =>
    simp only [firstOccurrences, List.nodup_cons, List.mem_filter]
    refine ⟨by simp, ih.filter _⟩

theorem foldl_pushBackUnique {α : Type} [DecidableEq α] (xs acc : List α) :
    xs.foldl pushBackUnique acc =
      acc ++ (firstOccurrences xs).filter (fun y => decide (y ∉ acc)) := by
  induction xs generalizing acc with
  | nil => simp [firstOccurrences]
  | cons a rest ih =>
    rw [List.foldl_cons, ih]
    by_cases h : a ∈ acc
    · rw [pushBackUnique_of_mem h]
      congr 1
      simp only [firstOccurrences, List.filter_cons, List.filter_filter]
      simp only [h, not_true_eq_false, decide_False, Bool.false_eq_true, if_false]
      apply List.filter_congr
      intro y _
      by_cases hy : y ∈ acc
      · simp [hy]
      · have : y ≠ a := fun e => hy (e ▸ h)
        simp [hy, this]
    · rw [pushBackUnique_of_not_mem h]
      simp only [firstOccurrences, List.filter_cons, List.filter_filter]
      simp only [h, not_false_eq_true, decide_True, if_true, List.append_assoc,
        List.singleton_append]
      congr 2
      apply List.filter_congr
      intro y _
      by_cases hy : y ∈ acc <;> by_cases hya : y = a <;> simp [hy, hya]

theorem foldl_pushBackUnique_nil {α : Type} [DecidableEq α] (xs : List α) :
    xs.foldl pushBackUnique [] = firstOccurrences xs := by
  rw [foldl_pushBackUnique]
  simp

theorem coalescedFrom_firstOccurrences {α : Type} [DecidableEq α] (xs : List α) :
    CoalescedFrom (firstOccurrences xs) xs :=
  ⟨rfl, nodup_firstOccurrences xs, mem_firstOccurrences xs⟩

theorem retainGeometryContainers_eq (is : List RayTracingAccelerationInstanceDescriptor)
    (self : RayTracingAccelerationContainerBase) :
    retainGeometryContainers self is =
      { self with
        mGeometryContainers :=
          (is.map (fun i => i.geometryContainer)).foldl pushBackUnique
            self.mGeometryContainers } := by
  induction is generalizing self with
  | nil => rfl
  | cons i rest ih =>
    rw [retainGeometryContainers, ih]
    by_cases h : VectorReferenceAlreadyExists self.mGeometryContainers i.geometryContainer = true
    · simp [pushBackUnique, h]
    · simp [pushBackUnique, h]

theorem retainGeometryBuffers_eq (gs : List RayTracingAccelerationGeometryDescriptor)
    (self : RayTracingAccelerationContainerBase) :
    retainGeometryBuffers self gs =
      { self with
        mVertexBuffers :=
          (gs.filterMap (fun g => g.vertex.map (fun v => v.buffer))).foldl pushBackUnique
            self.mVertexBuffers,
        mIndexBuffers :=
          (gs.filterMap (fun g => g.index.map (fun v => v.buffer))).foldl pushBackUnique
            self.mIndexBuffers,
        mAABBBuffers :=
          (gs.filterMap (fun g => g.aabb.map (fun v => v.buffer))).foldl pushBackUnique
            self.mAABBBuffers } := by
  induction gs generalizing self with
  | nil => rfl
  | cons g rest ih =>
    rw [retainGeometryBuffers, ih]
    rcases hv : g.vertex with _ | v <;> rcases hi : g.index with _ | ix <;>
      rcases ha : g.aabb with _ | ab <;>
      simp only [List.filterMap_cons, hv, hi, ha, Option.map_none', Option.map_some',
        List.foldl_cons, pushBackUnique] <;>
      split_ifs <;> simp_all

theorem fromDescriptor_top (device : DeviceBase) (usage0 : Nat)
    (level0 : RayTracingAccelerationContainerLevel)
    (d : RayTracingAccelerationContainerDescriptor)
    (hExt : device.IsExtensionEnabledRayTracing = true)
    (hTop : d.level = RayTracingAccelerationContainerLevel.Top) :
    (RayTracingAccelerationContainerBase.fromDescriptor device usage0 level0 d).1 =
      { RayTracingAccelerationContainerBase.members false d.usage
          RayTracingAccelerationContainerLevel.Top with
        mGeometryContainers := firstOccurrences d.containerRefs } := by
  simp [RayTracingAccelerationContainerBase.fromDescriptor, hExt, hTop,
    retainGeometryContainers_eq, RayTracingAccelerationContainerBase.members,
    foldl_pushBackUnique_nil, RayTracingAccelerationContainerDescriptor.containerRefs]

theorem fromDescriptor_bottom (device : DeviceBase) (usage0 : Nat)
    (level0 : RayTracingAccelerationContainerLevel)
    (d : RayTracingAccelerationContainerDescriptor)
    (hExt : device.IsExtensionEnabledRayTracing = true)
    (hBottom : d.level = RayTracingAccelerationContainerLevel.Bottom) :
    (RayTracingAccelerationContainerBase.fromDescriptor device usage0 level0 d).1 =
      { RayTracingAccelerationContainerBase.members false d.usage
          RayTracingAccelerationContainerLevel.Bottom with
        mVertexBuffers := firstOccurrences d.vertexBufferRefs,
        mIndexBuffers := firstOccurrences d.indexBufferRefs,
        mAABBBuffers := firstOccurrences d.aabbBufferRefs } := by
  simp [RayTracingAccelerationContainerBase.fromDescriptor, hExt, hBottom,
    retainGeometryBuffers_eq, RayTracingAccelerationContainerBase.members,
    foldl_pushBackUnique_nil, RayTracingAccelerationContainerDescriptor.vertexBufferRefs,
    RayTracingAccelerationContainerDescriptor.indexBufferRefs,
    RayTracingAccelerationContainerDescriptor.aabbBufferRefs]

/-- C5: with the ray-tracing extension enabled, the constructor coalesces duplicate references.
For a top-level descriptor `geometryContainers` is the list of distinct containers referenced by
the instances, in order of first occurrence, without duplicates and with nothing missing, so
two instances of the same container give a list of size 1; for a bottom-level descriptor the
same holds for `vertexBuffers`, `indexBuffers` and `aabbBuffers`. -/
theorem retained_references_coalesced (device : DeviceBase) (usage0 : Nat)
    (level0 : RayTracingAccelerationContainerLevel)
    (d : RayTracingAccelerationContainerDescriptor)
    (hExt : device.IsExtensionEnabledRayTracing = true) :
    (d.level = RayTracingAccelerationContainerLevel.Top →
      CoalescedFrom
        (RayTracingAccelerationContainerBase.fromDescriptor device usage0 level0
          d).1.mGeometryContainers d.containerRefs ∧
      ∀ i1 i2, d.instances = [i1, i2] → i1.geometryContainer = i2.geometryContainer →
        (RayTracingAccelerationContainerBase.fromDescriptor device usage0 level0
          d).1.mGeometryContainers.length = 1) ∧
    (d.level = RayTracingAccelerationContainerLevel.Bottom →
      CoalescedFrom
        (RayTracingAccelerationContainerBase.fromDescriptor device usage0 level0
          d).1.mVertexBuffers d.vertexBufferRefs ∧
      CoalescedFrom
        (RayTracingAccelerationContainerBase.fromDescriptor device usage0 level0
          d).1.mIndexBuffers d.indexBufferRefs ∧
      CoalescedFrom
        (RayTracingAccelerationContainerBase.fromDescriptor device usage0 level0
          d).1.mAABBBuffers d.aabbBufferRefs) := by
  constructor
  · intro hTop
    rw [fromDescriptor_top device usage0 level0 d hExt hTop]
    refine ⟨coalescedFrom_firstOccurrences _, ?_⟩
    intro i1 i2 hd heq
    simp [RayTracingAccelerationContainerDescriptor.containerRefs, hd, heq, firstOccurrences]
  · intro hBottom
    rw [fromDescriptor_bottom device usage0 level0 d hExt hBottom]
    exact ⟨coalescedFrom_firstOccurrences _, coalescedFrom_firstOccurrences _,
      coalescedFrom_firstOccurrences _⟩

/-- Witness for C5: two instances of the bottom-level container 10 retain one reference. -/
theorem retained_references_coalesced_witness :
    exampleDevice.IsExtensionEnabledRayTracing = true ∧
      (RayTracingAccelerationContainerBase.fromDescriptor exampleDevice 0
        RayTracingAccelerationContainerLevel.Invalid
        (exampleTop [] [exampleInstance 10, exampleInstance 10])).1.mGeometryContainers.length
        = 1 :=
  ⟨rfl, ((retained_references_coalesced exampleDevice 0
    RayTracingAccelerationContainerLevel.Invalid
    (exampleTop [] [exampleInstance 10, exampleInstance 10]) rfl).1 rfl).2
      (exampleInstance 10) (exampleInstance 10) rfl rfl⟩

/-! ## `ValidateUpdateInstance` and `UpdateInstance` -/

theorem isError_iff_ne_ok (r : MaybeError) : r.IsError = true ↔ r ≠ Except.ok () := by
  cases r with
  | error e => simp [MaybeError.IsError]
  | ok u => simp [MaybeError.IsError]

theorem validateUpdateInstance_ok_iff (device : DeviceBase) (heap : Heap) (self : Addr)
    (instanceIndex : Nat) (d : RayTracingAccelerationInstanceDescriptor) :
    ValidateUpdateInstance device heap self instanceIndex d = Except.ok () ↔
      device.isAlive = true ∧ (heap.containers self).IsError = false ∧
      (heap.containers self).GetLevel = RayTracingAccelerationContainerLevel.Top ∧
      ∃ a, d.geometryContainer = some a ∧
        (heap.containers a).GetLevel = RayTracingAccelerationContainerLevel.Bottom ∧
        (heap.containers a).IsDestroyed = false := by
  unfold ValidateUpdateInstance DeviceBase.ValidateIsAlive DeviceBase.ValidateObject
  cases hA : device.isAlive
  · simp [bind, Except.bind]
  · cases hE : (heap.containers self).IsError
    · by_cases hL : (heap.containers self).GetLevel = RayTracingAccelerationContainerLevel.Top
      · cases hG : d.geometryContainer with
        | none =>
          simp [bind, Except.bind, hL, throw, throwThe, MonadExceptOf.throw, pure, Except.pure]
        | some a =>
          by_cases hB :
              (heap.containers a).GetLevel = RayTracingAccelerationContainerLevel.Bottom
          · cases hD : (heap.containers a).IsDestroyed <;>
              simp [bind, Except.bind, hL, hB, hD, throw, throwThe, MonadExceptOf.throw, pure,
                Except.pure]
          · simp [bind, Except.bind, hL, hB, throw, throwThe, MonadExceptOf.throw, pure,
              Except.pure]
      · simp [bind, Except.bind, hL, throw, throwThe, MonadExceptOf.throw, pure, Except.pure]
    · simp [bind, Except.bind]

theorem updateInstance_of_validate_error {β : Type} (backend : Backend β) (w : World β)
    (self : Addr) (instanceIndex : Nat) (d : RayTracingAccelerationInstanceDescriptor)
    (e : ErrorData)
    (h : ValidateUpdateInstance w.device w.heap self instanceIndex d = Except.error e) :
    UpdateInstance backend w self instanceIndex d =
      some { w with
        device := { w.device with consumedErrors := w.device.consumedErrors ++ [e] } } := by
  simp [UpdateInstance, h, DeviceBase.ConsumedError]

theorem exists_error_of_isError {r : MaybeError} (h : r.IsError = true) :
    ∃ e, r = Except.error e := by
  cases r with
  | error e => exact ⟨e, rfl⟩
  | ok u => simp [MaybeError.IsError] at h

/-- C6: on a bottom-level container `ValidateUpdateInstance` returns an error for every
instance index and every instance descriptor, so `UpdateInstance` fails: it hands that error to
the device and returns without calling the backend. -/
theorem updateInstance_on_bottom_fails {β : Type} (backend : Backend β) (w : World β)
    (self : Addr) (instanceIndex : Nat) (d : RayTracingAccelerationInstanceDescriptor)
    (hBottom :
      (w.heap.containers self).GetLevel = RayTracingAccelerationContainerLevel.Bottom) :
    ∃ e, ValidateUpdateInstance w.device w.heap self instanceIndex d = Except.error e ∧
      UpdateInstance backend w self instanceIndex d =
        some { w with
          device := { w.device with consumedErrors := w.device.consumedErrors ++ [e] } } := by
  have hne : ValidateUpdateInstance w.device w.heap self instanceIndex d ≠ Except.ok () := by
    intro hok
    rw [validateUpdateInstance_ok_iff] at hok
    rw [hBottom] at hok
    exact absurd hok.2.2.1 (by decide)
  obtain ⟨e, he⟩ := exists_error_of_isError ((isError_iff_ne_ok _).mpr hne)
  exact ⟨e, he, updateInstance_of_validate_error backend w self instanceIndex d e he⟩

/-- Witness for C6: the bottom-level container 10 with a valid instance descriptor. -/
theorem updateInstance_on_bottom_fails_witness :
    (exampleWorld.heap.containers 10).GetLevel = RayTracingAccelerationContainerLevel.Bottom ∧
      ∃ e, ValidateUpdateInstance exampleWorld.device exampleWorld.heap 10 0
          (exampleInstance 10) = Except.error e ∧
        UpdateInstance exampleBackend exampleWorld 10 0 (exampleInstance 10) =
          some { exampleWorld with
            device := { exampleWorld.device with
              consumedErrors := exampleWorld.device.consumedErrors ++ [e] } } :=
  ⟨rfl, updateInstance_on_bottom_fails exampleBackend exampleWorld 10 0 (exampleInstance 10) rfl⟩

/-! ## `Destroy` -/

theorem destroy_of_live {β : Type} (backend : Backend β) (w : World β) (self : Addr)
    (hValid : (w.heap.containers self).IsError = false)
    (hLive : (w.heap.containers self).IsDestroyed = false) :
    Destroy backend w self =
      some { w with
        heap := w.heap.setContainer self ((w.heap.containers self).SetDestroyState true),
        derived := Function.update w.derived self (backend.DestroyImpl (w.derived self)),
        implCalls := w.implCalls ++ [(self, ImplCall.DestroyImpl)] } := by
  simp [Destroy, DestroyInternal, DestroyImpl, hValid, hLive]

theorem destroy_of_destroyed {β : Type} (backend : Backend β) (w : World β) (self : Addr)
    (hDestroyed : (w.heap.containers self).IsDestroyed = true) :
    Destroy backend w self =
      some { w with
        heap := w.heap.setContainer self ((w.heap.containers self).SetDestroyState true) } := by
  simp [Destroy, DestroyInternal, hDestroyed]

theorem setDestroyState_of_destroyed (c : RayTracingAccelerationContainerBase)
    (h : c.IsDestroyed = true) : c.SetDestroyState true = c := by
  cases c
  simp only [RayTracingAccelerationContainerBase.IsDestroyed] at h
  simp [RayTracingAccelerationContainerBase.SetDestroyState, h]

theorem setContainer_self (heap : Heap) (self : Addr) :
    heap.setContainer self (heap.containers self) = heap := by
  cases heap
  simp [Heap.setContainer]

theorem destroy_of_destroyed_eq {β : Type} (backend : Backend β) (w : World β) (self : Addr)
    (hDestroyed : (w.heap.containers self).IsDestroyed = true) :
    Destroy backend w self = some w := by
  rw [destroy_of_destroyed backend w self hDestroyed,
    setDestroyState_of_destroyed _ hDestroyed, setContainer_self]

theorem destroy_heap {β : Type} (backend : Backend β) (w w1 : World β) (self : Addr)
    (h : Destroy backend w self = some w1) :
    w1.device = w.device ∧
      w1.heap = w.heap.setContainer self ((w.heap.containers self).SetDestroyState true) := by
  cases hD : (w.heap.containers self).IsDestroyed
  · cases hE : (w.heap.containers self).IsError
    · rw [destroy_of_live backend w self hE hD] at h
      cases h
      exact ⟨rfl, rfl⟩
    · simp [Destroy, DestroyInternal, DestroyImpl, hE, hD] at h
  · rw [destroy_of_destroyed backend w self hD] at h
    cases h
    exact ⟨rfl, rfl⟩

theorem setContainer_containers_self (heap : Heap) (self : Addr)
    (c : RayTracingAccelerationContainerBase) : (heap.setContainer self c).containers self = c := by
  simp [Heap.setContainer]

theorem setContainer_containers_level (heap : Heap) (self a : Addr) :
    ((heap.setContainer self ((heap.containers self).SetDestroyState true)).containers a).GetLevel
      = (heap.containers a).GetLevel := by
  by_cases h : a = self
  · subst h
    simp [Heap.setContainer, RayTracingAccelerationContainerBase.SetDestroyState,
      RayTracingAccelerationContainerBase.GetLevel]
  · simp [Heap.setContainer, Function.update_noteq h]

theorem setContainer_containers_isError (heap : Heap) (self a : Addr) :
    ((heap.setContainer self ((heap.containers self).SetDestroyState true)).containers a).IsError
      = (heap.containers a).IsError := by
  by_cases h : a = self
  · subst h
    simp [Heap.setContainer, RayTracingAccelerationContainerBase.SetDestroyState,
      RayTracingAccelerationContainerBase.IsError]
  · simp [Heap.setContainer, Function.update_noteq h]

theorem destroyTimes_of_destroyed {β : Type} (backend : Backend β) (self : Addr) (n : Nat)
    (w : World β) (hDestroyed : (w.heap.containers self).IsDestroyed = true) :
    DestroyTimes backend self n w = some w := by
  induction n with
  | zero => rfl
  | succ n ih =>
    rw [DestroyTimes, destroy_of_destroyed_eq backend w self hDestroyed]
    exact ih

/-- C7 (the claim fails on the code): after `Destroy()` on the live top-level container 11 the
container is destroyed, and `ValidateUpdateInstance` still accepts a descriptor whose geometry
container is the live bottom-level container 10; `UpdateInstance` then calls the backend. -/
theorem updateInstance_after_destroy_accepted :
    (Destroy exampleBackend exampleWorld 11).map (fun w1 =>
        ((w1.heap.containers 11).IsDestroyed, (w1.heap.containers 11).GetLevel,
          (ValidateUpdateInstance w1.device w1.heap 11 0 (exampleInstance 10)).IsSuccess,
          (UpdateInstance exampleBackend w1 11 0 (exampleInstance 10)).map
            (fun w2 => w2.implCalls))) =
      some (true, RayTracingAccelerationContainerLevel.Top, true,
        some [(11, ImplCall.DestroyImpl), (11, ImplCall.UpdateInstanceImpl 0)]) := by
  rfl

/-- C7, amended: on a non-error top-level container on which `Destroy()` has been called, the
container is destroyed and `ValidateUpdateInstance` succeeds exactly when the device is alive
and the descriptor's geometry container is present, bottom-level and not destroyed; the
container's own destroyed state is not consulted. -/
theorem validateUpdateInstance_after_destroy {β : Type} (backend : Backend β) (w w1 : World β)
    (self : Addr) (instanceIndex : Nat) (d : RayTracingAccelerationInstanceDescriptor)
    (hDestroy : Destroy backend w self = some w1)
    (hValid : (w.heap.containers self).IsError = false)
    (hTop : (w.heap.containers self).GetLevel = RayTracingAccelerationContainerLevel.Top) :
    (w1.heap.containers self).IsDestroyed = true ∧
      (ValidateUpdateInstance w1.device w1.heap self instanceIndex d = Except.ok () ↔
        w1.device.isAlive = true ∧
        ∃ a, d.geometryContainer = some a ∧
          (w1.heap.containers a).GetLevel = RayTracingAccelerationContainerLevel.Bottom ∧
          (w1.heap.containers a).IsDestroyed = false) := by
  obtain ⟨_, hHeap⟩ := destroy_heap backend w w1 self hDestroy
  have hE : (w1.heap.containers self).IsError = false := by
    rw [hHeap, setContainer_containers_isError, hValid]
  have hL : (w1.heap.containers self).GetLevel = RayTracingAccelerationContainerLevel.Top := by
    rw [hHeap, setContainer_containers_level, hTop]
  constructor
  · rw [hHeap, setContainer_containers_self]
    rfl
  · rw [validateUpdateInstance_ok_iff]
    constructor
    · rintro ⟨h1, _, _, h4⟩
      exact ⟨h1, h4⟩
    · rintro ⟨h1, h4⟩
      exact ⟨h1, hE, hL, h4⟩

/-- Witness for C7, amended: the top-level container 11 after `Destroy()`. -/
theorem validateUpdateInstance_after_destroy_witness :
    Destroy exampleBackend exampleWorld 11 =
        some { exampleWorld with
          heap := exampleWorld.heap.setContainer 11
            ((exampleWorld.heap.containers 11).SetDestroyState true),
          derived := Function.update exampleWorld.derived 11 1,
          implCalls := [(11, ImplCall.DestroyImpl)] } ∧
      (exampleWorld.heap.containers 11).IsError = false ∧
      (exampleWorld.heap.containers 11).GetLevel = RayTracingAccelerationContainerLevel.Top ∧
      ((exampleWorld.heap.setContainer 11
          ((exampleWorld.heap.containers 11).SetDestroyState true)).containers 11).IsDestroyed
        = true :=
  ⟨rfl, rfl, rfl,
    (validateUpdateInstance_after_destroy exampleBackend exampleWorld _ 11 0
      (exampleInstance 10) rfl rfl rfl).1⟩

/-- C8: on a live top-level container `ValidateUpdateInstance` returns an error whenever the
descriptor's geometry container is absent, is not a bottom-level container, or is destroyed; and
it succeeds when the device is alive, the container is a valid object and the geometry container
is present, bottom-level and not destroyed. -/
theorem validateUpdateInstance_on_live_top (device : DeviceBase) (heap : Heap) (self : Addr)
    (instanceIndex : Nat) (d : RayTracingAccelerationInstanceDescriptor)
    (hTop : (heap.containers self).GetLevel = RayTracingAccelerationContainerLevel.Top)
    (_hLive : (heap.containers self).IsDestroyed = false) :
    ((d.geometryContainer = none ∨
        ∃ a, d.geometryContainer = some a ∧
          ((heap.containers a).GetLevel ≠ RayTracingAccelerationContainerLevel.Bottom ∨
            (heap.containers a).IsDestroyed = true)) →
      (ValidateUpdateInstance device heap self instanceIndex d).IsError = true) ∧
    (device.isAlive = true → (heap.containers self).IsError = false →
      ∀ a, d.geometryContainer = some a →
        (heap.containers a).GetLevel = RayTracingAccelerationContainerLevel.Bottom →
        (heap.containers a).IsDestroyed = false →
        ValidateUpdateInstance device heap self instanceIndex d = Except.ok ()) := by
  constructor
  · intro h
    rw [isError_iff_ne_ok, Ne, validateUpdateInstance_ok_iff]
    rintro ⟨_, _, _, a, ha, hB, hD⟩
    rcases h with h | ⟨b, hb, h⟩
    · rw [h] at ha; cases ha
    · rw [hb] at ha
      cases ha
      rcases h with h | h
      · exact h hB
      · rw [hD] at h; cases h
  · intro hA hE a ha hB hD
    rw [validateUpdateInstance_ok_iff]
    exact ⟨hA, hE, hTop, a, ha, hB, hD⟩

/-- Witness for C8: on the live top-level container 14, an instance of the destroyed
bottom-level container 12 is refused and an instance of the live bottom-level container 10 is
accepted. -/
theorem validateUpdateInstance_on_live_top_witness :
    (ValidateUpdateInstance exampleDevice exampleHeap 14 0 (exampleInstance 12)).IsError = true ∧
      ValidateUpdateInstance exampleDevice exampleHeap 14 0 (exampleInstance 10)
        = Except.ok () :=
  ⟨(validateUpdateInstance_on_live_top exampleDevice exampleHeap 14 0 (exampleInstance 12)
      rfl rfl).1 (Or.inr ⟨12, rfl, Or.inr rfl⟩),
    (validateUpdateInstance_on_live_top exampleDevice exampleHeap 14 0 (exampleInstance 10)
      rfl rfl).2 rfl rfl 10 rfl rfl rfl⟩

/-- C9 (the code departs from the claim): the instance whose geometry container is the live
top-level container 11 is accepted by `ValidateRayTracingAccelerationContainerDescriptor` as the
single instance of a top-level descriptor, and refused with a validation error by
`ValidateUpdateInstance` on the live, valid top-level container 14. -/
theorem creation_accepts_non_bottom_geometry_container :
    (exampleHeap.containers 11).GetLevel = RayTracingAccelerationContainerLevel.Top ∧
      (exampleHeap.containers 11).IsDestroyed = false ∧
      (exampleTop [] [exampleInstance 11]).geometryCount = 0 ∧
      (exampleTop [] [exampleInstance 11]).instanceCount = 1 ∧
      ValidateRayTracingAccelerationContainerDescriptor exampleRayTracing exampleHeap
        (exampleTop [] [exampleInstance 11]) = some (Except.ok ()) ∧
      (exampleHeap.containers 14).GetLevel = RayTracingAccelerationContainerLevel.Top ∧
      (exampleHeap.containers 14).IsDestroyed = false ∧
      (exampleHeap.containers 14).IsError = false ∧
      exampleDevice.isAlive = true ∧
      ValidateUpdateInstance exampleDevice exampleHeap 14 0 (exampleInstance 11) =
        Except.error (DAWN_VALIDATION_ERROR
          "Linked geometry container must be a bottom-level container") :=
  ⟨rfl, rfl, rfl, rfl, rfl, rfl, rfl, rfl, rfl, rfl⟩

/-- C10: `Destroy` is idempotent.  On a non-error container the first call returns a state in
which `IsDestroyed()` is true; the state after `n` consecutive calls, for every `n >= 1`, is the
state after that first call, so `IsDestroyed()` is true after every call and two calls leave
the state one call leaves; and when the container was not yet destroyed, the log of backend
calls of that state is the previous log followed by exactly one `DestroyImpl`, which the first
call made. -/
theorem destroy_idempotent {β : Type} (backend : Backend β) (w : World β) (self : Addr)
    (hValid : (w.heap.containers self).IsError = false) :
    ∃ w1, Destroy backend w self = some w1 ∧
      (w1.heap.containers self).IsDestroyed = true ∧
      (∀ n, 1 ≤ n → DestroyTimes backend self n w = some w1) ∧
      ((Destroy backend w self).bind (fun w2 => Destroy backend w2 self) = some w1) ∧
      ((w.heap.containers self).IsDestroyed = false →
        w1.implCalls = w.implCalls ++ [(self, ImplCall.DestroyImpl)] ∧
        w1.derived self = backend.DestroyImpl (w.derived self)) := by
  have key : ∀ w1, Destroy backend w self = some w1 →
      (w1.heap.containers self).IsDestroyed = true →
      (∀ n, 1 ≤ n → DestroyTimes backend self n w = some w1) ∧
      ((Destroy backend w self).bind (fun w2 => Destroy backend w2 self) = some w1) := by
    intro w1 h1 hD
    constructor
    · intro n hn
      obtain ⟨m, rfl⟩ : ∃ m, n = m + 1 := ⟨n - 1, by omega⟩
      rw [DestroyTimes, h1]
      exact destroyTimes_of_destroyed backend self m w1 hD
    · rw [h1]
      exact destroy_of_destroyed_eq backend w1 self hD
  cases hD : (w.heap.containers self).IsDestroyed
  · have h1 := destroy_of_live backend w self hValid hD
    have hD1 : (({ w with
        heap := w.heap.setContainer self ((w.heap.containers self).SetDestroyState true),
        derived := Function.update w.derived self (backend.DestroyImpl (w.derived self)),
        implCalls := w.implCalls ++ [(self, ImplCall.DestroyImpl)] } :
          World β).heap.containers self).IsDestroyed = true := by
      simp [Heap.setContainer, RayTracingAccelerationContainerBase.SetDestroyState,
        RayTracingAccelerationContainerBase.IsDestroyed]
    refine ⟨_, h1, hD1, (key _ h1 hD1).1, (key _ h1 hD1).2, ?_⟩
    intro _
    exact ⟨rfl, by simp⟩
  · have h1 := destroy_of_destroyed_eq backend w self hD
    refine ⟨w, h1, hD, (key w h1 hD).1, (key w h1 hD).2, ?_⟩
    intro h
    cases h

/-- Witness for C10: three calls of `Destroy` on the live top-level container 11 call
`DestroyImpl` once and leave the container destroyed. -/
theorem destroy_idempotent_witness :
    (exampleWorld.heap.containers 11).IsError = false ∧
      (DestroyTimes exampleBackend 11 3 exampleWorld).map
          (fun w => (w.implCalls, w.derived 11, (w.heap.containers 11).IsDestroyed)) =
        some ([(11, ImplCall.DestroyImpl)], 1, true) ∧
      ∃ w1, Destroy exampleBackend exampleWorld 11 = some w1 ∧
        (w1.heap.containers 11).IsDestroyed = true ∧
        (∀ n, 1 ≤ n → DestroyTimes exampleBackend 11 n exampleWorld = some w1) ∧
        ((Destroy exampleBackend exampleWorld 11).bind
          (fun w2 => Destroy exampleBackend w2 11) = some w1) ∧
        ((exampleWorld.heap.containers 11).IsDestroyed = false →
          w1.implCalls = exampleWorld.implCalls ++ [(11, ImplCall.DestroyImpl)] ∧
          w1.derived 11 = exampleBackend.DestroyImpl (exampleWorld.derived 11)) :=
  ⟨rfl, rfl, destroy_idempotent exampleBackend exampleWorld 11 rfl⟩

/-! ## What `Destroy` leaves unchanged -/

theorem setContainer_containers_of_ne (heap : Heap) (self a : Addr)
    (c : RayTracingAccelerationContainerBase) (h : a ≠ self) :
    (heap.setContainer self c).containers a = heap.containers a := by
  simp [Heap.setContainer, Function.update_noteq h]

theorem setContainer_buffers (heap : Heap) (self : Addr)
    (c : RayTracingAccelerationContainerBase) :
    (heap.setContainer self c).buffers = heap.buffers := rfl

theorem destroy_total_of_valid {β : Type} (backend : Backend β) (w : World β) (self : Addr)
    (hValid : (w.heap.containers self).IsError = false) :
    ∃ w1, Destroy backend w self = some w1 := by
  cases hD : (w.heap.containers self).IsDestroyed
  · exact ⟨_, destroy_of_live backend w self hValid hD⟩
  · exact ⟨_, destroy_of_destroyed backend w self hD⟩

theorem destroy_d3d12_derived (w w1 : World d3d12.RayTracingAccelerationContainer)
    (self : Addr) (h : Destroy d3d12.backend w self = some w1) : w1.derived = w.derived := by
  cases hD : (w.heap.containers self).IsDestroyed
  · cases hE : (w.heap.containers self).IsError
    · rw [destroy_of_live d3d12.backend w self hE hD] at h
      cases h
      simp [d3d12.backend, d3d12.RayTracingAccelerationContainer.DestroyImpl]
    · simp [Destroy, DestroyInternal, DestroyImpl, hE, hD] at h
  · rw [destroy_of_destroyed d3d12.backend w self hD] at h
    cases h
    rfl

/-- C11: `Destroy()` on a non-error container of the D3D12 backend returns, and it does not
destroy what the container references.  Every buffer and every other container is unchanged,
in particular the destroyed flag of every retained buffer and of every retained bottom-level
container; the container keeps its retained lists, its level and its usage; the members the
backend adds and the device are unchanged; the only change is that the container's own
`isDestroyed` flag is set. -/
theorem destroy_preserves_references (w : World d3d12.RayTracingAccelerationContainer)
    (self : Addr) (hValid : (w.heap.containers self).IsError = false) :
    ∃ w1, Destroy d3d12.backend w self = some w1 ∧
      (∀ b, w1.heap.buffers b = w.heap.buffers b) ∧
      (∀ a, a ≠ self → w1.heap.containers a = w.heap.containers a) ∧
      (∀ b, some b ∈ (w.heap.containers self).mVertexBuffers ++
            (w.heap.containers self).mIndexBuffers ++ (w.heap.containers self).mAABBBuffers →
        (w1.heap.buffers b).isDestroyed = (w.heap.buffers b).isDestroyed) ∧
      (∀ a, some a ∈ (w.heap.containers self).mGeometryContainers → a ≠ self →
        (w1.heap.containers a).IsDestroyed = (w.heap.containers a).IsDestroyed) ∧
      ((w.heap.containers self).GetLevel = RayTracingAccelerationContainerLevel.Top →
        ∀ a, some a ∈ (w.heap.containers self).mGeometryContainers →
          (w.heap.containers a).GetLevel = RayTracingAccelerationContainerLevel.Bottom →
          (w1.heap.containers a).IsDestroyed = (w.heap.containers a).IsDestroyed) ∧
      w1.heap.containers self = { w.heap.containers self with mIsDestroyed := true } ∧
      (w1.heap.containers self).mVertexBuffers = (w.heap.containers self).mVertexBuffers ∧
      (w1.heap.containers self).mIndexBuffers = (w.heap.containers self).mIndexBuffers ∧
      (w1.heap.containers self).mAABBBuffers = (w.heap.containers self).mAABBBuffers ∧
      (w1.heap.containers self).mGeometryContainers =
        (w.heap.containers self).mGeometryContainers ∧
      (w1.heap.containers self).GetLevel = (w.heap.containers self).GetLevel ∧
      (w1.heap.containers self).GetUsage = (w.heap.containers self).GetUsage ∧
      w1.derived = w.derived ∧ w1.device = w.device := by
  obtain ⟨w1, h1⟩ := destroy_total_of_valid d3d12.backend w self hValid
  obtain ⟨hDev, hHeap⟩ := destroy_heap d3d12.backend w w1 self h1
  have hOther : ∀ a, a ≠ self → w1.heap.containers a = w.heap.containers a := by
    intro a ha
    rw [hHeap, setContainer_containers_of_ne _ _ _ _ ha]
  have hSelf : w1.heap.containers self =
      { w.heap.containers self with mIsDestroyed := true } := by
    rw [hHeap, setContainer_containers_self]
    rfl
  refine ⟨w1, h1, ?_, hOther, ?_, ?_, ?_, hSelf, ?_, ?_, ?_, ?_, ?_, ?_,
    destroy_d3d12_derived w w1 self h1, hDev⟩
  · intro b
    rw [hHeap, setContainer_buffers]
  · intro b _
    rw [hHeap, setContainer_buffers]
  · intro a _ ha
    rw [hOther a ha]
  · intro hTop a _ hBottom
    have ha : a ≠ self := by
      intro e
      rw [e, hTop] at hBottom
      cases hBottom
    rw [hOther a ha]
  all_goals rw [hSelf]
  all_goals rfl

/-- Witness for C11: `Destroy()` on the live top-level container 11, which retains the
bottom-level container 10. -/
theorem destroy_preserves_references_witness :
    (exampleWorldD3D12.heap.containers 11).IsError = false ∧
      ∃ w1, Destroy d3d12.backend exampleWorldD3D12 11 = some w1 ∧
        (w1.heap.containers 10).IsDestroyed = false ∧
        (w1.heap.containers 11).IsDestroyed = true := by
  refine ⟨rfl, ?_⟩
  obtain ⟨w1, h1, _, hOther, _, _, _, hSelf, _⟩ :=
    destroy_preserves_references exampleWorldD3D12 11 rfl
  refine ⟨w1, h1, ?_, ?_⟩
  · rw [hOther 10 (by decide)]
    rfl
  · rw [hSelf]
    rfl

/-- C12: on a non-error container `ValidateCanUseInSubmitNow` returns a result, which is a
validation error if and only if the container is destroyed and a success otherwise. -/
theorem validateCanUseInSubmitNow_iff (c : RayTracingAccelerationContainerBase)
    (hValid : c.IsError = false) :
    ∃ r, ValidateCanUseInSubmitNow c = some r ∧
      (r.IsValidationError = true ↔ c.IsDestroyed = true) ∧
      (r.IsError = true ↔ c.IsDestroyed = true) ∧
      (r = Except.ok () ↔ c.IsDestroyed = false) := by
  cases hD : c.IsDestroyed
  · refine ⟨Except.ok (), ?_, ?_, ?_, ?_⟩
    · simp [ValidateCanUseInSubmitNow, hValid, hD]
    · simp [MaybeError.IsValidationError]
    · simp [MaybeError.IsError]
    · simp
  · refine ⟨Except.error
      (DAWN_VALIDATION_ERROR "Destroyed acceleration container used in a submit"), ?_, ?_, ?_, ?_⟩
    · simp [ValidateCanUseInSubmitNow, hValid, hD]
    · simp [MaybeError.IsValidationError, DAWN_VALIDATION_ERROR]
    · simp [MaybeError.IsError]
    · simp

/-- Witness for C12: the destroyed bottom-level container 12. -/
theorem validateCanUseInSubmitNow_iff_witness :
    (exampleHeap.containers 12).IsError = false ∧
      ValidateCanUseInSubmitNow (exampleHeap.containers 12) =
        some (Except.error
          (DAWN_VALIDATION_ERROR "Destroyed acceleration container used in a submit")) ∧
      ∃ r, ValidateCanUseInSubmitNow (exampleHeap.containers 12) = some r ∧
        (r.IsValidationError = true ↔ (exampleHeap.containers 12).IsDestroyed = true) ∧
        (r.IsError = true ↔ (exampleHeap.containers 12).IsDestroyed = true) ∧
        (r = Except.ok () ↔ (exampleHeap.containers 12).IsDestroyed = false) :=
  ⟨rfl, rfl, validateCanUseInSubmitNow_iff (exampleHeap.containers 12) rfl⟩

/-- C13 (the claim fails on the code): address 20 holds the top-level container constructed
from two instances of the bottom-level container 10; it retains the single reference to 10.
After `Destroy()` on container 10, that container is destroyed and `ValidateCanUseInSubmitNow`
on the top-level container returns success. -/
theorem submit_validation_ignores_destroyed_reference :
    (exampleWorldWithTop.heap.containers 20).GetLevel =
        RayTracingAccelerationContainerLevel.Top ∧
      (exampleWorldWithTop.heap.containers 20).mGeometryContainers = [some 10] ∧
      (exampleWorldWithTop.heap.containers 10).GetLevel =
        RayTracingAccelerationContainerLevel.Bottom ∧
      (Destroy exampleBackend exampleWorldWithTop 10).map (fun w1 =>
          ((w1.heap.containers 10).IsDestroyed,
            (ValidateCanUseInSubmitNow (w1.heap.containers 20)).map MaybeError.IsSuccess)) =
        some (true, some true) :=
  ⟨rfl, rfl, rfl, rfl⟩

/-- C13, amended: for a non-error, not destroyed top-level container `top` that retains the
non-error bottom-level container `bottom`, `Destroy()` on `bottom` returns and leaves `bottom`
destroyed, and `ValidateCanUseInSubmitNow` on `top` then returns success: it consults the
destroyed flag of `top` only. -/
theorem submit_validation_after_reference_destroyed {β : Type} (backend : Backend β)
    (w : World β) (top bottom : Addr)
    (hTopValid : (w.heap.containers top).IsError = false)
    (hTopLive : (w.heap.containers top).IsDestroyed = false)
    (hTop : (w.heap.containers top).GetLevel = RayTracingAccelerationContainerLevel.Top)
    (hBottom : (w.heap.containers bottom).GetLevel = RayTracingAccelerationContainerLevel.Bottom)
    (_hRef : some bottom ∈ (w.heap.containers top).mGeometryContainers)
    (hBottomValid : (w.heap.containers bottom).IsError = false) :
    ∃ w1, Destroy backend w bottom = some w1 ∧
      (w1.heap.containers bottom).IsDestroyed = true ∧
      w1.heap.containers top = w.heap.containers top ∧
      ValidateCanUseInSubmitNow (w1.heap.containers top) = some (Except.ok ()) := by
  obtain ⟨w1, h1⟩ := destroy_total_of_valid backend w bottom hBottomValid
  obtain ⟨_, hHeap⟩ := destroy_heap backend w w1 bottom h1
  have hne : top ≠ bottom := by
    intro e
    rw [e, hBottom] at hTop
    cases hTop
  have hSame : w1.heap.containers top = w.heap.containers top := by
    rw [hHeap, setContainer_containers_of_ne _ _ _ _ hne]
  refine ⟨w1, h1, ?_, hSame, ?_⟩
  · rw [hHeap, setContainer_containers_self]
    rfl
  · rw [hSame]
    simp [ValidateCanUseInSubmitNow, hTopValid, hTopLive]

/-- Witness for C13, amended: the top-level container at address 20 and the bottom-level
container 10. -/
theorem submit_validation_after_reference_destroyed_witness :
    ∃ w1, Destroy exampleBackend exampleWorldWithTop 10 = some w1 ∧
      (w1.heap.containers 10).IsDestroyed = true ∧
      w1.heap.containers 20 = exampleWorldWithTop.heap.containers 20 ∧
      ValidateCanUseInSubmitNow (w1.heap.containers 20) = some (Except.ok ()) :=
  submit_validation_after_reference_destroyed exampleBackend exampleWorldWithTop 20 10
    rfl rfl rfl rfl (by decide) rfl

/-! ## Error containers -/

/-- C14: on an error container made by `MakeError`, `ValidateUpdateInstance` returns an error
for every instance index and descriptor (on a live device the validation error of an invalid
object), and `UpdateInstance` returns after handing that error to the device: the log of
backend calls is unchanged, so `UpdateInstanceImpl` and its `UNREACHABLE()` are not reached. -/
theorem updateInstance_on_error_container {β : Type} (backend : Backend β) (w : World β)
    (self : Addr) (usage0 : Nat) (level0 : RayTracingAccelerationContainerLevel)
    (instanceIndex : Nat) (d : RayTracingAccelerationInstanceDescriptor)
    (hError : w.heap.containers self =
      RayTracingAccelerationContainerBase.MakeError usage0 level0) :
    ∃ e, ValidateUpdateInstance w.device w.heap self instanceIndex d = Except.error e ∧
      (w.device.isAlive = true → e = DAWN_VALIDATION_ERROR "Object is an error") ∧
      ∃ w1, UpdateInstance backend w self instanceIndex d = some w1 ∧
        w1 = { w with
          device := { w.device with consumedErrors := w.device.consumedErrors ++ [e] } } ∧
        w1.implCalls = w.implCalls ∧ w1.heap = w.heap ∧ w1.derived = w.derived := by
  have hE : (w.heap.containers self).IsError = true := by
    rw [hError]
    rfl
  have hne : ValidateUpdateInstance w.device w.heap self instanceIndex d ≠ Except.ok () := by
    intro hok
    rw [validateUpdateInstance_ok_iff] at hok
    rw [hE] at hok
    exact absurd hok.2.1 (by decide)
  obtain ⟨e, he⟩ := exists_error_of_isError ((isError_iff_ne_ok _).mpr hne)
  refine ⟨e, he, ?_, _, updateInstance_of_validate_error backend w self instanceIndex d e he,
    rfl, rfl, rfl, rfl⟩
  intro hA
  have : ValidateUpdateInstance w.device w.heap self instanceIndex d =
      Except.error (DAWN_VALIDATION_ERROR "Object is an error") := by
    simp [ValidateUpdateInstance, DeviceBase.ValidateIsAlive, DeviceBase.ValidateObject, hA, hE,
      bind, Except.bind]
  rw [this] at he
  cases he
  rfl

/-- Witness for C14: address 15 of the example world holds an error container. -/
theorem updateInstance_on_error_container_witness :
    exampleWorld.heap.containers 15 =
        RayTracingAccelerationContainerBase.MakeError 0
          RayTracingAccelerationContainerLevel.Invalid ∧
      (UpdateInstance exampleBackend exampleWorld 15 0 (exampleInstance 10)).map
          (fun w1 => (w1.implCalls, w1.device.consumedErrors)) =
        some ([], [DAWN_VALIDATION_ERROR "Object is an error"]) ∧
      ∃ e, ValidateUpdateInstance exampleWorld.device exampleWorld.heap 15 0
          (exampleInstance 10) = Except.error e ∧
        (exampleWorld.device.isAlive = true → e = DAWN_VALIDATION_ERROR "Object is an error") ∧
        ∃ w1, UpdateInstance exampleBackend exampleWorld 15 0 (exampleInstance 10) = some w1 ∧
          w1 = { exampleWorld with
            device := { exampleWorld.device with
              consumedErrors := exampleWorld.device.consumedErrors ++ [e] } } ∧
          w1.implCalls = exampleWorld.implCalls ∧ w1.heap = exampleWorld.heap ∧
          w1.derived = exampleWorld.derived :=
  ⟨rfl, rfl, updateInstance_on_error_container exampleBackend exampleWorld 15 0
    RayTracingAccelerationContainerLevel.Invalid 0 (exampleInstance 10) rfl⟩

/-- C15 (the code departs from the claim): address 15 of the example world holds the error
container made by `MakeError`; it is not destroyed, so the first `Destroy()` calls
`DestroyImpl()`, whose override on an error container is `UNREACHABLE()`. -/
theorem destroy_on_error_container_reaches_unreachable :
    exampleWorld.heap.containers 15 =
        RayTracingAccelerationContainerBase.MakeError 0
          RayTracingAccelerationContainerLevel.Invalid ∧
      (exampleWorld.heap.containers 15).IsError = true ∧
      (exampleWorld.heap.containers 15).IsDestroyed = false ∧
      (DestroyImpl exampleBackend exampleWorld 15).isNone = true ∧
      (Destroy exampleBackend exampleWorld 15).isNone = true ∧
      (DestroyTimes exampleBackend 15 1 exampleWorld).isNone = true :=
  ⟨rfl, rfl, rfl, rfl, rfl, rfl⟩

/-! ## The shader binding table -/

namespace vulkan

theorem ingestShader_mStages (device : Device) (self : RayTracingShaderBindingTable)
    (shader : RayTracingShaderBindingTableShadersDescriptor) :
    (ingestShader device self shader).mStages =
      self.mStages ++ [pipelineShaderStageInfo device shader] := by
  cases h : shader.stage <;> simp [ingestShader, countShader, h]

theorem ingestShader_mGroups (device : Device) (self : RayTracingShaderBindingTable)
    (shader : RayTracingShaderBindingTableShadersDescriptor) :
    (ingestShader device self shader).mGroups =
      self.mGroups ++ [shaderGroupInfo (self.mGroups.length % 2 ^ 32) shader.stage] := by
  cases h : shader.stage <;> simp [ingestShader, countShader, h]

theorem ingestShader_mRayTracingProperties (device : Device)
    (self : RayTracingShaderBindingTable)
    (shader : RayTracingShaderBindingTableShadersDescriptor) :
    (ingestShader device self shader).mRayTracingProperties = self.mRayTracingProperties := by
  cases h : shader.stage <;> simp [ingestShader, countShader, h]

theorem foldl_ingestShader_mStages (device : Device)
    (shaders : List RayTracingShaderBindingTableShadersDescriptor)
    (self : RayTracingShaderBindingTable) :
    (shaders.foldl (ingestShader device) self).mStages =
      self.mStages ++ shaders.map (pipelineShaderStageInfo device) := by
  induction shaders generalizing self with
  | nil => simp
  | cons a rest ih =>
    rw [List.foldl_cons, ih, ingestShader_mStages]
    simp

theorem foldl_ingestShader_mGroups (device : Device)
    (shaders : List RayTracingShaderBindingTableShadersDescriptor)
    (self : RayTracingShaderBindingTable) :
    (shaders.foldl (ingestShader device) self).mGroups =
      self.mGroups ++ (shaders.enumFrom self.mGroups.length).map
        (fun p => shaderGroupInfo (p.1 % 2 ^ 32) p.2.stage) := by
  induction shaders generalizing self with
  | nil => simp
  | cons a rest ih =>
    rw [List.foldl_cons, ih, ingestShader_mGroups]
    simp

theorem foldl_ingestShader_mRayTracingProperties (device : Device)
    (shaders : List RayTracingShaderBindingTableShadersDescriptor)
    (self : RayTracingShaderBindingTable) :
    (shaders.foldl (ingestShader device) self).mRayTracingProperties =
      self.mRayTracingProperties := by
  induction shaders generalizing self with
  | nil => rfl
  | cons a rest ih =>
    rw [List.foldl_cons, ih, ingestShader_mRayTracingProperties]

theorem countStage_cons (stage : ShaderStage) (a : RayTracingShaderBindingTableShadersDescriptor)
    (rest : List RayTracingShaderBindingTableShadersDescriptor) :
    countStage stage (a :: rest) =
      (if a.stage = stage then 1 else 0) + countStage stage rest := by
  unfold countStage
  by_cases h : a.stage = stage
  · simp [List.filter_cons, h]
    omega
  · simp [List.filter_cons, h]

theorem foldl_ingestShader_counts (device : Device)
    (shaders : List RayTracingShaderBindingTableShadersDescriptor)
    (self : RayTracingShaderBindingTable)
    (hGen : self.mRayGenerationCount < 2 ^ 32) (hClosest : self.mRayClosestHitCount < 2 ^ 32)
    (hAny : self.mRayAnyHitCount < 2 ^ 32) (hMiss : self.mRayMissCount < 2 ^ 32) :
    (shaders.foldl (ingestShader device) self).mRayGenerationCount =
        (self.mRayGenerationCount + countStage ShaderStage.RayGeneration shaders) % 2 ^ 32 ∧
      (shaders.foldl (ingestShader device) self).mRayClosestHitCount =
        (self.mRayClosestHitCount + countStage ShaderStage.RayClosestHit shaders) % 2 ^ 32 ∧
      (shaders.foldl (ingestShader device) self).mRayAnyHitCount =
        (self.mRayAnyHitCount + countStage ShaderStage.RayAnyHit shaders) % 2 ^ 32 ∧
      (shaders.foldl (ingestShader device) self).mRayMissCount =
        (self.mRayMissCount + countStage ShaderStage.RayMiss shaders) % 2 ^ 32 := by
  induction shaders generalizing self with
  | nil =>
    simp only [List.foldl_nil, countStage, List.filter_nil, List.length_nil, Nat.add_zero]
    exact ⟨(Nat.mod_eq_of_lt hGen).symm, (Nat.mod_eq_of_lt hClosest).symm,
      (Nat.mod_eq_of_lt hAny).symm, (Nat.mod_eq_of_lt hMiss).symm⟩
  | cons a rest ih =>
    rw [List.foldl_cons]
    have hlt : ∀ x : Nat, (x + 1) % 2 ^ 32 < 2 ^ 32 := fun x => Nat.mod_lt _ (by decide)
    cases h : a.stage <;>
      simp only [countStage_cons, h, reduceCtorEq, if_true, if_false] <;>
      · have := ih (ingestShader device self a)
          (by simp only [ingestShader, countShader, h]; first | assumption | exact hlt _)
          (by simp only [ingestShader, countShader, h]; first | assumption | exact hlt _)
          (by simp only [ingestShader, countShader, h]; first | assumption | exact hlt _)
          (by simp only [ingestShader, countShader, h]; first | assumption | exact hlt _)
        simp only [ingestShader, countShader, h] at this
        obtain ⟨h1, h2, h3, h4⟩ := this
        simp only [ingestShader, countShader, h]
        rw [h1, h2, h3, h4]
        refine ⟨?_, ?_, ?_, ?_⟩ <;> omega

theorem initialize_of_fn (device : Device) (self : RayTracingShaderBindingTable)
    (descriptor : RayTracingShaderBindingTableDescriptor)
    (hfn : device.hasGetRayTracingShaderGroupHandlesNV = true) :
    RayTracingShaderBindingTable.Initialize device self descriptor =
      (Except.ok (), descriptor.shaders.foldl (ingestShader device)
        { self with mRayTracingProperties := device.rayTracingProperties }) := by
  unfold RayTracingShaderBindingTable.Initialize
  simp only [hfn, Bool.not_true, Bool.false_eq_true, if_false]
  by_cases h : descriptor.shaderCount > 0
  · simp [h]
  · have : descriptor.shaders = [] := by
      unfold RayTracingShaderBindingTableDescriptor.shaderCount at h
      exact List.length_eq_zero.mp (by omega)
    simp [h, this]

theorem mod_mul_mod_eq (x h m : Nat) : (x % m * h) % m = (h * x) % m := by
  rw [Nat.mul_comm h x, Nat.mul_mod, Nat.mod_mod, ← Nat.mul_mod]

theorem add_mod_add_mod (a b c m : Nat) :
    ((a % m + b % m) % m + c % m) % m = (a + b + c) % m := by
  rw [← Nat.add_mod a b m, ← Nat.add_mod (a + b) c m]

theorem initialize_offsets (device : Device) (self : RayTracingShaderBindingTable)
    (descriptor : RayTracingShaderBindingTableDescriptor)
    (hfn : device.hasGetRayTracingShaderGroupHandlesNV = true)
    (hGen : self.mRayGenerationCount = 0) (hClosest : self.mRayClosestHitCount = 0)
    (hAny : self.mRayAnyHitCount = 0) (hMiss : self.mRayMissCount = 0) :
    (RayTracingShaderBindingTable.Initialize device self descriptor).2.GetOffsetImpl
        ShaderStage.RayGeneration = 0 ∧
      (RayTracingShaderBindingTable.Initialize device self descriptor).2.GetOffsetImpl
          ShaderStage.RayClosestHit =
        (device.rayTracingProperties.shaderGroupHandleSize *
          countStage ShaderStage.RayGeneration descriptor.shaders) % 2 ^ 32 ∧
      (RayTracingShaderBindingTable.Initialize device self descriptor).2.GetOffsetImpl
          ShaderStage.RayAnyHit =
        (device.rayTracingProperties.shaderGroupHandleSize *
          (countStage ShaderStage.RayGeneration descriptor.shaders +
            countStage ShaderStage.RayClosestHit descriptor.shaders)) % 2 ^ 32 ∧
      (RayTracingShaderBindingTable.Initialize device self descriptor).2.GetOffsetImpl
          ShaderStage.RayMiss =
        (device.rayTracingProperties.shaderGroupHandleSize *
          (countStage ShaderStage.RayGeneration descriptor.shaders +
            countStage ShaderStage.RayClosestHit descriptor.shaders +
            countStage ShaderStage.RayAnyHit descriptor.shaders)) % 2 ^ 32 := by
  rw [initialize_of_fn device self descriptor hfn]
  obtain ⟨h1, h2, h3, _⟩ := foldl_ingestShader_counts device descriptor.shaders
    { self with mRayTracingProperties := device.rayTracingProperties }
    (by simp only [hGen]; decide) (by simp only [hClosest]; decide)
    (by simp only [hAny]; decide) (by simp only [hMiss]; decide)
  have h1' := h1.trans (show (self.mRayGenerationCount + _) % 2 ^ 32 = _ by
    rw [hGen, Nat.zero_add])
  have h2' := h2.trans (show (self.mRayClosestHitCount + _) % 2 ^ 32 = _ by
    rw [hClosest, Nat.zero_add])
  have h3' := h3.trans (show (self.mRayAnyHitCount + _) % 2 ^ 32 = _ by
    rw [hAny, Nat.zero_add])
  simp only [RayTracingShaderBindingTable.GetOffsetImpl, h1', h2', h3',
    foldl_ingestShader_mRayTracingProperties]
  refine ⟨by simp, ?_, ?_, ?_⟩
  · exact mod_mul_mod_eq _ _ _
  · rw [← Nat.add_mod]
    exact mod_mul_mod_eq _ _ _
  · rw [add_mod_add_mod]
    exact mod_mul_mod_eq _ _ _

/-- C16 (the claim fails on the code): with a shader group handle size of 2^31, after
`Initialize` has ingested the example list (two ray-generation, one closest-hit, one any-hit and
one miss shader) into an empty table, `GetOffsetImpl(RayAnyHit)` is 2^31, whereas the handle
size times the number of ray-generation and closest-hit shaders is 3 * 2^31. -/
theorem anyHit_offset_wraps :
    countStage ShaderStage.RayGeneration exampleShaders.shaders = 2 ∧
      countStage ShaderStage.RayClosestHit exampleShaders.shaders = 1 ∧
      (RayTracingShaderBindingTable.Initialize (exampleDevice 2147483648)
        (RayTracingShaderBindingTable.empty { shaderGroupHandleSize := 0 })
        exampleShaders).1 = Except.ok () ∧
      (RayTracingShaderBindingTable.Initialize (exampleDevice 2147483648)
        (RayTracingShaderBindingTable.empty { shaderGroupHandleSize := 0 })
        exampleShaders).2.GetShaderGroupHandleSize = 2147483648 ∧
      (RayTracingShaderBindingTable.Initialize (exampleDevice 2147483648)
        (RayTracingShaderBindingTable.empty { shaderGroupHandleSize := 0 })
        exampleShaders).2.GetOffsetImpl ShaderStage.RayAnyHit = 2147483648 ∧
      (RayTracingShaderBindingTable.Initialize (exampleDevice 2147483648)
        (RayTracingShaderBindingTable.empty { shaderGroupHandleSize := 0 })
        exampleShaders).2.GetOffsetImpl ShaderStage.RayAnyHit ≠
        2147483648 * (countStage ShaderStage.RayGeneration exampleShaders.shaders +
          countStage ShaderStage.RayClosestHit exampleShaders.shaders) := by
  refine ⟨by decide, by decide, rfl, rfl, by decide, by decide⟩

/-- C16, amended: after `Initialize` has ingested a shader list, in any order, into a table
whose per-role counters start at zero, `GetOffsetImpl(role)` is the handle size times the sum
of the counts of the roles before `role` in the order Generation, ClosestHit, AnyHit, Miss,
reduced modulo 2^32; it is that product itself whenever the product is below 2^32.  The
ray-generation offset is 0. -/
theorem offset_law (device : Device) (self : RayTracingShaderBindingTable)
    (descriptor : RayTracingShaderBindingTableDescriptor)
    (hfn : device.hasGetRayTracingShaderGroupHandlesNV = true)
    (hGen : self.mRayGenerationCount = 0) (hClosest : self.mRayClosestHitCount = 0)
    (hAny : self.mRayAnyHitCount = 0) (hMiss : self.mRayMissCount = 0) :
    (RayTracingShaderBindingTable.Initialize device self descriptor).1 = Except.ok () ∧
      (RayTracingShaderBindingTable.Initialize device self
        descriptor).2.GetShaderGroupHandleSize =
          device.rayTracingProperties.shaderGroupHandleSize ∧
      (RayTracingShaderBindingTable.Initialize device self descriptor).2.GetOffsetImpl
        ShaderStage.RayGeneration = 0 ∧
      (RayTracingShaderBindingTable.Initialize device self descriptor).2.GetOffsetImpl
          ShaderStage.RayClosestHit =
        (device.rayTracingProperties.shaderGroupHandleSize *
          countStage ShaderStage.RayGeneration descriptor.shaders) % 2 ^ 32 ∧
      (RayTracingShaderBindingTable.Initialize device self descriptor).2.GetOffsetImpl
          ShaderStage.RayAnyHit =
        (device.rayTracingProperties.shaderGroupHandleSize *
          (countStage ShaderStage.RayGeneration descriptor.shaders +
            countStage ShaderStage.RayClosestHit descriptor.shaders)) % 2 ^ 32 ∧
      (RayTracingShaderBindingTable.Initialize device self descriptor).2.GetOffsetImpl
          ShaderStage.RayMiss =
        (device.rayTracingProperties.shaderGroupHandleSize *
          (countStage ShaderStage.RayGeneration descriptor.shaders +
            countStage ShaderStage.RayClosestHit descriptor.shaders +
            countStage ShaderStage.RayAnyHit descriptor.shaders)) % 2 ^ 32 ∧
      (device.rayTracingProperties.shaderGroupHandleSize *
          countStage ShaderStage.RayGeneration descriptor.shaders < 2 ^ 32 →
        (RayTracingShaderBindingTable.Initialize device self descriptor).2.GetOffsetImpl
            ShaderStage.RayClosestHit =
          device.rayTracingProperties.shaderGroupHandleSize *
            countStage ShaderStage.RayGeneration descriptor.shaders) ∧
      (device.rayTracingProperties.shaderGroupHandleSize *
          (countStage ShaderStage.RayGeneration descriptor.shaders +
            countStage ShaderStage.RayClosestHit descriptor.shaders) < 2 ^ 32 →
        (RayTracingShaderBindingTable.Initialize device self descriptor).2.GetOffsetImpl
            ShaderStage.RayAnyHit =
          device.rayTracingProperties.shaderGroupHandleSize *
            (countStage ShaderStage.RayGeneration descriptor.shaders +
              countStage ShaderStage.RayClosestHit descriptor.shaders)) ∧
      (device.rayTracingProperties.shaderGroupHandleSize *
          (countStage ShaderStage.RayGeneration descriptor.shaders +
            countStage ShaderStage.RayClosestHit descriptor.shaders +
            countStage ShaderStage.RayAnyHit descriptor.shaders) < 2 ^ 32 →
        (RayTracingShaderBindingTable.Initialize device self descriptor).2.GetOffsetImpl
            ShaderStage.RayMiss =
          device.rayTracingProperties.shaderGroupHandleSize *
            (countStage ShaderStage.RayGeneration descriptor.shaders +
              countStage ShaderStage.RayClosestHit descriptor.shaders +
              countStage ShaderStage.RayAnyHit descriptor.shaders)) := by
  obtain ⟨h0, h1, h2, h3⟩ :=
    initialize_offsets device self descriptor hfn hGen hClosest hAny hMiss
  refine ⟨?_, ?_, h0, h1, h2, h3, ?_, ?_, ?_⟩
  · rw [initialize_of_fn device self descriptor hfn]
  · rw [initialize_of_fn device self descriptor hfn]
    simp [RayTracingShaderBindingTable.GetShaderGroupHandleSize,
      foldl_ingestShader_mRayTracingProperties]
  · intro h
    rw [h1, Nat.mod_eq_of_lt h]
  · intro h
    rw [h2, Nat.mod_eq_of_lt h]
  · intro h
    rw [h3, Nat.mod_eq_of_lt h]

/-- Witness for C16, amended: the example list with a handle size of 16; the any-hit offset is
(2 + 1) * 16. -/
theorem offset_law_witness :
    (RayTracingShaderBindingTable.Initialize (exampleDevice 16)
        (RayTracingShaderBindingTable.empty { shaderGroupHandleSize := 0 })
        exampleShaders).2.GetOffsetImpl ShaderStage.RayAnyHit = 48 ∧
      (RayTracingShaderBindingTable.Initialize (exampleDevice 16)
        (RayTracingShaderBindingTable.empty { shaderGroupHandleSize := 0 })
        exampleShaders).2.GetOffsetImpl ShaderStage.RayAnyHit =
        (exampleDevice 16).rayTracingProperties.shaderGroupHandleSize *
          (countStage ShaderStage.RayGeneration exampleShaders.shaders +
            countStage ShaderStage.RayClosestHit exampleShaders.shaders) :=
  ⟨by decide,
    (offset_law (exampleDevice 16)
      (RayTracingShaderBindingTable.empty { shaderGroupHandleSize := 0 }) exampleShaders
      rfl rfl rfl rfl rfl).2.2.2.2.2.2.2.1 (by decide)⟩

/-- C17: after `Initialize` on a table without groups and stages, for a list of `n` shaders
(`n` a 32-bit count) each of stage RayGeneration, RayClosestHit, RayAnyHit or RayMiss, the group
list and the stage list have length `n`, and for every `i < n` group `i` has exactly one shader
index different from `VK_SHADER_UNUSED_NV`, equal to `i` (the general index for a
ray-generation or miss shader, the closest-hit index for a closest-hit shader, the any-hit index
for an any-hit shader), and stage record `i` is the one built from shader `i`: its stage bits
are `VulkanShaderStageFlags` of the stage of shader `i`, its module is the handle of the module
of shader `i`, and its entry point is "main". -/
theorem one_group_per_shader (device : Device) (self : RayTracingShaderBindingTable)
    (descriptor : RayTracingShaderBindingTableDescriptor)
    (hfn : device.hasGetRayTracingShaderGroupHandlesNV = true)
    (hGroups : self.mGroups = []) (hStages : self.mStages = [])
    (hRoles : ∀ s ∈ descriptor.shaders, s.stage ≠ ShaderStage.Other)
    (hCount : descriptor.shaderCount < 2 ^ 32) :
    (RayTracingShaderBindingTable.Initialize device self descriptor).1 = Except.ok () ∧
      (RayTracingShaderBindingTable.Initialize device self descriptor).2.mGroups.length =
        descriptor.shaderCount ∧
      (RayTracingShaderBindingTable.Initialize device self descriptor).2.mStages.length =
        descriptor.shaderCount ∧
      ∀ i shader, descriptor.shaders[i]? = some shader →
        ∃ (g : VkRayTracingShaderGroupCreateInfoNV) (r : VkPipelineShaderStageCreateInfo),
          (RayTracingShaderBindingTable.Initialize device self descriptor).2.mGroups[i]? =
            some g ∧
          usedShaderIndices g = [i] ∧
          (shader.stage = ShaderStage.RayGeneration ∨ shader.stage = ShaderStage.RayMiss →
            g.generalShader = i) ∧
          (shader.stage = ShaderStage.RayClosestHit → g.closestHitShader = i) ∧
          (shader.stage = ShaderStage.RayAnyHit → g.anyHitShader = i) ∧
          (RayTracingShaderBindingTable.Initialize device self descriptor).2.mStages[i]? =
            some r ∧
          r = pipelineShaderStageInfo device shader ∧
          r.sType = VkStructureType.VK_STRUCTURE_TYPE_PIPELINE_SHADER_STAGE_CREATE_INFO ∧
          r.stage = device.VulkanShaderStageFlags shader.stage ∧
          r.module = device.GetHandle shader.module ∧
          r.pName = "main" := by
  rw [initialize_of_fn device self descriptor hfn]
  simp only [foldl_ingestShader_mGroups, foldl_ingestShader_mStages, hGroups, hStages,
    List.nil_append, List.length_map, List.enumFrom_length, List.length_nil,
    RayTracingShaderBindingTableDescriptor.shaderCount, true_and]
  intro i shader hi
  have hlt : i < descriptor.shaders.length := by
    rcases Nat.lt_or_ge i descriptor.shaders.length with h | h
    · exact h
    · rw [List.getElem?_eq_none h] at hi
      cases hi
  have hi32 : i < 2 ^ 32 := by
    unfold RayTracingShaderBindingTableDescriptor.shaderCount at hCount
    omega
  refine ⟨shaderGroupInfo i shader.stage, pipelineShaderStageInfo device shader, ?_, ?_, ?_, ?_,
    ?_, ?_, rfl, rfl, rfl, rfl, rfl⟩
  · have hmod : i % 4294967296 = i := Nat.mod_eq_of_lt hi32
    simp [List.getElem?_map, List.getElem?_enumFrom, hi, hmod]
  · have hmem : shader ∈ descriptor.shaders := List.getElem?_mem hi
    have hrole := hRoles shader hmem
    have hne : i ≠ VK_SHADER_UNUSED_NV := by
      unfold RayTracingShaderBindingTableDescriptor.shaderCount at hCount
      unfold VK_SHADER_UNUSED_NV
      omega
    cases hs : shader.stage
    case Other => exact absurd hs hrole
    all_goals simp [usedShaderIndices, shaderGroupInfo, hne]
  · rintro (h | h) <;> rw [h] <;> rfl
  · intro h
    rw [h]
    rfl
  · intro h
    rw [h]
    rfl
  · simp [List.getElem?_map, hi]

/-- Witness for C17: the example list of five shaders. -/
theorem one_group_per_shader_witness :
    (RayTracingShaderBindingTable.Initialize (exampleDevice 16)
        (RayTracingShaderBindingTable.empty { shaderGroupHandleSize := 0 })
        exampleShaders).2.mGroups.map usedShaderIndices = [[0], [1], [2], [3], [4]] ∧
      (RayTracingShaderBindingTable.Initialize (exampleDevice 16)
        (RayTracingShaderBindingTable.empty { shaderGroupHandleSize := 0 })
        exampleShaders).2.mStages.map (fun r => (r.stage, r.module, r.pName)) =
        exampleShaders.shaders.map (fun s =>
          ((exampleDevice 16).VulkanShaderStageFlags s.stage,
            (exampleDevice 16).GetHandle s.module, "main")) ∧
      (RayTracingShaderBindingTable.Initialize (exampleDevice 16)
        (RayTracingShaderBindingTable.empty { shaderGroupHandleSize := 0 })
        exampleShaders).2.mStages.map (fun r => r.stage) = [1024, 256, 512, 2048, 256] ∧
      (RayTracingShaderBindingTable.Initialize (exampleDevice 16)
        (RayTracingShaderBindingTable.empty { shaderGroupHandleSize := 0 })
        exampleShaders).2.mGroups.length = exampleShaders.shaderCount ∧
      ∃ (g : VkRayTracingShaderGroupCreateInfoNV) (r : VkPipelineShaderStageCreateInfo),
        (RayTracingShaderBindingTable.Initialize (exampleDevice 16)
          (RayTracingShaderBindingTable.empty { shaderGroupHandleSize := 0 })
          exampleShaders).2.mGroups[3]? = some g ∧
        usedShaderIndices g = [3] ∧ g.generalShader = 3 ∧
        (RayTracingShaderBindingTable.Initialize (exampleDevice 16)
          (RayTracingShaderBindingTable.empty { shaderGroupHandleSize := 0 })
          exampleShaders).2.mStages[3]? = some r ∧
        r.stage = (exampleDevice 16).VulkanShaderStageFlags ShaderStage.RayMiss ∧
        r.module = (exampleDevice 16).GetHandle 4 ∧ r.pName = "main" := by
  have h := one_group_per_shader (exampleDevice 16)
    (RayTracingShaderBindingTable.empty { shaderGroupHandleSize := 0 }) exampleShaders
    rfl rfl rfl (by decide) (by decide)
  obtain ⟨g, r, hg, hUsed, hGeneral, _, _, hr, _, _, hStage, hModule, hName⟩ :=
    h.2.2.2 3 (exampleShader 4 ShaderStage.RayMiss) rfl
  exact ⟨by decide, rfl, rfl, h.2.1, g, r, hg, hUsed, hGeneral (Or.inr rfl), hr, hStage, hModule,
    hName⟩

end vulkan

/-! ## `BindGroup::Populate` -/

namespace d3d12

theorem populateViewDescriptors_serials {σ : Type}
    (allocator : ShaderVisibleDescriptorAllocator σ) (s : PopulateState σ) :
    (populateViewDescriptors allocator s).2.bindGroup.mLastUsageSerial =
        s.bindGroup.mLastUsageSerial ∧
      (populateViewDescriptors allocator s).2.bindGroup.mHeapSerial = s.bindGroup.mHeapSerial ∧
      (populateViewDescriptors allocator s).2.bindGroup.layout = s.bindGroup.layout ∧
      (populateViewDescriptors allocator s).2.pendingCommandSerial = s.pendingCommandSerial := by
  unfold populateViewDescriptors
  simp only []
  split_ifs
  · split
    · exact ⟨rfl, rfl, rfl, rfl⟩
    · split_ifs <;> exact ⟨rfl, rfl, rfl, rfl⟩
  · exact ⟨rfl, rfl, rfl, rfl⟩

theorem populateSamplerDescriptors_serials {σ : Type}
    (allocator : ShaderVisibleDescriptorAllocator σ) (s : PopulateState σ) :
    (populateSamplerDescriptors allocator s).2.bindGroup.mLastUsageSerial =
        s.bindGroup.mLastUsageSerial ∧
      (populateSamplerDescriptors allocator s).2.bindGroup.mHeapSerial =
        s.bindGroup.mHeapSerial ∧
      (populateSamplerDescriptors allocator s).2.bindGroup.layout = s.bindGroup.layout ∧
      (populateSamplerDescriptors allocator s).2.pendingCommandSerial =
        s.pendingCommandSerial := by
  unfold populateSamplerDescriptors
  simp only []
  split_ifs
  · split
    · exact ⟨rfl, rfl, rfl, rfl⟩
    · split_ifs <;> exact ⟨rfl, rfl, rfl, rfl⟩
  · exact ⟨rfl, rfl, rfl, rfl⟩

theorem populate_of_valid {σ : Type} (allocator : ShaderVisibleDescriptorAllocator σ)
    (s : PopulateState σ)
    (h : allocator.IsAllocationStillValid s.allocator s.pendingCommandSerial
      s.bindGroup.mLastUsageSerial s.bindGroup.mHeapSerial = true) :
    BindGroup.Populate allocator s = (Except.ok true, s) := by
  simp [BindGroup.Populate, h]

theorem populate_of_stale {σ : Type} (allocator : ShaderVisibleDescriptorAllocator σ)
    (s : PopulateState σ)
    (h : allocator.IsAllocationStillValid s.allocator s.pendingCommandSerial
      s.bindGroup.mLastUsageSerial s.bindGroup.mHeapSerial = false) :
    BindGroup.Populate allocator s =
      match populateViewDescriptors allocator s with
      | (some r, s1) => (r, s1)
      | (none, s1) =>
        match populateSamplerDescriptors allocator s1 with
        | (some r, s2) => (r, s2)
        | (none, s2) =>
          (Except.ok true,
            { s2 with
              bindGroup :=
                { s2.bindGroup with
                  mLastUsageSerial := s.pendingCommandSerial,
                  mHeapSerial := allocator.GetShaderVisibleHeapsSerial s2.allocator } }) := by
  simp [BindGroup.Populate, h]

theorem populateViewDescriptors_some {σ : Type}
    (allocator : ShaderVisibleDescriptorAllocator σ) (s : PopulateState σ)
    (r : Except ErrorData Bool) (h : (populateViewDescriptors allocator s).1 = some r) :
    r ≠ Except.ok true := by
  unfold populateViewDescriptors at h
  simp only [] at h
  split_ifs at h
  split at h
  · cases h
    intro hc
    cases hc
  · split_ifs at h
    cases h
    intro hc
    cases hc

theorem populateSamplerDescriptors_some {σ : Type}
    (allocator : ShaderVisibleDescriptorAllocator σ) (s : PopulateState σ)
    (r : Except ErrorData Bool) (h : (populateSamplerDescriptors allocator s).1 = some r) :
    r ≠ Except.ok true := by
  unfold populateSamplerDescriptors at h
  simp only [] at h
  split_ifs at h
  split at h
  · cases h
    intro hc
    cases hc
  · split_ifs at h
    cases h
    intro hc
    cases hc

theorem populate_true_valid {σ : Type} (allocator : ShaderVisibleDescriptorAllocator σ)
    (s s1 : PopulateState σ) (h : BindGroup.Populate allocator s = (Except.ok true, s1)) :
    allocator.IsAllocationStillValid s1.allocator s1.pendingCommandSerial
      s1.bindGroup.mLastUsageSerial s1.bindGroup.mHeapSerial = true := by
  cases hv : allocator.IsAllocationStillValid s.allocator s.pendingCommandSerial
      s.bindGroup.mLastUsageSerial s.bindGroup.mHeapSerial
  · rw [populate_of_stale allocator s hv] at h
    have hpv := (populateViewDescriptors_serials allocator s).2.2.2
    have hsome1 := populateViewDescriptors_some allocator s
    rcases hview : populateViewDescriptors allocator s with ⟨r1, t1⟩
    rw [hview] at h hpv hsome1
    cases r1 with
    | some r =>
      simp only at h
      exact absurd (congrArg Prod.fst h) (hsome1 r rfl)
    | none =>
      simp only at h
      have hps := (populateSamplerDescriptors_serials allocator t1).2.2.2
      have hsome2 := populateSamplerDescriptors_some allocator t1
      rcases hsamp : populateSamplerDescriptors allocator t1 with ⟨r2, t2⟩
      rw [hsamp] at h hps hsome2
      cases r2 with
      | some r =>
        simp only at h
        exact absurd (congrArg Prod.fst h) (hsome2 r rfl)
      | none =>
        simp only at h
        cases h
        simp only at hps hpv
        simp [ShaderVisibleDescriptorAllocator.IsAllocationStillValid, hps, hpv]
  · rw [populate_of_valid allocator s hv] at h
    cases h
    exact hv

/-- C18: if `Populate` returns `true`, then a second `Populate` on the same bind group, in any
state in which the pending command serial of the device and the heap serial of the allocator
are what they were when the first call returned, returns `true` and leaves the state unchanged:
the log of calls gains no `AllocateGPUDescriptors` and no `CopyDescriptorsSimple`.  The first
call left a recorded pair that passes the validity check of the allocator. -/
theorem populate_idempotent {σ : Type} (allocator : ShaderVisibleDescriptorAllocator σ)
    (s s1 : PopulateState σ) (h : BindGroup.Populate allocator s = (Except.ok true, s1)) :
    allocator.IsAllocationStillValid s1.allocator s1.pendingCommandSerial
        s1.bindGroup.mLastUsageSerial s1.bindGroup.mHeapSerial = true ∧
      BindGroup.Populate allocator s1 = (Except.ok true, s1) ∧
      (BindGroup.Populate allocator s1).2.calls = s1.calls ∧
      ∀ s2 : PopulateState σ, s2.bindGroup = s1.bindGroup →
        s2.pendingCommandSerial = s1.pendingCommandSerial →
        allocator.GetShaderVisibleHeapsSerial s2.allocator =
          allocator.GetShaderVisibleHeapsSerial s1.allocator →
        BindGroup.Populate allocator s2 = (Except.ok true, s2) ∧
          (BindGroup.Populate allocator s2).2.calls = s2.calls := by
  have hv := populate_true_valid allocator s s1 h
  have h1 := populate_of_valid allocator s1 hv
  refine ⟨hv, h1, by rw [h1], ?_⟩
  intro s2 hb hp hs
  have hv2 : allocator.IsAllocationStillValid s2.allocator s2.pendingCommandSerial
      s2.bindGroup.mLastUsageSerial s2.bindGroup.mHeapSerial = true := by
    unfold ShaderVisibleDescriptorAllocator.IsAllocationStillValid at hv ⊢
    rw [hb, hp, hs]
    exact hv
  have h2 := populate_of_valid allocator s2 hv2
  exact ⟨h2, by rw [h2]⟩

/-- Witness for C18: the never populated example bind group with ten free descriptors; the
first `Populate` makes two allocations and two copies, the second none. -/
theorem populate_idempotent_witness :
    (BindGroup.Populate exampleAllocator (examplePopulateState 10)).2.calls.length = 4 ∧
      (BindGroup.Populate exampleAllocator
        (BindGroup.Populate exampleAllocator (examplePopulateState 10)).2).2.calls =
        (BindGroup.Populate exampleAllocator (examplePopulateState 10)).2.calls :=
  ⟨by decide,
    (populate_idempotent exampleAllocator (examplePopulateState 10)
      (BindGroup.Populate exampleAllocator (examplePopulateState 10)).2 rfl).2.2.1⟩

/-- The allocator state in which the sampler block of `Populate` runs: the state after the
view allocation when the layout has view descriptors, the initial state otherwise. -/
theorem populateViewDescriptors_allocator {σ : Type}
    (allocator : ShaderVisibleDescriptorAllocator σ) (s : PopulateState σ) :
    (populateViewDescriptors allocator s).2.allocator =
      if s.bindGroup.layout.GetCbvUavSrvDescriptorCount > 0 then
        (allocator.AllocateGPUDescriptors s.allocator
          s.bindGroup.layout.GetCbvUavSrvDescriptorCount s.pendingCommandSerial
          D3D12_DESCRIPTOR_HEAP_TYPE.D3D12_DESCRIPTOR_HEAP_TYPE_CBV_SRV_UAV).2
      else s.allocator := by
  unfold populateViewDescriptors
  simp only []
  split_ifs
  · split
    · rfl
    · split_ifs <;> rfl
  · rfl

theorem populateViewDescriptors_invalid {σ : Type}
    (allocator : ShaderVisibleDescriptorAllocator σ) (s : PopulateState σ)
    (a : DescriptorHeapAllocation)
    (hCount : 0 < s.bindGroup.layout.GetCbvUavSrvDescriptorCount)
    (hAlloc : (allocator.AllocateGPUDescriptors s.allocator
      s.bindGroup.layout.GetCbvUavSrvDescriptorCount s.pendingCommandSerial
      D3D12_DESCRIPTOR_HEAP_TYPE.D3D12_DESCRIPTOR_HEAP_TYPE_CBV_SRV_UAV).1 = Except.ok a)
    (hInvalid : a.IsInvalid = true) :
    (populateViewDescriptors allocator s).1 = some (Except.ok false) := by
  unfold populateViewDescriptors
  simp only [gt_iff_lt, hCount, if_true, hAlloc, hInvalid]

theorem populateViewDescriptors_pass {σ : Type}
    (allocator : ShaderVisibleDescriptorAllocator σ) (s : PopulateState σ)
    (h : s.bindGroup.layout.GetCbvUavSrvDescriptorCount = 0 ∨
      ∃ a, (allocator.AllocateGPUDescriptors s.allocator
        s.bindGroup.layout.GetCbvUavSrvDescriptorCount s.pendingCommandSerial
        D3D12_DESCRIPTOR_HEAP_TYPE.D3D12_DESCRIPTOR_HEAP_TYPE_CBV_SRV_UAV).1 = Except.ok a ∧
        a.IsInvalid = false) :
    (populateViewDescriptors allocator s).1 = none := by
  unfold populateViewDescriptors
  by_cases hCount : 0 < s.bindGroup.layout.GetCbvUavSrvDescriptorCount
  · rcases h with h | ⟨a, hAlloc, hValid⟩
    · omega
    · simp only [gt_iff_lt, hCount, if_true, hAlloc, hValid, Bool.false_eq_true, if_false]
  · simp only [gt_iff_lt, hCount, if_false]

theorem populateSamplerDescriptors_invalid {σ : Type}
    (allocator : ShaderVisibleDescriptorAllocator σ) (s : PopulateState σ)
    (a : DescriptorHeapAllocation)
    (hCount : 0 < s.bindGroup.layout.GetSamplerDescriptorCount)
    (hAlloc : (allocator.AllocateGPUDescriptors s.allocator
      s.bindGroup.layout.GetSamplerDescriptorCount s.pendingCommandSerial
      D3D12_DESCRIPTOR_HEAP_TYPE.D3D12_DESCRIPTOR_HEAP_TYPE_SAMPLER).1 = Except.ok a)
    (hInvalid : a.IsInvalid = true) :
    (populateSamplerDescriptors allocator s).1 = some (Except.ok false) := by
  unfold populateSamplerDescriptors
  simp only [gt_iff_lt, hCount, if_true, hAlloc, hInvalid]

/-- C19: when the recorded serial pair is stale and `AllocateGPUDescriptors` returns an invalid
allocation, for the view heap or (the view block being passed) for the sampler heap, `Populate`
returns the value `false`, not an error, and leaves the recorded pair
`(mLastUsageSerial, mHeapSerial)` unchanged; so against every later allocator state whose heap
serial differs from the recorded one, as after a heap rotation, the bind group is not taken for
populated. -/
theorem populate_heap_exhausted {σ : Type} (allocator : ShaderVisibleDescriptorAllocator σ)
    (s : PopulateState σ)
    (hStale : allocator.IsAllocationStillValid s.allocator s.pendingCommandSerial
      s.bindGroup.mLastUsageSerial s.bindGroup.mHeapSerial = false)
    (hExhausted :
      (0 < s.bindGroup.layout.GetCbvUavSrvDescriptorCount ∧
        ∃ a, (allocator.AllocateGPUDescriptors s.allocator
          s.bindGroup.layout.GetCbvUavSrvDescriptorCount s.pendingCommandSerial
          D3D12_DESCRIPTOR_HEAP_TYPE.D3D12_DESCRIPTOR_HEAP_TYPE_CBV_SRV_UAV).1 = Except.ok a ∧
          a.IsInvalid = true) ∨
      ((s.bindGroup.layout.GetCbvUavSrvDescriptorCount = 0 ∨
          ∃ a, (allocator.AllocateGPUDescriptors s.allocator
            s.bindGroup.layout.GetCbvUavSrvDescriptorCount s.pendingCommandSerial
            D3D12_DESCRIPTOR_HEAP_TYPE.D3D12_DESCRIPTOR_HEAP_TYPE_CBV_SRV_UAV).1 = Except.ok a ∧
            a.IsInvalid = false) ∧
        0 < s.bindGroup.layout.GetSamplerDescriptorCount ∧
        ∃ a, (allocator.AllocateGPUDescriptors
            (if s.bindGroup.layout.GetCbvUavSrvDescriptorCount > 0 then
              (allocator.AllocateGPUDescriptors s.allocator
                s.bindGroup.layout.GetCbvUavSrvDescriptorCount s.pendingCommandSerial
                D3D12_DESCRIPTOR_HEAP_TYPE.D3D12_DESCRIPTOR_HEAP_TYPE_CBV_SRV_UAV).2
            else s.allocator)
            s.bindGroup.layout.GetSamplerDescriptorCount s.pendingCommandSerial
            D3D12_DESCRIPTOR_HEAP_TYPE.D3D12_DESCRIPTOR_HEAP_TYPE_SAMPLER).1 = Except.ok a ∧
          a.IsInvalid = true)) :
    (BindGroup.Populate allocator s).1 = Except.ok false ∧
      (BindGroup.Populate allocator s).2.bindGroup.mLastUsageSerial =
        s.bindGroup.mLastUsageSerial ∧
      (BindGroup.Populate allocator s).2.bindGroup.mHeapSerial = s.bindGroup.mHeapSerial ∧
      ∀ (a2 : σ) (pending2 : Serial),
        allocator.GetShaderVisibleHeapsSerial a2 ≠ s.bindGroup.mHeapSerial →
        allocator.IsAllocationStillValid a2 pending2
          (BindGroup.Populate allocator s).2.bindGroup.mLastUsageSerial
          (BindGroup.Populate allocator s).2.bindGroup.mHeapSerial = false := by
  have hmain : (BindGroup.Populate allocator s).1 = Except.ok false ∧
      (BindGroup.Populate allocator s).2.bindGroup.mLastUsageSerial =
        s.bindGroup.mLastUsageSerial ∧
      (BindGroup.Populate allocator s).2.bindGroup.mHeapSerial = s.bindGroup.mHeapSerial := by
    rw [populate_of_stale allocator s hStale]
    have hvs := populateViewDescriptors_serials allocator s
    have hva := populateViewDescriptors_allocator allocator s
    rcases hExhausted with ⟨hCount, a, hAlloc, hInvalid⟩ | ⟨hPass, hCount, a, hAlloc, hInvalid⟩
    · have h1 := populateViewDescriptors_invalid allocator s a hCount hAlloc hInvalid
      rcases hview : populateViewDescriptors allocator s with ⟨r1, t1⟩
      rw [hview] at h1 hvs
      simp only at h1
      subst h1
      exact ⟨rfl, hvs.1, hvs.2.1⟩
    · have h1 := populateViewDescriptors_pass allocator s hPass
      rcases hview : populateViewDescriptors allocator s with ⟨r1, t1⟩
      rw [hview] at h1 hvs hva
      simp only at h1 hvs hva
      subst h1
      simp only []
      have hss := populateSamplerDescriptors_serials allocator t1
      have h2 := populateSamplerDescriptors_invalid allocator t1 a
        (by rw [hvs.2.2.1]; exact hCount)
        (by rw [hvs.2.2.1, hvs.2.2.2, hva]; exact hAlloc) hInvalid
      rcases hsamp : populateSamplerDescriptors allocator t1 with ⟨r2, t2⟩
      rw [hsamp] at h2 hss
      simp only at h2 hss
      subst h2
      exact ⟨rfl, hss.1.trans hvs.1, hss.2.1.trans hvs.2.1⟩
  refine ⟨hmain.1, hmain.2.1, hmain.2.2, ?_⟩
  intro a2 pending2 hne
  rw [hmain.2.2]
  unfold ShaderVisibleDescriptorAllocator.IsAllocationStillValid
  have : (s.bindGroup.mHeapSerial == allocator.GetShaderVisibleHeapsSerial a2) = false := by
    rw [beq_eq_false_iff_ne]
    exact fun e => hne e.symm
  rw [this, Bool.and_false]

/-- Witness for C19: the never populated example bind group with four free descriptors; the
three view descriptors fit, the two sampler descriptors do not. -/
theorem populate_heap_exhausted_witness :
    (BindGroup.Populate exampleAllocator (examplePopulateState 4)).1 = Except.ok false ∧
      (BindGroup.Populate exampleAllocator (examplePopulateState 4)).2.bindGroup.mLastUsageSerial
        = 0 ∧
      (BindGroup.Populate exampleAllocator (examplePopulateState 4)).2.bindGroup.mHeapSerial
        = 0 :=
  ⟨(populate_heap_exhausted exampleAllocator (examplePopulateState 4) rfl
      (Or.inr ⟨Or.inr ⟨_, rfl, rfl⟩, by decide, _, rfl, rfl⟩)).1,
    (populate_heap_exhausted exampleAllocator (examplePopulateState 4) rfl
      (Or.inr ⟨Or.inr ⟨_, rfl, rfl⟩, by decide, _, rfl, rfl⟩)).2.1,
    (populate_heap_exhausted exampleAllocator (examplePopulateState 4) rfl
      (Or.inr ⟨Or.inr ⟨_, rfl, rfl⟩, by decide, _, rfl, rfl⟩)).2.2.1⟩

end d3d12

/-! ## D3D12 `Initialize`: the encoded geometry -/

namespace d3d12

theorem encodeGeometry_of_no_aabb (device : Device)
    (g : RayTracingAccelerationGeometryDescriptor)
    (h : ∀ a, g.aabb = some a → a.buffer = none) :
    encodeGeometry device g =
      some
        { Type_ := device.ToD3D12RayTracingGeometryType g.type,
          Flags := device.ToD3D12RayTracingGeometryFlags g.flags,
          data := D3D12_RAYTRACING_GEOMETRY_DATA.Triangles
            (encodeIndexBuffer device g
              (encodeVertexBuffer device g D3D12_RAYTRACING_GEOMETRY_TRIANGLES_DESC.zero)) } := by
  unfold encodeGeometry
  cases ha : g.aabb with
  | none => rfl
  | some a => simp [h a ha]

theorem encodeGeometries_of_no_aabb (device : Device)
    (gs : List RayTracingAccelerationGeometryDescriptor)
    (acc : List D3D12_RAYTRACING_GEOMETRY_DESC)
    (h : ∀ g ∈ gs, ∀ a, g.aabb = some a → a.buffer = none) :
    encodeGeometries device acc gs =
      some (acc ++ gs.map (fun g =>
        { Type_ := device.ToD3D12RayTracingGeometryType g.type,
          Flags := device.ToD3D12RayTracingGeometryFlags g.flags,
          data := D3D12_RAYTRACING_GEOMETRY_DATA.Triangles
            (encodeIndexBuffer device g
              (encodeVertexBuffer device g
                D3D12_RAYTRACING_GEOMETRY_TRIANGLES_DESC.zero)) })) := by
  induction gs generalizing acc with
  | nil => simp [encodeGeometries]
  | cons g rest ih =>
    rw [encodeGeometries, encodeGeometry_of_no_aabb device g (h g (List.mem_cons_self _ _))]
    simp only []
    rw [ih _ (fun g2 hg2 => h g2 (List.mem_cons_of_mem _ hg2))]
    simp

theorem reserveScratchMemory_mGeometries (device : Device) (st : InitializeState) :
    (reserveScratchMemory device st).2.self.mGeometries = st.self.mGeometries := by
  unfold reserveScratchMemory
  simp only []
  split
  · rfl
  · split
    · rfl
    · split_ifs
      · split <;> rfl
      · rfl

theorem createInstanceBuffer_of_bottom (device : Device) (st : InitializeState)
    (descriptor : RayTracingAccelerationContainerDescriptor)
    (hBottom : descriptor.level = RayTracingAccelerationContainerLevel.Bottom) :
    createInstanceBuffer device st descriptor = st := by
  simp [createInstanceBuffer, hBottom]

theorem fillBuildInformation_of_bottom (device : Device)
    (self : RayTracingAccelerationContainer)
    (descriptor : RayTracingAccelerationContainerDescriptor)
    (hBottom : descriptor.level = RayTracingAccelerationContainerLevel.Bottom) :
    ∃ self2, fillBuildInformation device self descriptor = some self2 ∧
      self2.mGeometries = self.mGeometries := by
  simp [fillBuildInformation, hBottom]

theorem initialize_bottom (device : Device) (derived : Addr → RayTracingAccelerationContainer)
    (st : InitializeState) (descriptor : RayTracingAccelerationContainerDescriptor)
    (hToggle : device.UseD3D12RayTracing = true)
    (hBottom : descriptor.level = RayTracingAccelerationContainerLevel.Bottom)
    (mGeometries : List D3D12_RAYTRACING_GEOMETRY_DESC)
    (hEncode : encodeGeometries device st.self.mGeometries descriptor.geometries =
      some mGeometries) :
    ∃ r st1, RayTracingAccelerationContainer.Initialize device derived st descriptor =
        some (r, st1) ∧ st1.self.mGeometries = mGeometries := by
  obtain ⟨self2, hFill, hGeo⟩ := fillBuildInformation_of_bottom device
    { st.self with mGeometries := mGeometries, mInstances := st.self.mInstances } descriptor
    hBottom
  have hInit : RayTracingAccelerationContainer.Initialize device derived st descriptor =
      some (reserveScratchMemory device
        { self := self2, heap := st.heap, calls := st.calls }) := by
    unfold RayTracingAccelerationContainer.Initialize
    simp only [hToggle, Bool.not_true, Bool.false_eq_true, if_false, hBottom, if_true, hEncode,
      reduceCtorEq, createInstanceBuffer_of_bottom, hFill]
  refine ⟨(reserveScratchMemory device { self := self2, heap := st.heap, calls := st.calls }).1,
    (reserveScratchMemory device { self := self2, heap := st.heap, calls := st.calls }).2,
    hInit, ?_⟩
  rw [reserveScratchMemory_mGeometries]
  exact hGeo

/-- C20 (the claim fails on the code).  With the toggle `UseD3D12RayTracing` disabled,
`Initialize` on a bottom-level descriptor with one triangle geometry returns a validation error
and the encoded geometry list stays empty.  With the toggle enabled, on the bottom-level
descriptor made of a triangle geometry and an AABB geometry without vertex data, which
`ValidateRayTracingAccelerationContainerDescriptor` accepts, the loop reads
`geometry.vertex->stride` through a null pointer and no list is produced; and on a triangle
geometry whose vertex data has a null buffer pointer the vertex block is skipped, so the
encoded `VertexCount` and `StrideInBytes` are 0 while the vertex data has count 3 and stride
12. -/
theorem initialize_does_not_always_encode :
    (RayTracingAccelerationContainer.Initialize (exampleDevice false)
        exampleWorldD3D12.derived exampleInitializeState
        (exampleBottom [exampleTriangles] [])).map
          (fun r => (r.1.IsValidationError, r.2.self.mGeometries.length)) = some (true, 0) ∧
      (exampleBottom [exampleTriangles] []).geometryCount = 1 ∧
      ValidateRayTracingAccelerationContainerDescriptor exampleRayTracing exampleHeap
        (exampleBottom [exampleTriangles, exampleAabbOnly] []) = some (Except.ok ()) ∧
      (RayTracingAccelerationContainer.Initialize (exampleDevice true)
        exampleWorldD3D12.derived exampleInitializeState
        (exampleBottom [exampleTriangles, exampleAabbOnly] [])).isNone = true ∧
      exampleTrianglesWithNullBuffer.vertex =
        some { buffer := none, format := 0, stride := 12, offset := 0, count := 3 } ∧
      (RayTracingAccelerationContainer.Initialize (exampleDevice true)
        exampleWorldD3D12.derived exampleInitializeState
        (exampleBottom [exampleTrianglesWithNullBuffer] [])).map
          (fun r => r.2.self.mGeometries.map (fun e => e.data)) =
        some
          [D3D12_RAYTRACING_GEOMETRY_DATA.Triangles
            { Transform3x4 := 0, IndexFormat := 0, VertexFormat := 0, IndexCount := 0,
              VertexCount := 0, IndexBuffer := 0,
              VertexBuffer := { StartAddress := 0, StrideInBytes := 0 } }] :=
  ⟨by decide, rfl, rfl, by decide, rfl, by decide⟩

/-- C20, amended: with the toggle `UseD3D12RayTracing` enabled, for every bottom-level
descriptor none of whose geometries carries AABB data with a buffer that is not null,
`Initialize` on a container whose geometry list is empty returns, and the encoded geometry list
has the length and the order of the descriptor's geometries.  Entry `i` holds the member
`Triangles`.  For vertex data whose buffer is not null its `VertexBuffer.StartAddress` is the
GPU address of the vertex buffer plus the vertex byte offset in 64-bit arithmetic,
`StrideInBytes` the vertex stride and `VertexCount` the vertex count; for vertex data whose
buffer is null, and without vertex data, these three fields are 0.  For index data whose buffer
is not null its `IndexBuffer` is the GPU address of the index buffer plus the index byte offset
and `IndexCount` the index count; for index data whose buffer is null, and without index data,
both are 0. -/
theorem initialize_encodes_geometries (device : Device)
    (derived : Addr → RayTracingAccelerationContainer) (st : InitializeState)
    (descriptor : RayTracingAccelerationContainerDescriptor)
    (hToggle : device.UseD3D12RayTracing = true)
    (hBottom : descriptor.level = RayTracingAccelerationContainerLevel.Bottom)
    (hFresh : st.self.mGeometries = [])
    (hNoAabb : ∀ g ∈ descriptor.geometries, ∀ a, g.aabb = some a → a.buffer = none) :
    ∃ r st1, RayTracingAccelerationContainer.Initialize device derived st descriptor =
        some (r, st1) ∧
      st1.self.mGeometries.length = descriptor.geometryCount ∧
      ∀ (i : Nat) (g : RayTracingAccelerationGeometryDescriptor),
        descriptor.geometries[i]? = some g →
        ∃ (e : D3D12_RAYTRACING_GEOMETRY_DESC) (t : D3D12_RAYTRACING_GEOMETRY_TRIANGLES_DESC),
          st1.self.mGeometries[i]? = some e ∧
          e.Type_ = device.ToD3D12RayTracingGeometryType g.type ∧
          e.Flags = device.ToD3D12RayTracingGeometryFlags g.flags ∧
          e.data = D3D12_RAYTRACING_GEOMETRY_DATA.Triangles t ∧
          (∀ (v : RayTracingAccelerationGeometryVertexDescriptor) (b : Addr),
            g.vertex = some v → v.buffer = some b →
            t.VertexBuffer.StartAddress =
              ((device.GetD3D12Resource b).GetGPUVirtualAddress + v.offset) % 2 ^ 64 ∧
            t.VertexBuffer.StrideInBytes = v.stride ∧ t.VertexCount = v.count) ∧
          ((g.vertex = none ∨ ∃ v, g.vertex = some v ∧ v.buffer = none) →
            t.VertexBuffer.StartAddress = 0 ∧ t.VertexBuffer.StrideInBytes = 0 ∧
            t.VertexCount = 0) ∧
          (∀ (ix : RayTracingAccelerationGeometryIndexDescriptor) (b : Addr),
            g.index = some ix → ix.buffer = some b →
            t.IndexBuffer =
              ((device.GetD3D12Resource b).GetGPUVirtualAddress + ix.offset) % 2 ^ 64 ∧
            t.IndexCount = ix.count) ∧
          ((g.index = none ∨ ∃ ix, g.index = some ix ∧ ix.buffer = none) →
            t.IndexBuffer = 0 ∧ t.IndexCount = 0) := by
  have hEncode := encodeGeometries_of_no_aabb device descriptor.geometries st.self.mGeometries
    hNoAabb
  rw [hFresh, List.nil_append] at hEncode
  rw [← hFresh] at hEncode
  obtain ⟨r, st1, hInit, hGeo⟩ :=
    initialize_bottom device derived st descriptor hToggle hBottom _ hEncode
  refine ⟨r, st1, hInit, ?_, ?_⟩
  · rw [hGeo]
    simp [RayTracingAccelerationContainerDescriptor.geometryCount]
  · intro i g hi
    refine ⟨
      { Type_ := device.ToD3D12RayTracingGeometryType g.type,
        Flags := device.ToD3D12RayTracingGeometryFlags g.flags,
        data := D3D12_RAYTRACING_GEOMETRY_DATA.Triangles
          (encodeIndexBuffer device g
            (encodeVertexBuffer device g D3D12_RAYTRACING_GEOMETRY_TRIANGLES_DESC.zero)) },
      encodeIndexBuffer device g
        (encodeVertexBuffer device g D3D12_RAYTRACING_GEOMETRY_TRIANGLES_DESC.zero),
      ?_, rfl, rfl, rfl, ?_, ?_, ?_, ?_⟩
    · rw [hGeo, List.getElem?_map, hi]
      rfl
    · intro v b hv hb
      rcases hix : g.index with _ | ix
      · simp [encodeIndexBuffer, encodeVertexBuffer, hv, hb, hix]
      · cases hixb : ix.buffer <;>
          simp [encodeIndexBuffer, encodeVertexBuffer, hv, hb, hix, hixb]
    · intro hv
      have hVertex : encodeVertexBuffer device g D3D12_RAYTRACING_GEOMETRY_TRIANGLES_DESC.zero =
          D3D12_RAYTRACING_GEOMETRY_TRIANGLES_DESC.zero := by
        rcases hv with hv | ⟨v, hv, hb⟩
        · simp [encodeVertexBuffer, hv]
        · simp [encodeVertexBuffer, hv, hb]
      rw [hVertex]
      rcases hix : g.index with _ | ix
      · simp [encodeIndexBuffer, hix, D3D12_RAYTRACING_GEOMETRY_TRIANGLES_DESC.zero]
      · cases hixb : ix.buffer <;>
          simp [encodeIndexBuffer, hix, hixb, D3D12_RAYTRACING_GEOMETRY_TRIANGLES_DESC.zero]
    · intro ix b hix hb
      simp [encodeIndexBuffer, hix, hb]
    · intro hix
      have hIndex : ∀ t, encodeIndexBuffer device g t = t := by
        intro t
        rcases hix with hix | ⟨ix, hix, hb⟩
        · simp [encodeIndexBuffer, hix]
        · simp [encodeIndexBuffer, hix, hb]
      rw [hIndex]
      rcases hv : g.vertex with _ | v
      · simp [encodeVertexBuffer, hv, D3D12_RAYTRACING_GEOMETRY_TRIANGLES_DESC.zero]
      · cases hvb : v.buffer <;>
          simp [encodeVertexBuffer, hv, hvb, D3D12_RAYTRACING_GEOMETRY_TRIANGLES_DESC.zero]

/-- Witness for C20, amended: a descriptor with two triangle geometries; the second has vertex
data at byte offset 48 and index data at byte offset 96 of buffer 1, whose GPU address is
4096. -/
theorem initialize_encodes_geometries_witness :
    (RayTracingAccelerationContainer.Initialize (exampleDevice true)
        exampleWorldD3D12.derived exampleInitializeState
        (exampleBottom [exampleTriangles, exampleIndexedTriangles] [])).map
          (fun r => r.2.self.mGeometries.map (fun e => e.data)) =
      some
        [D3D12_RAYTRACING_GEOMETRY_DATA.Triangles
          { Transform3x4 := 0, IndexFormat := 0, VertexFormat := 0, IndexCount := 0,
            VertexCount := 3, IndexBuffer := 0,
            VertexBuffer := { StartAddress := 4096, StrideInBytes := 12 } },
         D3D12_RAYTRACING_GEOMETRY_DATA.Triangles
          { Transform3x4 := 0, IndexFormat := 0, VertexFormat := 0, IndexCount := 3,
            VertexCount := 3, IndexBuffer := 4192,
            VertexBuffer := { StartAddress := 4144, StrideInBytes := 12 } }] ∧
      ∃ r st1, RayTracingAccelerationContainer.Initialize (exampleDevice true)
          exampleWorldD3D12.derived exampleInitializeState
          (exampleBottom [exampleTriangles, exampleIndexedTriangles] []) = some (r, st1) ∧
        st1.self.mGeometries.length =
          (exampleBottom [exampleTriangles, exampleIndexedTriangles] []).geometryCount :=
  ⟨by decide, by
    obtain ⟨r, st1, h1, h2, _⟩ := initialize_encodes_geometries (exampleDevice true)
      exampleWorldD3D12.derived exampleInitializeState
      (exampleBottom [exampleTriangles, exampleIndexedTriangles] []) rfl rfl rfl (by decide)
    exact ⟨r, st1, h1, h2⟩⟩

theorem encodeGeometry_none_of_aabb_without_vertex (device : Device)
    (g : RayTracingAccelerationGeometryDescriptor)
    (hAabb : ∃ a b, g.aabb = some a ∧ a.buffer = some b)
    (hVertex : g.vertex = none) : encodeGeometry device g = none := by
  obtain ⟨a, b, ha, hb⟩ := hAabb
  simp [encodeGeometry, ha, hb, hVertex]

theorem encodeGeometries_none_of_aabb_without_vertex (device : Device)
    (gs : List RayTracingAccelerationGeometryDescriptor)
    (acc : List D3D12_RAYTRACING_GEOMETRY_DESC)
    (h : ∃ g ∈ gs, (∃ a b, g.aabb = some a ∧ a.buffer = some b) ∧ g.vertex = none) :
    encodeGeometries device acc gs = none := by
  induction gs generalizing acc with
  | nil =>
    obtain ⟨g, hg, _⟩ := h
    cases hg
  | cons a rest ih =>
    rw [encodeGeometries]
    cases hEnc : encodeGeometry device a with
    | none => rfl
    | some e =>
      simp only []
      apply ih
      obtain ⟨g, hg, hAabb, hVertex⟩ := h
      rcases List.mem_cons.mp hg with rfl | hrest
      · rw [encodeGeometry_none_of_aabb_without_vertex device g hAabb hVertex] at hEnc
        cases hEnc
      · exact ⟨g, hrest, hAabb, hVertex⟩

end d3d12

theorem destroy_on_makeError {β : Type} (backend : Backend β) (w : World β) (self : Addr)
    (usage0 : Nat) (level0 : RayTracingAccelerationContainerLevel)
    (hError : w.heap.containers self =
      RayTracingAccelerationContainerBase.MakeError usage0 level0) :
    Destroy backend w self = none := by
  simp [Destroy, DestroyInternal, DestroyImpl, hError,
    RayTracingAccelerationContainerBase.MakeError, RayTracingAccelerationContainerBase.members,
    RayTracingAccelerationContainerBase.IsDestroyed, RayTracingAccelerationContainerBase.IsError]

/-! ## Atomicity of `UpdateInstance`, teardown, instance transforms, pipeline validation -/

/-- C27: `UpdateInstance` is atomic on validation failure.  Whenever `ValidateUpdateInstance`
returns an error, `UpdateInstance` returns, the log of backend calls is as before (so
`UpdateInstanceImpl` was not called), and the whole heap (level, usage, flags and retained
references of every container) and the backend members are unchanged; the error is what the
device consumed. -/
theorem updateInstance_atomic_on_validation_failure {β : Type} (backend : Backend β)
    (w : World β) (self : Addr) (instanceIndex : Nat)
    (d : RayTracingAccelerationInstanceDescriptor)
    (hError : (ValidateUpdateInstance w.device w.heap self instanceIndex d).IsError = true) :
    ∃ w1, UpdateInstance backend w self instanceIndex d = some w1 ∧
      w1.implCalls = w.implCalls ∧
      (∀ i, (self, ImplCall.UpdateInstanceImpl i) ∈ w1.implCalls →
        (self, ImplCall.UpdateInstanceImpl i) ∈ w.implCalls) ∧
      w1.heap = w.heap ∧ w1.heap.containers self = w.heap.containers self ∧
      w1.derived = w.derived ∧
      ∃ e, ValidateUpdateInstance w.device w.heap self instanceIndex d = Except.error e ∧
        w1.device.consumedErrors = w.device.consumedErrors ++ [e] := by
  obtain ⟨e, he⟩ := exists_error_of_isError hError
  refine ⟨_, updateInstance_of_validate_error backend w self instanceIndex d e he, rfl,
    fun _ h => h, rfl, rfl, rfl, e, he, rfl⟩

theorem updateInstance_atomic_on_validation_failure_witness :
    (ValidateUpdateInstance exampleWorld.device exampleWorld.heap 10 0
        (exampleInstance 10)).IsError = true ∧
      ∃ w1, UpdateInstance exampleBackend exampleWorld 10 0 (exampleInstance 10) = some w1 ∧
        w1.implCalls = exampleWorld.implCalls ∧
        (∀ i, (10, ImplCall.UpdateInstanceImpl i) ∈ w1.implCalls →
          (10, ImplCall.UpdateInstanceImpl i) ∈ exampleWorld.implCalls) ∧
        w1.heap = exampleWorld.heap ∧
        w1.heap.containers 10 = exampleWorld.heap.containers 10 ∧
        w1.derived = exampleWorld.derived ∧
        ∃ e, ValidateUpdateInstance exampleWorld.device exampleWorld.heap 10 0
            (exampleInstance 10) = Except.error e ∧
          w1.device.consumedErrors = exampleWorld.device.consumedErrors ++ [e] :=
  ⟨by rfl, updateInstance_atomic_on_validation_failure exampleBackend exampleWorld 10 0
    (exampleInstance 10) (by rfl)⟩

theorem validatePipeline_rejects_null_state (device : DeviceBase)
    (descriptor : RayTracingPipelineDescriptor) (hState : descriptor.rayTracingState = none) :
    (ValidateRayTracingPipelineDescriptor device descriptor).IsValidationError = true := by
  unfold ValidateRayTracingPipelineDescriptor
  rw [hState]
  cases descriptor.layout with
  | none => rfl
  | some layout =>
    cases hE : layout.isError <;>
      simp [DeviceBase.ValidateLayoutObject, hE, MaybeError.IsValidationError,
        DAWN_VALIDATION_ERROR]

theorem validatePipeline_rejects_null_table (device : DeviceBase)
    (descriptor : RayTracingPipelineDescriptor) (state : RayTracingStateDescriptor)
    (hState : descriptor.rayTracingState = some state)
    (hTable : state.shaderBindingTable = none) :
    (ValidateRayTracingPipelineDescriptor device descriptor).IsValidationError = true := by
  unfold ValidateRayTracingPipelineDescriptor
  rw [hState]
  cases descriptor.layout with
  | none => simp [hTable, MaybeError.IsValidationError, DAWN_VALIDATION_ERROR]
  | some layout =>
    cases hE : layout.isError <;>
      simp [DeviceBase.ValidateLayoutObject, hE, hTable, MaybeError.IsValidationError,
        DAWN_VALIDATION_ERROR]

/-- C30: `ValidateRayTracingPipelineDescriptor` does not return an error when the shader
binding table has been destroyed.  The descriptor `examplePipelineWithDestroyedTable` has a
ray-tracing state whose table is not null and is destroyed, and validation succeeds; the same
holds for every table, destroyed or not, behind a descriptor whose layout is null or not an
error object: the test in front of "Shader Binding Table must not be destroyed" repeats the
null test. -/
theorem validatePipeline_accepts_destroyed_table :
    (∃ state table, examplePipelineWithDestroyedTable.rayTracingState = some state ∧
      state.shaderBindingTable = some table ∧ table.IsDestroyed = true) ∧
    ValidateRayTracingPipelineDescriptor exampleDevice examplePipelineWithDestroyedTable =
      Except.ok () ∧
    ∀ (device : DeviceBase) (table : RayTracingShaderBindingTableBase),
      ValidateRayTracingPipelineDescriptor device
        { layout := none, rayTracingState := some { shaderBindingTable := some table } } =
          Except.ok () ∧
      ValidateRayTracingPipelineDescriptor device
        { layout := some { isError := false },
          rayTracingState := some { shaderBindingTable := some table } } = Except.ok () :=
  ⟨⟨_, _, rfl, rfl, rfl⟩, rfl, fun _ _ => ⟨rfl, rfl⟩⟩

namespace d3d12

/-- C25, as the specification states it, fails: `Destroy()` on the initialized container at
address 10 of `exampleWorldInitialized` returns and sets the destroyed flag, and afterwards the
result, build and update entries of the scratch pool still own the resources they owned
before. -/
theorem destroy_keeps_scratch_memory_held :
    (exampleWorldInitialized.heap.containers 10).IsError = false ∧
    (exampleWorldInitialized.heap.containers 10).IsDestroyed = false ∧
    ∃ w1, Destroy backend exampleWorldInitialized 10 = some w1 ∧
      (w1.heap.containers 10).IsDestroyed = true ∧
      (w1.derived 10).mScratchMemory.result.IsHeld = true ∧
      (w1.derived 10).mScratchMemory.build.IsHeld = true ∧
      (w1.derived 10).mScratchMemory.update.IsHeld = true ∧
      (w1.derived 10).mScratchMemory.result ≠ MemoryEntry.absent ∧
      (w1.derived 10).mScratchMemory.build ≠ MemoryEntry.absent ∧
      (w1.derived 10).mScratchMemory.update ≠ MemoryEntry.absent := by
  refine ⟨rfl, rfl, _, destroy_of_live backend exampleWorldInitialized 10 rfl rfl, ?_⟩
  refine ⟨?_, ?_, ?_, ?_, ?_, ?_, ?_⟩
  · simp [Heap.setContainer, RayTracingAccelerationContainerBase.SetDestroyState,
      RayTracingAccelerationContainerBase.IsDestroyed]
  all_goals
    simp [backend, RayTracingAccelerationContainer.DestroyImpl, exampleWorldInitialized,
      MemoryEntry.IsHeld, MemoryEntry.absent]

/-- C25 (amended): the first `Destroy()` on a non-error D3D12 container returns, sets the
destroyed flag and calls `DestroyImpl` once, whose body is empty: the result, build and update
entries of the scratch pool and the instance memory are exactly what they were before the call,
so an entry that owned a resource still owns it. -/
theorem first_destroy_flags_only (w : World RayTracingAccelerationContainer) (self : Addr)
    (hValid : (w.heap.containers self).IsError = false)
    (hLive : (w.heap.containers self).IsDestroyed = false) :
    ∃ w1, Destroy backend w self = some w1 ∧
      (w1.heap.containers self).IsDestroyed = true ∧
      w1.implCalls = w.implCalls ++ [(self, ImplCall.DestroyImpl)] ∧
      (w1.derived self).mScratchMemory.result = (w.derived self).mScratchMemory.result ∧
      (w1.derived self).mScratchMemory.build = (w.derived self).mScratchMemory.build ∧
      (w1.derived self).mScratchMemory.update = (w.derived self).mScratchMemory.update ∧
      (w1.derived self).mInstanceMemory = (w.derived self).mInstanceMemory ∧
      (w1.derived self).mScratchMemory.result.IsHeld =
        (w.derived self).mScratchMemory.result.IsHeld ∧
      (w1.derived self).mScratchMemory.build.IsHeld =
        (w.derived self).mScratchMemory.build.IsHeld ∧
      (w1.derived self).mScratchMemory.update.IsHeld =
        (w.derived self).mScratchMemory.update.IsHeld := by
  refine ⟨_, destroy_of_live backend w self hValid hLive, ?_, rfl, ?_⟩
  · simp [Heap.setContainer, RayTracingAccelerationContainerBase.SetDestroyState,
      RayTracingAccelerationContainerBase.IsDestroyed]
  · simp [backend, RayTracingAccelerationContainer.DestroyImpl]

theorem first_destroy_flags_only_witness :
    (exampleWorldInitialized.heap.containers 10).IsError = false ∧
    (exampleWorldInitialized.heap.containers 10).IsDestroyed = false ∧
    ∃ w1, Destroy backend exampleWorldInitialized 10 = some w1 ∧
      (w1.heap.containers 10).IsDestroyed = true ∧
      w1.implCalls = exampleWorldInitialized.implCalls ++ [(10, ImplCall.DestroyImpl)] ∧
      (w1.derived 10).mScratchMemory.result =
        (exampleWorldInitialized.derived 10).mScratchMemory.result ∧
      (w1.derived 10).mScratchMemory.build =
        (exampleWorldInitialized.derived 10).mScratchMemory.build ∧
      (w1.derived 10).mScratchMemory.update =
        (exampleWorldInitialized.derived 10).mScratchMemory.update ∧
      (w1.derived 10).mInstanceMemory = (exampleWorldInitialized.derived 10).mInstanceMemory ∧
      (w1.derived 10).mScratchMemory.result.IsHeld =
        (exampleWorldInitialized.derived 10).mScratchMemory.result.IsHeld ∧
      (w1.derived 10).mScratchMemory.build.IsHeld =
        (exampleWorldInitialized.derived 10).mScratchMemory.build.IsHeld ∧
      (w1.derived 10).mScratchMemory.update.IsHeld =
        (exampleWorldInitialized.derived 10).mScratchMemory.update.IsHeld :=
  ⟨rfl, rfl, first_destroy_flags_only exampleWorldInitialized 10 rfl rfl⟩

theorem instanceTransform_of_triple (device : Device)
    (d : RayTracingAccelerationInstanceDescriptor)
    (t : RayTracingAccelerationInstanceTransformDescriptor) (hTriple : d.transform = some t)
    (m : Option (List Nat)) :
    instanceTransform device { d with transformMatrix := m } = instanceTransform device d := by
  simp [instanceTransform, hTriple]

/-- C26: when an instance descriptor supplies a transform triple, the D3D12 encoding uses the
triple and ignores the raw matrix.  Two descriptors that differ only in `transformMatrix` (same
triple and all other fields) get the same outcome of `GetD3D12AccelerationInstance`; with the
three members of the triple present and the referenced container holding a result resource, the
outcome is a record whose transform is the first twelve floats filled from the triple; and the
raw matrix is what the record holds when no triple is supplied. -/
theorem instance_encoding_prefers_triple (device : Device)
    (derived : Addr → RayTracingAccelerationContainer)
    (d : RayTracingAccelerationInstanceDescriptor)
    (t : RayTracingAccelerationInstanceTransformDescriptor)
    (hTriple : d.transform = some t) :
    (∀ m1 m2 : Option (List Nat),
      GetD3D12AccelerationInstance device derived { d with transformMatrix := m1 } =
        GetD3D12AccelerationInstance device derived { d with transformMatrix := m2 }) ∧
    (∀ (tr ro sc : Transform3D) (a : Addr) (resource : ID3D12Resource),
      t.translation = some tr → t.rotation = some ro → t.scale = some sc →
      d.geometryContainer = some a →
      (derived a).mScratchMemory.result.resource.GetD3D12Resource = some resource →
      ∃ r, GetD3D12AccelerationInstance device derived d = some r ∧
        r.Transform = (device.Fill4x3TransformMatrix tr ro sc).take 12) ∧
    (∀ (matrix : List Nat) (r : D3D12_RAYTRACING_INSTANCE_DESC),
      GetD3D12AccelerationInstance device derived
        { d with transform := none, transformMatrix := some matrix } = some r →
      r.Transform = matrix.take 12) := by
  refine ⟨?_, ?_, ?_⟩
  · intro m1 m2
    simp [GetD3D12AccelerationInstance, instanceTransform, hTriple]
  · intro tr ro sc a resource hTr hRo hSc hA hRes
    simp [GetD3D12AccelerationInstance, instanceTransform, hTriple, hTr, hRo, hSc, hA, hRes]
  · intro matrix r h
    simp only [GetD3D12AccelerationInstance, instanceTransform] at h
    split at h
    · cases h
    · split at h
      · cases h
      · cases h
        rfl

theorem instance_encoding_prefers_triple_witness :
    (exampleInstanceWithBoth 10 (List.replicate 12 7)).transform =
        some { translation := some { x := 1, y := 2, z := 3 },
               rotation := some { x := 0, y := 0, z := 0 },
               scale := some { x := 1, y := 1, z := 1 } } ∧
    GetD3D12AccelerationInstance (exampleDevice true) exampleWorldInitialized.derived
        { exampleInstanceWithBoth 10 (List.replicate 12 7) with
          transformMatrix := some (List.replicate 12 7) } =
      GetD3D12AccelerationInstance (exampleDevice true) exampleWorldInitialized.derived
        { exampleInstanceWithBoth 10 (List.replicate 12 7) with transformMatrix := none } ∧
    (GetD3D12AccelerationInstance (exampleDevice true) exampleWorldInitialized.derived
      (exampleInstanceWithBoth 10 (List.replicate 12 7))).isSome = true :=
  ⟨rfl, (instance_encoding_prefers_triple (exampleDevice true) exampleWorldInitialized.derived
    (exampleInstanceWithBoth 10 (List.replicate 12 7)) _ rfl).1 _ _, rfl⟩

end d3d12

namespace d3d12

theorem reserveScratchMemory_mInstances (device : Device) (st : InitializeState) :
    (reserveScratchMemory device st).2.self.mInstances = st.self.mInstances := by
  unfold reserveScratchMemory
  simp only []
  split
  · rfl
  · split
    · rfl
    · split_ifs
      · split <;> rfl
      · rfl

theorem allocationRequests_append (xs ys : List DeviceCall) :
    allocationRequests (xs ++ ys) = allocationRequests xs ++ allocationRequests ys := by
  simp [allocationRequests, List.filterMap_append]

theorem allocateScratchMemory_calls (device : Device) (calls : List DeviceCall)
    (memoryEntry : MemoryEntry) (size : Nat) (initialUsage : D3D12_RESOURCE_STATES) :
    ∃ call, (AllocateScratchMemory device calls memoryEntry size initialUsage).2.2 =
        calls ++ [call] ∧
      allocationRequests [call] = [(size, initialUsage)] := by
  unfold AllocateScratchMemory
  simp only []
  split
  · exact ⟨_, rfl, rfl⟩
  · exact ⟨_, rfl, rfl⟩

theorem allocateScratchMemory_ok (device : Device) (calls : List DeviceCall)
    (memoryEntry : MemoryEntry) (size : Nat) (initialUsage : D3D12_RESOURCE_STATES)
    (h : (AllocateScratchMemory device calls memoryEntry size initialUsage).1 = Except.ok ()) :
    (AllocateScratchMemory device calls memoryEntry size initialUsage).2.1.IsHeld = true := by
  unfold AllocateScratchMemory at h ⊢
  simp only [] at h ⊢
  split at h
  · cases h
  · rename_i resource hres
    simp [hres, MemoryEntry.IsHeld]

end d3d12

namespace d3d12

theorem allocateScratchMemory_calls_eq (device : Device) (calls : List DeviceCall)
    (memoryEntry : MemoryEntry) (size : Nat) (initialUsage : D3D12_RESOURCE_STATES) :
    (AllocateScratchMemory device calls memoryEntry size initialUsage).2.2 =
      calls ++ [DeviceCall.AllocateMemory (scratchResourceDescriptor size) initialUsage] := by
  unfold AllocateScratchMemory
  simp only []
  split <;> rfl

theorem allocationRequests_scratchAllocations
    (info : D3D12_RAYTRACING_ACCELERATION_STRUCTURE_PREBUILD_INFO) :
    allocationRequests (scratchAllocations info) =
      [(info.ResultDataMaxSizeInBytes,
          D3D12_RESOURCE_STATES.D3D12_RESOURCE_STATE_RAYTRACING_ACCELERATION_STRUCTURE),
        (info.ScratchDataSizeInBytes,
          D3D12_RESOURCE_STATES.D3D12_RESOURCE_STATE_UNORDERED_ACCESS)] ++
      (if info.UpdateScratchDataSizeInBytes > 0 then
        [(info.UpdateScratchDataSizeInBytes,
          D3D12_RESOURCE_STATES.D3D12_RESOURCE_STATE_UNORDERED_ACCESS)]
      else []) := by
  unfold scratchAllocations
  split_ifs <;> simp [allocationRequests, scratchResourceDescriptor]

theorem reserveScratchMemory_ok (device : Device) (st st1 : InitializeState)
    (h : reserveScratchMemory device st = (Except.ok (), st1)) :
    st1.calls = st.calls ++ [DeviceCall.GetRaytracingAccelerationStructurePrebuildInfo
        st.self.mBuildInformation st.self.mGeometries] ++
      scratchAllocations (device.GetRaytracingAccelerationStructurePrebuildInfo st.calls
        st.self.mBuildInformation st.self.mGeometries) ∧
    st1.self.mScratchMemory.result.IsHeld = true ∧
    st1.self.mScratchMemory.build.IsHeld = true ∧
    ((device.GetRaytracingAccelerationStructurePrebuildInfo st.calls
        st.self.mBuildInformation st.self.mGeometries).UpdateScratchDataSizeInBytes > 0 →
      st1.self.mScratchMemory.update.IsHeld = true) ∧
    ((device.GetRaytracingAccelerationStructurePrebuildInfo st.calls
        st.self.mBuildInformation st.self.mGeometries).UpdateScratchDataSizeInBytes = 0 →
      st1.self.mScratchMemory.update = st.self.mScratchMemory.update) := by
  unfold reserveScratchMemory at h
  simp only [] at h
  split at h
  · simp at h
  · rename_i u1 hr1
    cases u1
    split at h
    · simp at h
    · rename_i u2 hr2
      cases u2
      split_ifs at h with hU
      · split at h
        · simp at h
        · rename_i u3 hr3
          cases u3
          have hst := (Prod.mk.inj h).2
          subst hst
          refine ⟨?_, allocateScratchMemory_ok _ _ _ _ _ hr1,
            allocateScratchMemory_ok _ _ _ _ _ hr2,
            fun _ => allocateScratchMemory_ok _ _ _ _ _ hr3, fun h0 => ?_⟩
          · simp only [allocateScratchMemory_calls_eq, scratchAllocations, hU, if_true,
              List.append_assoc, List.cons_append, List.nil_append]
          · omega
      · have hst := (Prod.mk.inj h).2
        subst hst
        refine ⟨?_, allocateScratchMemory_ok _ _ _ _ _ hr1,
          allocateScratchMemory_ok _ _ _ _ _ hr2, fun h0 => absurd h0 hU, fun _ => rfl⟩
        simp only [allocateScratchMemory_calls_eq, scratchAllocations, hU, if_false,
          List.append_assoc, List.cons_append, List.nil_append, List.append_nil]

end d3d12

namespace d3d12

theorem fillBuildInformation_some (device : Device) (self self2 : RayTracingAccelerationContainer)
    (descriptor : RayTracingAccelerationContainerDescriptor)
    (h : fillBuildInformation device self descriptor = some self2) :
    self2.mScratchMemory = self.mScratchMemory ∧ self2.mGeometries = self.mGeometries ∧
      self2.mInstances = self.mInstances := by
  unfold fillBuildInformation at h
  simp only [] at h
  split_ifs at h
  · cases h
    exact ⟨rfl, rfl, rfl⟩
  · split at h
    · cases h
    · cases h
      exact ⟨rfl, rfl, rfl⟩
  · cases h
    exact ⟨rfl, rfl, rfl⟩

theorem createInstanceBuffer_facts (device : Device) (st : InitializeState)
    (descriptor : RayTracingAccelerationContainerDescriptor) :
    (createInstanceBuffer device st descriptor).self.mScratchMemory = st.self.mScratchMemory ∧
    (createInstanceBuffer device st descriptor).self.mGeometries = st.self.mGeometries ∧
    (createInstanceBuffer device st descriptor).self.mInstances = st.self.mInstances ∧
    ∃ extra, (createInstanceBuffer device st descriptor).calls = st.calls ++ extra ∧
      allocationRequests extra = [] := by
  unfold createInstanceBuffer
  split_ifs
  · exact ⟨rfl, rfl, rfl, _, rfl, rfl⟩
  · exact ⟨rfl, rfl, rfl, [], (List.append_nil _).symm, rfl⟩

theorem initialize_some (device : Device) (derived : Addr → RayTracingAccelerationContainer)
    (st : InitializeState) (descriptor : RayTracingAccelerationContainerDescriptor)
    (r : MaybeError) (st1 : InitializeState)
    (h : RayTracingAccelerationContainer.Initialize device derived st descriptor =
      some (r, st1)) :
    (device.UseD3D12RayTracing = false ∧ r.IsValidationError = true ∧ st1 = st) ∨
    (device.UseD3D12RayTracing = true ∧
      ∃ st0, reserveScratchMemory device st0 = (r, st1) ∧
        (∃ extra, st0.calls = st.calls ++ extra ∧ allocationRequests extra = []) ∧
        st0.self.mScratchMemory = st.self.mScratchMemory ∧
        (descriptor.level ≠ RayTracingAccelerationContainerLevel.Bottom →
          st0.self.mGeometries = st.self.mGeometries) ∧
        (descriptor.level ≠ RayTracingAccelerationContainerLevel.Top →
          st0.self.mInstances = st.self.mInstances)) := by
  unfold RayTracingAccelerationContainer.Initialize at h
  cases hToggle : device.UseD3D12RayTracing
  · left
    simp only [hToggle, Bool.not_false, if_true, Option.some.injEq, Prod.mk.injEq] at h
    obtain ⟨hr, hst⟩ := h
    subst hr
    subst hst
    exact ⟨rfl, rfl, rfl⟩
  · right
    simp only [hToggle, Bool.not_true, Bool.false_eq_true, if_false] at h
    split at h
    · cases h
    · rename_i mGeometries hGeo
      split at h
      · cases h
      · rename_i mInstances hInst
        split at h
        · cases h
        · rename_i self2 hFill
          obtain ⟨hS, hG, hI⟩ := fillBuildInformation_some _ _ _ _ hFill
          obtain ⟨cS, cG, cI, extra, cCalls, cExtra⟩ := createInstanceBuffer_facts device
            { st with
              self := { st.self with mGeometries := mGeometries, mInstances := mInstances } }
            descriptor
          refine ⟨rfl, _, (Option.some.inj h), ⟨extra, cCalls, cExtra⟩, ?_, ?_, ?_⟩
          · exact hS.trans cS
          · intro hLevel
            rw [if_neg hLevel] at hGeo
            exact (hG.trans cG).trans (Option.some.inj hGeo).symm
          · intro hLevel
            rw [if_neg hLevel] at hInst
            exact (hI.trans cI).trans (Option.some.inj hInst).symm

end d3d12

namespace d3d12

/-- C21: after a successful D3D12 `Initialize` the log of device calls ends with the prebuild
query followed by the allocation of the result memory and of the build memory, each requested
once with the size the query reported, and then the allocation of the update memory exactly
when the reported `UpdateScratchDataSizeInBytes` is greater than zero; no other allocation was
requested during `Initialize`.  The result and build entries own a resource afterwards, the
update entry owns one when the reported update size is positive, and when it is zero the update
entry is what it was before the call (absent on a fresh container). -/
theorem initialize_allocates_scratch_pools (device : Device)
    (derived : Addr → RayTracingAccelerationContainer) (st st1 : InitializeState)
    (descriptor : RayTracingAccelerationContainerDescriptor)
    (h : RayTracingAccelerationContainer.Initialize device derived st descriptor =
      some (Except.ok (), st1)) :
    ∃ (pre : List DeviceCall) (inputs : D3D12_BUILD_RAYTRACING_ACCELERATION_STRUCTURE_INPUTS)
      (geometries : List D3D12_RAYTRACING_GEOMETRY_DESC)
      (info : D3D12_RAYTRACING_ACCELERATION_STRUCTURE_PREBUILD_INFO),
      info = device.GetRaytracingAccelerationStructurePrebuildInfo pre inputs geometries ∧
      st1.calls = pre ++
        [DeviceCall.GetRaytracingAccelerationStructurePrebuildInfo inputs geometries] ++
        scratchAllocations info ∧
      allocationRequests pre = allocationRequests st.calls ∧
      allocationRequests st1.calls = allocationRequests st.calls ++
        ([(info.ResultDataMaxSizeInBytes,
            D3D12_RESOURCE_STATES.D3D12_RESOURCE_STATE_RAYTRACING_ACCELERATION_STRUCTURE),
          (info.ScratchDataSizeInBytes,
            D3D12_RESOURCE_STATES.D3D12_RESOURCE_STATE_UNORDERED_ACCESS)] ++
        (if info.UpdateScratchDataSizeInBytes > 0 then
          [(info.UpdateScratchDataSizeInBytes,
            D3D12_RESOURCE_STATES.D3D12_RESOURCE_STATE_UNORDERED_ACCESS)]
        else [])) ∧
      st1.self.mScratchMemory.result.IsHeld = true ∧
      st1.self.mScratchMemory.build.IsHeld = true ∧
      (info.UpdateScratchDataSizeInBytes > 0 → st1.self.mScratchMemory.update.IsHeld = true) ∧
      (info.UpdateScratchDataSizeInBytes = 0 →
        st1.self.mScratchMemory.update = st.self.mScratchMemory.update ∧
        (st.self.mScratchMemory.update = MemoryEntry.absent →
          st1.self.mScratchMemory.update = MemoryEntry.absent)) := by
  rcases initialize_some device derived st descriptor _ st1 h with
    ⟨_, hErr, _⟩ | ⟨_, st0, hReserve, ⟨extra, hCalls, hExtra⟩, hScratch, _, _⟩
  · simp [MaybeError.IsValidationError] at hErr
  · obtain ⟨hLog, hResult, hBuild, hUpdate, hZero⟩ := reserveScratchMemory_ok device st0 st1
      hReserve
    have hPre : allocationRequests st0.calls = allocationRequests st.calls := by
      rw [hCalls, allocationRequests_append, hExtra, List.append_nil]
    refine ⟨st0.calls, st0.self.mBuildInformation, st0.self.mGeometries, _, rfl, hLog, hPre, ?_,
      hResult, hBuild, hUpdate, fun h0 => ?_⟩
    · rw [hLog, allocationRequests_append, allocationRequests_append, hPre,
        allocationRequests_scratchAllocations]
      simp [allocationRequests]
    · exact ⟨by rw [hZero h0, hScratch], fun hAbsent => by rw [hZero h0, hScratch, hAbsent]⟩

theorem initialize_allocates_scratch_pools_witness :
    ∃ st1, RayTracingAccelerationContainer.Initialize exampleDeviceWithUpdate
        exampleWorldD3D12.derived exampleInitializeState (exampleBottom [exampleTriangles] []) =
          some (Except.ok (), st1) ∧
      allocationRequests st1.calls =
        [(256, D3D12_RESOURCE_STATES.D3D12_RESOURCE_STATE_RAYTRACING_ACCELERATION_STRUCTURE),
          (128, D3D12_RESOURCE_STATES.D3D12_RESOURCE_STATE_UNORDERED_ACCESS),
          (64, D3D12_RESOURCE_STATES.D3D12_RESOURCE_STATE_UNORDERED_ACCESS)] ∧
      ∃ (pre : List DeviceCall) (inputs : D3D12_BUILD_RAYTRACING_ACCELERATION_STRUCTURE_INPUTS)
        (geometries : List D3D12_RAYTRACING_GEOMETRY_DESC)
        (info : D3D12_RAYTRACING_ACCELERATION_STRUCTURE_PREBUILD_INFO),
        info = exampleDeviceWithUpdate.GetRaytracingAccelerationStructurePrebuildInfo pre inputs
          geometries ∧
        st1.calls = pre ++
          [DeviceCall.GetRaytracingAccelerationStructurePrebuildInfo inputs geometries] ++
          scratchAllocations info ∧
        allocationRequests pre = allocationRequests exampleInitializeState.calls ∧
        allocationRequests st1.calls = allocationRequests exampleInitializeState.calls ++
          ([(info.ResultDataMaxSizeInBytes,
              D3D12_RESOURCE_STATES.D3D12_RESOURCE_STATE_RAYTRACING_ACCELERATION_STRUCTURE),
            (info.ScratchDataSizeInBytes,
              D3D12_RESOURCE_STATES.D3D12_RESOURCE_STATE_UNORDERED_ACCESS)] ++
          (if info.UpdateScratchDataSizeInBytes > 0 then
            [(info.UpdateScratchDataSizeInBytes,
              D3D12_RESOURCE_STATES.D3D12_RESOURCE_STATE_UNORDERED_ACCESS)]
          else [])) ∧
        st1.self.mScratchMemory.result.IsHeld = true ∧
        st1.self.mScratchMemory.build.IsHeld = true ∧
        (info.UpdateScratchDataSizeInBytes > 0 →
          st1.self.mScratchMemory.update.IsHeld = true) ∧
        (info.UpdateScratchDataSizeInBytes = 0 →
          st1.self.mScratchMemory.update = exampleInitializeState.self.mScratchMemory.update ∧
          (exampleInitializeState.self.mScratchMemory.update = MemoryEntry.absent →
            st1.self.mScratchMemory.update = MemoryEntry.absent)) :=
  ⟨_, rfl, rfl, initialize_allocates_scratch_pools exampleDeviceWithUpdate
    exampleWorldD3D12.derived exampleInitializeState _ (exampleBottom [exampleTriangles] [])
    rfl⟩

end d3d12

theorem fromDescriptor_level_lists (device : DeviceBase) (usage0 : Nat)
    (level0 : RayTracingAccelerationContainerLevel)
    (d : RayTracingAccelerationContainerDescriptor) :
    (d.level = RayTracingAccelerationContainerLevel.Top →
      (RayTracingAccelerationContainerBase.fromDescriptor device usage0 level0 d).1.mVertexBuffers
          = [] ∧
        (RayTracingAccelerationContainerBase.fromDescriptor device usage0 level0
          d).1.mIndexBuffers = [] ∧
        (RayTracingAccelerationContainerBase.fromDescriptor device usage0 level0
          d).1.mAABBBuffers = []) ∧
    (d.level = RayTracingAccelerationContainerLevel.Bottom →
      (RayTracingAccelerationContainerBase.fromDescriptor device usage0 level0
        d).1.mGeometryContainers = []) ∧
    (device.IsExtensionEnabledRayTracing = true →
      (RayTracingAccelerationContainerBase.fromDescriptor device usage0 level0 d).1.GetLevel =
        d.level) := by
  cases hExt : device.IsExtensionEnabledRayTracing
  · refine ⟨fun _ => ?_, fun _ => ?_, fun h => by cases h⟩ <;>
      simp [RayTracingAccelerationContainerBase.fromDescriptor, hExt,
        RayTracingAccelerationContainerBase.members]
  · refine ⟨fun hTop => ?_, fun hBottom => ?_, fun _ => ?_⟩
    · rw [fromDescriptor_top device usage0 level0 d hExt hTop]
      exact ⟨rfl, rfl, rfl⟩
    · rw [fromDescriptor_bottom device usage0 level0 d hExt hBottom]
      rfl
    · by_cases hTop : d.level = RayTracingAccelerationContainerLevel.Top
      · rw [fromDescriptor_top device usage0 level0 d hExt hTop, hTop]
        rfl
      · by_cases hBottom : d.level = RayTracingAccelerationContainerLevel.Bottom
        · rw [fromDescriptor_bottom device usage0 level0 d hExt hBottom, hBottom]
          rfl
        · simp [RayTracingAccelerationContainerBase.fromDescriptor, hExt, hTop, hBottom,
            RayTracingAccelerationContainerBase.GetLevel]

namespace d3d12

theorem updateInstance_d3d12 (w : World RayTracingAccelerationContainer) (self : Addr)
    (instanceIndex : Nat) (d : RayTracingAccelerationInstanceDescriptor)
    (hValid : (w.heap.containers self).IsError = false) :
    ∃ w1, UpdateInstance backend w self instanceIndex d = some w1 ∧ w1.heap = w.heap ∧
      w1.derived = w.derived := by
  unfold UpdateInstance
  simp only [hValid, Bool.false_eq_true, if_false, UpdateInstanceImpl]
  split_ifs
  · exact ⟨_, rfl, rfl, rfl⟩
  · refine ⟨_, rfl, rfl, ?_⟩
    simp [backend, RayTracingAccelerationContainer.UpdateInstanceImpl]

end d3d12

namespace d3d12

theorem levelInvariant_of_eq (level : RayTracingAccelerationContainerLevel)
    (base base1 : RayTracingAccelerationContainerBase)
    (derived derived1 : RayTracingAccelerationContainer)
    (h : LevelInvariant level base derived)
    (hV : base1.mVertexBuffers = base.mVertexBuffers)
    (hI : base1.mIndexBuffers = base.mIndexBuffers)
    (hA : base1.mAABBBuffers = base.mAABBBuffers)
    (hC : base1.mGeometryContainers = base.mGeometryContainers)
    (hD : derived1 = derived) : LevelInvariant level base1 derived1 := by
  subst hD
  unfold LevelInvariant at h ⊢
  rw [hV, hI, hA, hC]
  exact h

/-- C22: the level invariant.  For a container constructed from a descriptor and initialized by
the D3D12 `Initialize` (whatever the result), a top-level descriptor leaves the retained
vertex, index and AABB buffer lists and the encoded geometry list empty, and a bottom-level
descriptor leaves the retained geometry-container list and the encoded instance list empty;
the level member is the descriptor's level when the ray-tracing extension is enabled.
`Destroy` and `UpdateInstance` on a non-error D3D12 container return and preserve the
invariant and the level. -/
theorem level_invariant_established_and_preserved (device : DeviceBase) (usage0 : Nat)
    (level0 : RayTracingAccelerationContainerLevel) (d3d12Device : Device)
    (derived : Addr → RayTracingAccelerationContainer)
    (buildInformation0 : D3D12_BUILD_RAYTRACING_ACCELERATION_STRUCTURE_INPUTS)
    (heap : Heap) (calls : List DeviceCall)
    (descriptor : RayTracingAccelerationContainerDescriptor)
    (r : MaybeError) (st1 : InitializeState)
    (hInit : RayTracingAccelerationContainer.Initialize d3d12Device derived
      { self := RayTracingAccelerationContainer.members buildInformation0, heap := heap,
        calls := calls } descriptor = some (r, st1)) :
    LevelInvariant descriptor.level
      (RayTracingAccelerationContainerBase.fromDescriptor device usage0 level0 descriptor).1
      st1.self ∧
    (device.IsExtensionEnabledRayTracing = true →
      (RayTracingAccelerationContainerBase.fromDescriptor device usage0 level0
        descriptor).1.GetLevel = descriptor.level) ∧
    ∀ (level : RayTracingAccelerationContainerLevel)
      (w : World RayTracingAccelerationContainer) (self : Addr),
      (w.heap.containers self).IsError = false →
      LevelInvariant level (w.heap.containers self) (w.derived self) →
      (∃ w1, Destroy backend w self = some w1 ∧
        LevelInvariant level (w1.heap.containers self) (w1.derived self) ∧
        (w1.heap.containers self).GetLevel = (w.heap.containers self).GetLevel) ∧
      (∀ (instanceIndex : Nat) (d : RayTracingAccelerationInstanceDescriptor),
        ∃ w1, UpdateInstance backend w self instanceIndex d = some w1 ∧
          LevelInvariant level (w1.heap.containers self) (w1.derived self) ∧
          (w1.heap.containers self).GetLevel = (w.heap.containers self).GetLevel) := by
  obtain ⟨hTopLists, hBottomList, hLevel⟩ := fromDescriptor_level_lists device usage0 level0
    descriptor
  have hDerived :
      (descriptor.level = RayTracingAccelerationContainerLevel.Top → st1.self.mGeometries = []) ∧
      (descriptor.level = RayTracingAccelerationContainerLevel.Bottom →
        st1.self.mInstances = []) := by
    rcases initialize_some d3d12Device derived _ descriptor r st1 hInit with
      ⟨_, _, hSame⟩ | ⟨_, st0, hReserve, _, _, hGeo, hInst⟩
    · subst hSame
      exact ⟨fun _ => rfl, fun _ => rfl⟩
    · have h1 : st1 = (reserveScratchMemory d3d12Device st0).2 := by rw [hReserve]
      refine ⟨fun hTop => ?_, fun hBottom => ?_⟩
      · rw [h1, reserveScratchMemory_mGeometries, hGeo (by rw [hTop]; decide)]
        rfl
      · rw [h1, reserveScratchMemory_mInstances, hInst (by rw [hBottom]; decide)]
        rfl
  refine ⟨⟨fun hTop => ?_, fun hBottom => ⟨hBottomList hBottom, hDerived.2 hBottom⟩⟩, hLevel, ?_⟩
  · obtain ⟨hV, hI, hA⟩ := hTopLists hTop
    exact ⟨hV, hI, hA, hDerived.1 hTop⟩
  · intro level w self hValid hInv
    refine ⟨?_, fun instanceIndex d => ?_⟩
    · obtain ⟨w1, h1⟩ := destroy_total_of_valid backend w self hValid
      obtain ⟨_, hHeap⟩ := destroy_heap backend w w1 self h1
      have hDer := destroy_d3d12_derived w w1 self h1
      have hC : w1.heap.containers self = (w.heap.containers self).SetDestroyState true := by
        rw [hHeap, setContainer_containers_self]
      refine ⟨w1, h1, ?_, ?_⟩
      · exact levelInvariant_of_eq level _ _ _ _ hInv (by rw [hC]; rfl) (by rw [hC]; rfl)
          (by rw [hC]; rfl) (by rw [hC]; rfl) (by rw [hDer])
      · rw [hC]
        rfl
    · obtain ⟨w1, h1, hHeap, hDer⟩ := updateInstance_d3d12 w self instanceIndex d hValid
      refine ⟨w1, h1, ?_, by rw [hHeap]⟩
      rw [hHeap, hDer]
      exact hInv

theorem level_invariant_established_and_preserved_witness :
    ∃ r st1, RayTracingAccelerationContainer.Initialize (exampleDevice true)
        exampleWorldInitialized.derived
        { self := RayTracingAccelerationContainer.members exampleBuildInformation,
          heap := exampleHeap, calls := [] }
        (exampleTop [] [exampleInstance 10]) = some (r, st1) ∧
      st1.self.mInstances.length = 1 ∧
      LevelInvariant (exampleTop [] [exampleInstance 10]).level
        (RayTracingAccelerationContainerBase.fromDescriptor dawn_native.exampleDevice 0
          RayTracingAccelerationContainerLevel.Invalid (exampleTop [] [exampleInstance 10])).1
        st1.self :=
  ⟨_, _, rfl, rfl, (level_invariant_established_and_preserved dawn_native.exampleDevice 0
    RayTracingAccelerationContainerLevel.Invalid (exampleDevice true)
    exampleWorldInitialized.derived exampleBuildInformation exampleHeap []
    (exampleTop [] [exampleInstance 10]) _ _ rfl).1⟩

end d3d12

namespace d3d12

theorem encodeGeometry_of_aabb_with_vertex (device : Device)
    (g : RayTracingAccelerationGeometryDescriptor)
    (a : RayTracingAccelerationGeometryAABBDescriptor)
    (v : RayTracingAccelerationGeometryVertexDescriptor) (b : Addr)
    (hAabb : g.aabb = some a) (hBuffer : a.buffer = some b) (hVertex : g.vertex = some v) :
    ∃ e, encodeGeometry device g = some e ∧
      e.data = D3D12_RAYTRACING_GEOMETRY_DATA.AABBs
        { AABBCount := a.count,
          AABBs :=
            { StartAddress :=
                ((device.GetD3D12Resource b).GetGPUVirtualAddress + a.offset) % 2 ^ 64,
              StrideInBytes := v.stride } } := by
  simp [encodeGeometry, hAabb, hBuffer, hVertex]

theorem initialize_none_of_accepted_aabb (rayTracing : Nat) (device : Device)
    (derived : Addr → RayTracingAccelerationContainer) (st : InitializeState)
    (d : RayTracingAccelerationContainerDescriptor)
    (hToggle : device.UseD3D12RayTracing = true)
    (hBottom : d.level = RayTracingAccelerationContainerLevel.Bottom)
    (hok : ValidateRayTracingAccelerationContainerDescriptor rayTracing st.heap d =
      some (Except.ok ()))
    (g : RayTracingAccelerationGeometryDescriptor) (hg : g ∈ d.geometries)
    (hAabb : g.aabb ≠ none) :
    encodeGeometry device g = none ∧
      RayTracingAccelerationContainer.Initialize device derived st d = none := by
  have hFacts := accepted_geometry_facts rayTracing st.heap d hBottom hok g hg
  have hVertex : g.vertex = none := (hFacts.2.1 hAabb).1
  obtain ⟨a, ha⟩ := Option.ne_none_iff_exists'.mp hAabb
  obtain ⟨b, hb, _⟩ := hFacts.2.2.2.2.2 a ha
  have hBuffer : ∃ a b, g.aabb = some a ∧ a.buffer = some b := ⟨a, b, ha, hb⟩
  refine ⟨encodeGeometry_none_of_aabb_without_vertex device g hBuffer hVertex, ?_⟩
  unfold RayTracingAccelerationContainer.Initialize
  simp only [hToggle, Bool.not_true, Bool.false_eq_true, if_false, hBottom, if_true,
    encodeGeometries_none_of_aabb_without_vertex device d.geometries st.self.mGeometries
      ⟨g, hg, hBuffer, hVertex⟩]

/-- C24: for the AABB geometry `exampleAabbOnly` (AABB data, no vertex data), which validation
accepts in a bottom-level descriptor, the AABB block of the geometry loop reads
`geometry.vertex->stride` through the null `vertex` pointer: no AABB record is produced and
`Initialize` does not return.  On `exampleAabbWithVertex` (AABB and vertex data), which
validation rejects, the record is produced with the start address, count and vertex stride the
specification names. -/
theorem aabb_record_reads_null_vertex :
    exampleAabbOnly.aabb = some exampleAabb ∧ exampleAabbOnly.vertex = none ∧
    ValidateRayTracingAccelerationContainerDescriptor exampleRayTracing exampleHeap
      (exampleBottom [exampleAabbOnly] []) = some (Except.ok ()) ∧
    encodeGeometry (exampleDevice true) exampleAabbOnly = none ∧
    RayTracingAccelerationContainer.Initialize (exampleDevice true) exampleWorldD3D12.derived
      exampleInitializeState (exampleBottom [exampleAabbOnly] []) = none ∧
    (ValidateRayTracingAccelerationContainerDescriptor exampleRayTracing exampleHeap
      (exampleBottom [exampleAabbWithVertex] [])).map MaybeError.IsValidationError =
        some true ∧
    (encodeGeometry (exampleDevice true) exampleAabbWithVertex).map (fun e => e.data) =
      some (D3D12_RAYTRACING_GEOMETRY_DATA.AABBs
        { AABBCount := 1, AABBs := { StartAddress := 4096, StrideInBytes := 12 } }) :=
  ⟨rfl, rfl, rfl, rfl, rfl, rfl, rfl⟩

/-- C28: the geometry loop of D3D12 `Initialize` is not total on validated input.  The
bottom-level descriptor with the triangle geometry `exampleIndexedTriangles` followed by the
AABB geometry `exampleAabbOnly` is accepted by
`ValidateRayTracingAccelerationContainerDescriptor`; the triangle geometry is encoded, and for
the AABB geometry, whose `vertex` pointer is null, the loop reads `geometry.vertex->stride`: the
loop and `Initialize` produce no result. -/
theorem geometry_loop_reads_absent_vertex :
    ValidateRayTracingAccelerationContainerDescriptor exampleRayTracing exampleHeap
      (exampleBottom [exampleIndexedTriangles, exampleAabbOnly] []) = some (Except.ok ()) ∧
    (encodeGeometry (exampleDevice true) exampleIndexedTriangles).isSome = true ∧
    exampleAabbOnly.vertex = none ∧ exampleAabbOnly.aabb.isSome = true ∧
    encodeGeometries (exampleDevice true) [] [exampleIndexedTriangles, exampleAabbOnly] = none ∧
    RayTracingAccelerationContainer.Initialize (exampleDevice true) exampleWorldD3D12.derived
      exampleInitializeState (exampleBottom [exampleIndexedTriangles, exampleAabbOnly] []) =
        none :=
  ⟨rfl, rfl, rfl, rfl, rfl, rfl⟩

end d3d12

namespace vulkan

theorem countStage_le_length (stage : ShaderStage)
    (shaders : List RayTracingShaderBindingTableShadersDescriptor) :
    countStage stage shaders ≤ shaders.length :=
  List.length_filter_le _ _

theorem countStage_sum (shaders : List RayTracingShaderBindingTableShadersDescriptor) :
    countStage ShaderStage.RayGeneration shaders + countStage ShaderStage.RayClosestHit shaders +
      countStage ShaderStage.RayAnyHit shaders + countStage ShaderStage.RayMiss shaders +
      countStage ShaderStage.Other shaders = shaders.length := by
  induction shaders with
  | nil => rfl
  | cons a rest ih =>
    simp only [countStage_cons, List.length_cons]
    cases h : a.stage <;> simp only [reduceCtorEq, if_true, if_false] <;> omega

theorem countStage_other_eq_zero (shaders : List RayTracingShaderBindingTableShadersDescriptor)
    (h : ∀ s ∈ shaders, s.stage ≠ ShaderStage.Other) :
    countStage ShaderStage.Other shaders = 0 := by
  unfold countStage
  rw [List.length_eq_zero, List.filter_eq_nil_iff]
  intro s hs
  simpa using h s hs

theorem ingestShader_counter (device : Device) (self : RayTracingShaderBindingTable)
    (shader : RayTracingShaderBindingTableShadersDescriptor) (role : ShaderStage) :
    (ingestShader device self shader).counter role =
      if shader.stage = role ∧ role ≠ ShaderStage.Other then (self.counter role + 1) % 2 ^ 32
      else self.counter role := by
  cases hs : shader.stage <;> cases role <;>
    simp [ingestShader, countShader, RayTracingShaderBindingTable.counter, hs]

theorem initialize_counters_fresh (device : Device)
    (properties0 : VkPhysicalDeviceRayTracingPropertiesNV)
    (descriptor : RayTracingShaderBindingTableDescriptor)
    (hfn : device.hasGetRayTracingShaderGroupHandlesNV = true)
    (hCount : descriptor.shaderCount < 2 ^ 32) :
    (RayTracingShaderBindingTable.Initialize device
        (RayTracingShaderBindingTable.empty properties0) descriptor).2.mRayGenerationCount =
      countStage ShaderStage.RayGeneration descriptor.shaders ∧
    (RayTracingShaderBindingTable.Initialize device
        (RayTracingShaderBindingTable.empty properties0) descriptor).2.mRayClosestHitCount =
      countStage ShaderStage.RayClosestHit descriptor.shaders ∧
    (RayTracingShaderBindingTable.Initialize device
        (RayTracingShaderBindingTable.empty properties0) descriptor).2.mRayAnyHitCount =
      countStage ShaderStage.RayAnyHit descriptor.shaders ∧
    (RayTracingShaderBindingTable.Initialize device
        (RayTracingShaderBindingTable.empty properties0) descriptor).2.mRayMissCount =
      countStage ShaderStage.RayMiss descriptor.shaders := by
  rw [initialize_of_fn device _ descriptor hfn]
  obtain ⟨h1, h2, h3, h4⟩ := foldl_ingestShader_counts device descriptor.shaders
    { RayTracingShaderBindingTable.empty properties0 with
      mRayTracingProperties := device.rayTracingProperties }
    (by simp [RayTracingShaderBindingTable.empty]) (by simp [RayTracingShaderBindingTable.empty])
    (by simp [RayTracingShaderBindingTable.empty]) (by simp [RayTracingShaderBindingTable.empty])
  unfold RayTracingShaderBindingTableDescriptor.shaderCount at hCount
  have hle := fun stage => countStage_le_length stage descriptor.shaders
  refine ⟨h1.trans ?_, h2.trans ?_, h3.trans ?_, h4.trans ?_⟩ <;>
    · simp only [RayTracingShaderBindingTable.empty, Nat.zero_add]
      exact Nat.mod_eq_of_lt (lt_of_le_of_lt (hle _) hCount)

theorem initialize_group_fresh (device : Device)
    (properties0 : VkPhysicalDeviceRayTracingPropertiesNV)
    (descriptor : RayTracingShaderBindingTableDescriptor)
    (hfn : device.hasGetRayTracingShaderGroupHandlesNV = true)
    (hCount : descriptor.shaderCount < 2 ^ 32) (i : Nat)
    (shader : RayTracingShaderBindingTableShadersDescriptor)
    (hi : descriptor.shaders[i]? = some shader) :
    (RayTracingShaderBindingTable.Initialize device
        (RayTracingShaderBindingTable.empty properties0) descriptor).2.mGroups[i]? =
      some (shaderGroupInfo i shader.stage) := by
  rw [initialize_of_fn device _ descriptor hfn]
  have hlt : i < descriptor.shaders.length := by
    rcases Nat.lt_or_ge i descriptor.shaders.length with h | h
    · exact h
    · rw [List.getElem?_eq_none h] at hi
      cases hi
  have hi32 : i < 4294967296 := by
    unfold RayTracingShaderBindingTableDescriptor.shaderCount at hCount
    omega
  have hmod : i % 4294967296 = i := Nat.mod_eq_of_lt hi32
  simp [foldl_ingestShader_mGroups, RayTracingShaderBindingTable.empty, List.getElem?_map,
    List.getElem?_enumFrom, hi, hmod]

end vulkan

namespace vulkan

/-- C23, as the specification states it, fails: the shader at position 1 of
`exampleShadersWithOther` has a stage that is none of the four ray-tracing stages; the group
`Initialize` creates for it has the type `VK_SHADER_UNUSED_NV`, neither General nor
Triangle-hit-group, no counter is incremented for it, and the four counters sum to 1 while the
list has 2 shaders. -/
theorem other_stage_group_is_untyped :
    exampleShadersWithOther.shaders[1]? = some (exampleShader 2 ShaderStage.Other) ∧
    (RayTracingShaderBindingTable.Initialize (exampleDevice 32)
      (RayTracingShaderBindingTable.empty { shaderGroupHandleSize := 0 })
      exampleShadersWithOther).1 = Except.ok () ∧
    ((RayTracingShaderBindingTable.Initialize (exampleDevice 32)
      (RayTracingShaderBindingTable.empty { shaderGroupHandleSize := 0 })
      exampleShadersWithOther).2.mGroups[1]?).map (fun g => g.type_) =
        some VK_SHADER_UNUSED_NV ∧
    VK_SHADER_UNUSED_NV ≠ VK_RAY_TRACING_SHADER_GROUP_TYPE_GENERAL_NV ∧
    VK_SHADER_UNUSED_NV ≠ VK_RAY_TRACING_SHADER_GROUP_TYPE_TRIANGLES_HIT_GROUP_NV ∧
    (RayTracingShaderBindingTable.Initialize (exampleDevice 32)
        (RayTracingShaderBindingTable.empty { shaderGroupHandleSize := 0 })
        exampleShadersWithOther).2.mRayGenerationCount +
      (RayTracingShaderBindingTable.Initialize (exampleDevice 32)
        (RayTracingShaderBindingTable.empty { shaderGroupHandleSize := 0 })
        exampleShadersWithOther).2.mRayClosestHitCount +
      (RayTracingShaderBindingTable.Initialize (exampleDevice 32)
        (RayTracingShaderBindingTable.empty { shaderGroupHandleSize := 0 })
        exampleShadersWithOther).2.mRayAnyHitCount +
      (RayTracingShaderBindingTable.Initialize (exampleDevice 32)
        (RayTracingShaderBindingTable.empty { shaderGroupHandleSize := 0 })
        exampleShadersWithOther).2.mRayMissCount = 1 ∧
    exampleShadersWithOther.shaderCount = 2 := by
  refine ⟨rfl, rfl, rfl, ?_, ?_, rfl, rfl⟩ <;> decide

/-- C23 (amended): `Initialize` on a fresh table (no group, counters at zero) with a list of
fewer than 2^32 shaders succeeds; the group created for the shader at position `i` has the
intersection index UNUSED; for a RayGeneration or RayMiss shader it has type General and only
the general index set (to `i`), for a RayClosestHit shader type Triangle-hit-group and only the
closest-hit index set, for a RayAnyHit shader type Triangle-hit-group and only the any-hit index
set, and for a shader of any other stage type and all indices UNUSED.  Ingesting one shader
increments the counter of its stage by one (in 32 bits) when the stage is one of the four
ray-tracing stages, and changes no other counter.  Afterwards each counter is the number of
shaders of its role, and the four counters sum to the number of shaders of the four ray-tracing
stages: to the number of shaders when every shader has one of these stages. -/
theorem groups_and_counters_by_stage (device : Device)
    (properties0 : VkPhysicalDeviceRayTracingPropertiesNV)
    (descriptor : RayTracingShaderBindingTableDescriptor)
    (hfn : device.hasGetRayTracingShaderGroupHandlesNV = true)
    (hCount : descriptor.shaderCount < 2 ^ 32) :
    ∃ t, RayTracingShaderBindingTable.Initialize device
        (RayTracingShaderBindingTable.empty properties0) descriptor = (Except.ok (), t) ∧
      (∀ (i : Nat) (shader : RayTracingShaderBindingTableShadersDescriptor),
        descriptor.shaders[i]? = some shader →
        ∃ g : VkRayTracingShaderGroupCreateInfoNV, t.mGroups[i]? = some g ∧
          g.intersectionShader = VK_SHADER_UNUSED_NV ∧ i ≠ VK_SHADER_UNUSED_NV ∧
          (shader.stage = ShaderStage.RayGeneration ∨ shader.stage = ShaderStage.RayMiss →
            g.type_ = VK_RAY_TRACING_SHADER_GROUP_TYPE_GENERAL_NV ∧ g.generalShader = i ∧
            g.closestHitShader = VK_SHADER_UNUSED_NV ∧ g.anyHitShader = VK_SHADER_UNUSED_NV) ∧
          (shader.stage = ShaderStage.RayClosestHit →
            g.type_ = VK_RAY_TRACING_SHADER_GROUP_TYPE_TRIANGLES_HIT_GROUP_NV ∧
            g.closestHitShader = i ∧
            g.generalShader = VK_SHADER_UNUSED_NV ∧ g.anyHitShader = VK_SHADER_UNUSED_NV) ∧
          (shader.stage = ShaderStage.RayAnyHit →
            g.type_ = VK_RAY_TRACING_SHADER_GROUP_TYPE_TRIANGLES_HIT_GROUP_NV ∧
            g.anyHitShader = i ∧
            g.generalShader = VK_SHADER_UNUSED_NV ∧ g.closestHitShader = VK_SHADER_UNUSED_NV) ∧
          (shader.stage = ShaderStage.Other →
            g.type_ = VK_SHADER_UNUSED_NV ∧ g.generalShader = VK_SHADER_UNUSED_NV ∧
            g.closestHitShader = VK_SHADER_UNUSED_NV ∧ g.anyHitShader = VK_SHADER_UNUSED_NV)) ∧
      (∀ (self : RayTracingShaderBindingTable)
        (shader : RayTracingShaderBindingTableShadersDescriptor) (role : ShaderStage),
        (ingestShader device self shader).counter role =
          if shader.stage = role ∧ role ≠ ShaderStage.Other then
            (self.counter role + 1) % 2 ^ 32
          else self.counter role) ∧
      t.mRayGenerationCount = countStage ShaderStage.RayGeneration descriptor.shaders ∧
      t.mRayClosestHitCount = countStage ShaderStage.RayClosestHit descriptor.shaders ∧
      t.mRayAnyHitCount = countStage ShaderStage.RayAnyHit descriptor.shaders ∧
      t.mRayMissCount = countStage ShaderStage.RayMiss descriptor.shaders ∧
      t.mRayGenerationCount + t.mRayClosestHitCount + t.mRayAnyHitCount + t.mRayMissCount +
        countStage ShaderStage.Other descriptor.shaders = descriptor.shaderCount ∧
      ((∀ s ∈ descriptor.shaders, s.stage ≠ ShaderStage.Other) →
        t.mRayGenerationCount + t.mRayClosestHitCount + t.mRayAnyHitCount + t.mRayMissCount =
          descriptor.shaderCount) := by
  obtain ⟨h1, h2, h3, h4⟩ := initialize_counters_fresh device properties0 descriptor hfn hCount
  have hSum := countStage_sum descriptor.shaders
  refine ⟨_, Prod.ext (by rw [initialize_of_fn device _ descriptor hfn]) rfl, ?_,
    ingestShader_counter device, h1, h2, h3, h4, ?_, ?_⟩
  · intro i shader hi
    have hlt : i < descriptor.shaders.length := by
      rcases Nat.lt_or_ge i descriptor.shaders.length with h | h
      · exact h
      · rw [List.getElem?_eq_none h] at hi
        cases hi
    have hne : i ≠ VK_SHADER_UNUSED_NV := by
      unfold RayTracingShaderBindingTableDescriptor.shaderCount at hCount
      unfold VK_SHADER_UNUSED_NV
      omega
    refine ⟨_, initialize_group_fresh device properties0 descriptor hfn hCount i shader hi,
      ?_, hne, ?_, ?_, ?_, ?_⟩
    · cases shader.stage <;> rfl
    · rintro (h | h) <;> rw [h] <;> exact ⟨rfl, rfl, rfl, rfl⟩
    · intro h
      rw [h]
      exact ⟨rfl, rfl, rfl, rfl⟩
    · intro h
      rw [h]
      exact ⟨rfl, rfl, rfl, rfl⟩
    · intro h
      rw [h]
      exact ⟨rfl, rfl, rfl, rfl⟩
  · rw [h1, h2, h3, h4]
    exact hSum
  · intro hRoles
    rw [h1, h2, h3, h4]
    have h0 := countStage_other_eq_zero descriptor.shaders hRoles
    unfold RayTracingShaderBindingTableDescriptor.shaderCount
    omega

theorem groups_and_counters_by_stage_witness :
    (exampleDevice 32).hasGetRayTracingShaderGroupHandlesNV = true ∧
    exampleShaders.shaderCount < 2 ^ 32 ∧
    ∃ t, RayTracingShaderBindingTable.Initialize (exampleDevice 32)
        (RayTracingShaderBindingTable.empty { shaderGroupHandleSize := 0 }) exampleShaders =
          (Except.ok (), t) ∧
      t.mRayGenerationCount = 2 ∧ t.mRayClosestHitCount = 1 ∧ t.mRayAnyHitCount = 1 ∧
      t.mRayMissCount = 1 ∧
      t.mRayGenerationCount + t.mRayClosestHitCount + t.mRayAnyHitCount + t.mRayMissCount =
        exampleShaders.shaderCount := by
  refine ⟨rfl, by decide, ?_⟩
  obtain ⟨t, ht, _, _, h1, h2, h3, h4, _, hSum⟩ := groups_and_counters_by_stage
    (exampleDevice 32) { shaderGroupHandleSize := 0 } exampleShaders rfl (by decide)
  exact ⟨t, ht, h1.trans (by decide), h2.trans (by decide), h3.trans (by decide),
    h4.trans (by decide), hSum (by decide)⟩

end vulkan

namespace vulkan

theorem countStage_append (stage : ShaderStage)
    (xs ys : List RayTracingShaderBindingTableShadersDescriptor) :
    countStage stage (xs ++ ys) = countStage stage xs + countStage stage ys := by
  simp [countStage, List.filter_append]

theorem countStage_of_all (role : ShaderStage)
    (xs : List RayTracingShaderBindingTableShadersDescriptor)
    (h : ∀ s ∈ xs, s.stage = role) : countStage role xs = xs.length := by
  unfold countStage
  rw [List.filter_eq_self.mpr]
  intro s hs
  simpa using h s hs

theorem countStage_of_other_stage (role role1 : ShaderStage)
    (xs : List RayTracingShaderBindingTableShadersDescriptor)
    (h : ∀ s ∈ xs, s.stage = role1) (hne : role1 ≠ role) : countStage role xs = 0 := by
  unfold countStage
  rw [List.length_eq_zero, List.filter_eq_nil_iff]
  intro s hs
  rw [h s hs]
  simpa using hne

theorem isFirstIndexOfStage_of_split (role : ShaderStage)
    (shaders pre rest : List RayTracingShaderBindingTableShadersDescriptor)
    (s0 : RayTracingShaderBindingTableShadersDescriptor)
    (hSplit : shaders = pre ++ s0 :: rest) (hPre : ∀ s ∈ pre, s.stage ≠ role)
    (h0 : s0.stage = role) : IsFirstIndexOfStage shaders role pre.length := by
  subst hSplit
  refine ⟨⟨s0, ?_, h0⟩, ?_⟩
  · rw [List.getElem?_append_right (Nat.le_refl _), Nat.sub_self]
    simp
  · intro j s hj hs
    rw [List.getElem?_append_left hj] at hs
    exact hPre s (List.getElem?_mem hs)

theorem exists_cons_of_length_pos
    (xs : List RayTracingShaderBindingTableShadersDescriptor)
    (h : 0 < xs.length) : ∃ s0 rest, xs = s0 :: rest := by
  cases xs with
  | nil => cases h
  | cons a rest => exact ⟨a, rest, rfl⟩

end vulkan

namespace vulkan

theorem initialize_handleSize (device : Device) (self : RayTracingShaderBindingTable)
    (descriptor : RayTracingShaderBindingTableDescriptor)
    (hfn : device.hasGetRayTracingShaderGroupHandlesNV = true) :
    (RayTracingShaderBindingTable.Initialize device self descriptor).2.GetShaderGroupHandleSize
      = device.rayTracingProperties.shaderGroupHandleSize := by
  rw [initialize_of_fn device self descriptor hfn]
  simp [RayTracingShaderBindingTable.GetShaderGroupHandleSize,
    foldl_ingestShader_mRayTracingProperties]

theorem mul_mod_div_eq (h n : Nat) (hSize : 0 < h) (hNoOverflow : h * n < 2 ^ 32) :
    (h * n) % 2 ^ 32 / h = n := by
  rw [Nat.mod_eq_of_lt hNoOverflow, Nat.mul_div_cancel_left n hSize]

theorem groupIsFor_shaderGroupInfo (i : Nat) (stage : ShaderStage)
    (hi : i ≠ VK_SHADER_UNUSED_NV) (hStage : stage ≠ ShaderStage.Other) :
    GroupIsFor (shaderGroupInfo i stage) i stage := by
  cases stage with
  | Other => exact absurd rfl hStage
  | RayGeneration => exact ⟨rfl, hi, rfl, rfl, rfl, rfl⟩
  | RayClosestHit => exact ⟨rfl, hi, rfl, rfl, rfl, rfl⟩
  | RayAnyHit => exact ⟨rfl, hi, rfl, rfl, rfl, rfl⟩
  | RayMiss => exact ⟨rfl, hi, rfl, rfl, rfl, rfl⟩

theorem initialize_groups_length_fresh (device : Device)
    (properties0 : VkPhysicalDeviceRayTracingPropertiesNV)
    (descriptor : RayTracingShaderBindingTableDescriptor)
    (hfn : device.hasGetRayTracingShaderGroupHandlesNV = true) :
    (RayTracingShaderBindingTable.Initialize device
      (RayTracingShaderBindingTable.empty properties0) descriptor).2.mGroups.length =
        descriptor.shaderCount := by
  rw [initialize_of_fn device _ descriptor hfn]
  simp [foldl_ingestShader_mGroups, RayTracingShaderBindingTable.empty,
    RayTracingShaderBindingTableDescriptor.shaderCount]

/-- C29: offsets agree with group indices for a shader list in role order.  `Initialize` on a
fresh table with a list of fewer than 2^32 shaders made of ray-generation shaders, then
closest-hit, then any-hit, then miss shaders succeeds, and the group at every position is the
group of the shader at that position (type and shader indices as its stage demands).  With a
positive group handle size, for every one of the four roles with at least one shader there is
the position `i` of the first shader of that role; the group at `i` is a group of that role
with index `i`; and when the offset computation does not overflow 32 bits (handle size times
`i` below 2^32), `GetOffsetImpl(role)` divided by the group handle size is `i`. -/
theorem offsets_agree_with_group_indices (device : Device)
    (properties0 : VkPhysicalDeviceRayTracingPropertiesNV)
    (descriptor : RayTracingShaderBindingTableDescriptor)
    (gens chs ahs ms : List RayTracingShaderBindingTableShadersDescriptor)
    (hfn : device.hasGetRayTracingShaderGroupHandlesNV = true)
    (hSize : 0 < device.rayTracingProperties.shaderGroupHandleSize)
    (hCount : descriptor.shaderCount < 2 ^ 32)
    (hOrder : descriptor.shaders = gens ++ chs ++ ahs ++ ms)
    (hGens : ∀ s ∈ gens, s.stage = ShaderStage.RayGeneration)
    (hChs : ∀ s ∈ chs, s.stage = ShaderStage.RayClosestHit)
    (hAhs : ∀ s ∈ ahs, s.stage = ShaderStage.RayAnyHit)
    (hMs : ∀ s ∈ ms, s.stage = ShaderStage.RayMiss) :
    ∃ t, RayTracingShaderBindingTable.Initialize device
        (RayTracingShaderBindingTable.empty properties0) descriptor = (Except.ok (), t) ∧
      t.GetShaderGroupHandleSize = device.rayTracingProperties.shaderGroupHandleSize ∧
      t.mGroups.length = descriptor.shaderCount ∧
      (∀ (j : Nat) (s : RayTracingShaderBindingTableShadersDescriptor),
        descriptor.shaders[j]? = some s →
        ∃ g : VkRayTracingShaderGroupCreateInfoNV,
          t.mGroups[j]? = some g ∧ GroupIsFor g j s.stage) ∧
      ∀ role : ShaderStage, role ≠ ShaderStage.Other →
        0 < countStage role descriptor.shaders →
        ∃ (i : Nat) (g : VkRayTracingShaderGroupCreateInfoNV),
          IsFirstIndexOfStage descriptor.shaders role i ∧
          t.mGroups[i]? = some g ∧ GroupIsFor g i role ∧
          (device.rayTracingProperties.shaderGroupHandleSize * i < 2 ^ 32 →
            t.GetOffsetImpl role / t.GetShaderGroupHandleSize = i) := by
  have hStages : ∀ s ∈ descriptor.shaders, s.stage ≠ ShaderStage.Other := by
    intro s hs
    rw [hOrder] at hs
    simp only [List.mem_append] at hs
    rcases hs with ((h | h) | h) | h
    · rw [hGens s h]; decide
    · rw [hChs s h]; decide
    · rw [hAhs s h]; decide
    · rw [hMs s h]; decide
  have cG : countStage ShaderStage.RayGeneration descriptor.shaders = gens.length := by
    rw [hOrder, countStage_append, countStage_append, countStage_append,
      countStage_of_all _ _ hGens, countStage_of_other_stage _ _ _ hChs (by decide),
      countStage_of_other_stage _ _ _ hAhs (by decide),
      countStage_of_other_stage _ _ _ hMs (by decide)]
    rfl
  have cC : countStage ShaderStage.RayClosestHit descriptor.shaders = chs.length := by
    rw [hOrder, countStage_append, countStage_append, countStage_append,
      countStage_of_all _ _ hChs, countStage_of_other_stage _ _ _ hGens (by decide),
      countStage_of_other_stage _ _ _ hAhs (by decide),
      countStage_of_other_stage _ _ _ hMs (by decide)]
    omega
  have cA : countStage ShaderStage.RayAnyHit descriptor.shaders = ahs.length := by
    rw [hOrder, countStage_append, countStage_append, countStage_append,
      countStage_of_all _ _ hAhs, countStage_of_other_stage _ _ _ hGens (by decide),
      countStage_of_other_stage _ _ _ hChs (by decide),
      countStage_of_other_stage _ _ _ hMs (by decide)]
    omega
  have cM : countStage ShaderStage.RayMiss descriptor.shaders = ms.length := by
    rw [hOrder, countStage_append, countStage_append, countStage_append,
      countStage_of_all _ _ hMs, countStage_of_other_stage _ _ _ hGens (by decide),
      countStage_of_other_stage _ _ _ hChs (by decide),
      countStage_of_other_stage _ _ _ hAhs (by decide)]
    omega
  obtain ⟨oG, oC, oA, oM⟩ := initialize_offsets device
    (RayTracingShaderBindingTable.empty properties0) descriptor hfn rfl rfl rfl rfl
  have hHandle := initialize_handleSize device (RayTracingShaderBindingTable.empty properties0)
    descriptor hfn
  have hGroup : ∀ (j : Nat) (s : RayTracingShaderBindingTableShadersDescriptor),
      descriptor.shaders[j]? = some s →
      ∃ g : VkRayTracingShaderGroupCreateInfoNV,
        (RayTracingShaderBindingTable.Initialize device
          (RayTracingShaderBindingTable.empty properties0) descriptor).2.mGroups[j]? =
            some g ∧ GroupIsFor g j s.stage := by
    intro j s hj
    have hlt : j < descriptor.shaders.length := by
      rcases Nat.lt_or_ge j descriptor.shaders.length with h | h
      · exact h
      · rw [List.getElem?_eq_none h] at hj
        cases hj
    have hne : j ≠ VK_SHADER_UNUSED_NV := by
      unfold RayTracingShaderBindingTableDescriptor.shaderCount at hCount
      unfold VK_SHADER_UNUSED_NV
      omega
    exact ⟨_, initialize_group_fresh device properties0 descriptor hfn hCount j s hj,
      groupIsFor_shaderGroupInfo j s.stage hne (hStages s (List.getElem?_mem hj))⟩
  have key : ∀ (role : ShaderStage) (i : Nat),
      IsFirstIndexOfStage descriptor.shaders role i →
      ∃ g : VkRayTracingShaderGroupCreateInfoNV,
        (RayTracingShaderBindingTable.Initialize device
          (RayTracingShaderBindingTable.empty properties0) descriptor).2.mGroups[i]? =
            some g ∧ GroupIsFor g i role := by
    intro role i hFirst
    obtain ⟨⟨s, hs, hStage⟩, _⟩ := hFirst
    obtain ⟨g, hg, hFor⟩ := hGroup i s hs
    rw [hStage] at hFor
    exact ⟨g, hg, hFor⟩
  refine ⟨_, Prod.ext (by rw [initialize_of_fn device _ descriptor hfn]) rfl, hHandle,
    initialize_groups_length_fresh device properties0 descriptor hfn, hGroup, ?_⟩
  intro role hRole hPos
  cases role with
  | Other => exact absurd rfl hRole
  | RayGeneration =>
    rw [cG] at hPos
    obtain ⟨s0, rest, hs0⟩ := exists_cons_of_length_pos gens hPos
    have hFirst : IsFirstIndexOfStage descriptor.shaders ShaderStage.RayGeneration 0 :=
      isFirstIndexOfStage_of_split _ descriptor.shaders [] (rest ++ chs ++ ahs ++ ms) s0
        (by rw [hOrder, hs0]; simp) (fun s hs => by cases hs)
        (hGens s0 (by rw [hs0]; exact List.mem_cons_self _ _))
    obtain ⟨g, hg, hFor⟩ := key _ _ hFirst
    exact ⟨0, g, hFirst, hg, hFor, fun _ => by rw [oG, Nat.zero_div]⟩
  | RayClosestHit =>
    rw [cC] at hPos
    obtain ⟨s0, rest, hs0⟩ := exists_cons_of_length_pos chs hPos
    have hFirst : IsFirstIndexOfStage descriptor.shaders ShaderStage.RayClosestHit
        gens.length :=
      isFirstIndexOfStage_of_split _ descriptor.shaders gens (rest ++ ahs ++ ms) s0
        (by rw [hOrder, hs0]; simp)
        (fun s hs => by rw [hGens s hs]; decide)
        (hChs s0 (by rw [hs0]; exact List.mem_cons_self _ _))
    obtain ⟨g, hg, hFor⟩ := key _ _ hFirst
    refine ⟨gens.length, g, hFirst, hg, hFor, fun hNoOverflow => ?_⟩
    rw [oC, hHandle, cG]
    exact mul_mod_div_eq _ _ hSize hNoOverflow
  | RayAnyHit =>
    rw [cA] at hPos
    obtain ⟨s0, rest, hs0⟩ := exists_cons_of_length_pos ahs hPos
    have hFirst : IsFirstIndexOfStage descriptor.shaders ShaderStage.RayAnyHit
        (gens ++ chs).length :=
      isFirstIndexOfStage_of_split _ descriptor.shaders (gens ++ chs) (rest ++ ms) s0
        (by rw [hOrder, hs0]; simp)
        (fun s hs => by
          rcases List.mem_append.mp hs with h | h
          · rw [hGens s h]; decide
          · rw [hChs s h]; decide)
        (hAhs s0 (by rw [hs0]; exact List.mem_cons_self _ _))
    rw [List.length_append] at hFirst
    obtain ⟨g, hg, hFor⟩ := key _ _ hFirst
    refine ⟨gens.length + chs.length, g, hFirst, hg, hFor, fun hNoOverflow => ?_⟩
    rw [oA, hHandle, cG, cC]
    exact mul_mod_div_eq _ _ hSize hNoOverflow
  | RayMiss =>
    rw [cM] at hPos
    obtain ⟨s0, rest, hs0⟩ := exists_cons_of_length_pos ms hPos
    have hFirst : IsFirstIndexOfStage descriptor.shaders ShaderStage.RayMiss
        (gens ++ chs ++ ahs).length :=
      isFirstIndexOfStage_of_split _ descriptor.shaders (gens ++ chs ++ ahs) rest s0
        (by rw [hOrder, hs0])
        (fun s hs => by
          rcases List.mem_append.mp hs with h | h
          · rcases List.mem_append.mp h with h | h
            · rw [hGens s h]; decide
            · rw [hChs s h]; decide
          · rw [hAhs s h]; decide)
        (hMs s0 (by rw [hs0]; exact List.mem_cons_self _ _))
    rw [List.length_append, List.length_append] at hFirst
    obtain ⟨g, hg, hFor⟩ := key _ _ hFirst
    refine ⟨gens.length + chs.length + ahs.length, g, hFirst, hg, hFor, fun hNoOverflow => ?_⟩
    rw [oM, hHandle, cG, cC, cA]
    exact mul_mod_div_eq _ _ hSize hNoOverflow

/-- Witness for C29: handle size 2^31 and the list of one ray-generation and one miss shader;
the miss offset 2^31 divided by the handle size is 1, the position of the miss group, although
handle size times the number of shaders is 2^32. -/
theorem offsets_agree_with_group_indices_witness :
    0 < (exampleDevice 2147483648).rayTracingProperties.shaderGroupHandleSize ∧
    exampleShadersGenMiss.shaderCount < 2 ^ 32 ∧
    (exampleDevice 2147483648).rayTracingProperties.shaderGroupHandleSize * 1 < 2 ^ 32 ∧
    ∃ (t : RayTracingShaderBindingTable) (g : VkRayTracingShaderGroupCreateInfoNV),
      RayTracingShaderBindingTable.Initialize (exampleDevice 2147483648)
        (RayTracingShaderBindingTable.empty { shaderGroupHandleSize := 0 })
        exampleShadersGenMiss = (Except.ok (), t) ∧
      IsFirstIndexOfStage exampleShadersGenMiss.shaders ShaderStage.RayMiss 1 ∧
      t.mGroups[1]? = some g ∧ GroupIsFor g 1 ShaderStage.RayMiss ∧
      t.GetOffsetImpl ShaderStage.RayMiss / t.GetShaderGroupHandleSize = 1 := by
  obtain ⟨t, ht, _, _, _, hRoles⟩ := offsets_agree_with_group_indices
    (exampleDevice 2147483648) { shaderGroupHandleSize := 0 } exampleShadersGenMiss
    [exampleShader 2 ShaderStage.RayGeneration] [] [] [exampleShader 4 ShaderStage.RayMiss]
    rfl (by decide) (by decide) rfl (by decide) (by decide) (by decide) (by decide)
  obtain ⟨i, g, hFirst, hg, hFor, hOffset⟩ := hRoles ShaderStage.RayMiss (by decide) (by decide)
  have hi : i = 1 := by
    obtain ⟨⟨s, hs, hStage⟩, hMin⟩ := hFirst
    rcases i with _ | _ | i
    · simp [exampleShadersGenMiss, exampleShader] at hs
      rw [← hs] at hStage
      cases hStage
    · rfl
    · simp [exampleShadersGenMiss] at hs
  subst hi
  exact ⟨by decide, by decide, by decide, t, g, ht, hFirst, hg, hFor, hOffset (by decide)⟩

end vulkan

end dawn_native
